import Mathlib

/-! # OpenGL-3D-Scene: the frame renderer, input callbacks and resource loaders

A shallow embedding of `OpenGLSample/Source.cpp`.

* `float` values are kept as the exact rationals their literals denote; the
  rounding of binary32 arithmetic is not modelled.
* GLM matrices are kept as the tree of GLM calls that builds them (`Mat4`), so
  two matrices are equal here exactly when the same calls with the same
  arguments built them.
* The OpenGL context is an explicit state (`GLState`) driven by commands
  (`GLCmd`); every draw call is observed together with the context it is
  issued in (`Draw`).
* Object names handed out by the GL (`GLuint`) are natural numbers.
-/

set_option linter.unusedVariables false

namespace OpenGLSample

/-! ## Vectors, angles and matrices (GLM) -/

/-- A `glm::vec2`. -/
structure Vec2 where
  x : ℚ
  y : ℚ
  deriving DecidableEq

/-- A `glm::vec3`. -/
structure Vec3 where
  x : ℚ
  y : ℚ
  z : ℚ
  deriving DecidableEq

/-- Componentwise sum of two `glm::vec3`. -/
def Vec3.add (a b : Vec3) : Vec3 := ⟨a.x + b.x, a.y + b.y, a.z + b.z⟩

/-- Componentwise difference of two `glm::vec3`. -/
def Vec3.sub (a b : Vec3) : Vec3 := ⟨a.x - b.x, a.y - b.y, a.z - b.z⟩

/-- A `glm::vec3` times a scalar. -/
def Vec3.smul (a : Vec3) (k : ℚ) : Vec3 := ⟨a.x * k, a.y * k, a.z * k⟩

/-- The value of `glm::radians(d)`: an angle, kept as the degree measure `d`
it was computed from. -/
structure Angle where
  degrees : ℚ
  deriving DecidableEq

/-- The library call `glm::radians`. -/
def radians (degrees : ℚ) : Angle := ⟨degrees⟩

/-- A `glm::mat4`, kept as the GLM calls that produce it. `mul a b` is the
C++ expression `a * b`. -/
inductive Mat4 where
  | scale (v : Vec3)
  | rotate (angle : Angle) (axis : Vec3)
  | translate (v : Vec3)
  | mul (a b : Mat4)
  | perspective (fovy : Angle) (aspect zNear zFar : ℚ)
  | ortho (left right bottom top zNear zFar : ℚ)
  | lookAt (eye center up : Vec3)
  deriving DecidableEq

instance : Mul Mat4 := ⟨Mat4.mul⟩

/-- The aspect-ratio argument of a matrix built by `glm::perspective`. -/
def Mat4.aspect? : Mat4 → Option ℚ
  | .perspective _ aspect _ _ => some aspect
  | _ => none

/-! ## Camera (`camera.h`) -/

/-- The directions `Camera::ProcessKeyboard` accepts. -/
inductive Camera_Movement where
  | FORWARD | BACKWARD | LEFT | RIGHT | UP | DOWN
  deriving DecidableEq

/-- The state of the `Camera` object `gCamera`. -/
structure Camera where
  Position : Vec3
  Front : Vec3
  Up : Vec3
  Right : Vec3
  WorldUp : Vec3
  Yaw : ℚ
  Pitch : ℚ
  MovementSpeed : ℚ
  MouseSensitivity : ℚ
  Zoom : ℚ
  deriving DecidableEq

/-- Modelled from the spec: `Camera::GetViewMatrix` of `camera.h`, which is not
among the sources. It "returns the look-at transform from current position
toward `position + front`, using current up vector". -/
def Camera.GetViewMatrix (c : Camera) : Mat4 :=
  .lookAt c.Position (c.Position.add c.Front) c.Up

/-- Modelled from the spec: `Camera::ProcessKeyboard` of `camera.h`, which is
not among the sources. It "moves position along the current front/right/up
basis vectors scaled by `speed * deltaTime`". -/
def Camera.ProcessKeyboard (c : Camera) (direction : Camera_Movement) (deltaTime : ℚ) : Camera :=
  let velocity := c.MovementSpeed * deltaTime
  match direction with
  | .FORWARD => { c with Position := c.Position.add (c.Front.smul velocity) }
  | .BACKWARD => { c with Position := c.Position.sub (c.Front.smul velocity) }
  | .LEFT => { c with Position := c.Position.sub (c.Right.smul velocity) }
  | .RIGHT => { c with Position := c.Position.add (c.Right.smul velocity) }
  | .UP => { c with Position := c.Position.add (c.Up.smul velocity) }
  | .DOWN => { c with Position := c.Position.sub (c.Up.smul velocity) }

/-! ## The OpenGL context -/

/-- The uniform names of the two shader programs. -/
inductive UniformName where
  | model | view | projection
  | objectColor | lightColor | lightPos | viewPosition
  | uTexture | uvScale
  deriving DecidableEq

/-- A value held by a uniform. -/
inductive UniformValue where
  | mat4 (m : Mat4)
  | vec3 (v0 v1 v2 : ℚ)
  | vec2 (v : Vec2)
  | int (i : Int)
  deriving DecidableEq

/-- The value of `glGetUniformLocation(program, name)`: the lookup is taken to
succeed and the location stands for that uniform of that program. -/
structure Loc where
  program : Nat
  name : UniformName
  deriving DecidableEq

/-- The library call `glGetUniformLocation`. -/
def glGetUniformLocation (program : Nat) (name : UniformName) : Loc := ⟨program, name⟩

/-- Primitive topologies used by the draw calls. -/
inductive Primitive where
  | GL_TRIANGLES | GL_TRIANGLE_FAN | GL_TRIANGLE_STRIP
  deriving DecidableEq

/-- Texture wrap modes. -/
inductive WrapMode where
  | GL_REPEAT | GL_MIRRORED_REPEAT
  deriving DecidableEq

/-- Texture parameters set through `glTexParameteri`. -/
inductive TexParam where
  | GL_TEXTURE_WRAP_S (mode : WrapMode)
  | GL_TEXTURE_WRAP_T (mode : WrapMode)
  | GL_TEXTURE_MIN_FILTER_LINEAR
  | GL_TEXTURE_MAG_FILTER_LINEAR
  deriving DecidableEq

/-- Pixel formats of a texture upload: the `internalformat` / `format` pair of
`glTexImage2D`. -/
inductive PixelFormat where
  | RGB
  | RGBA
  deriving DecidableEq

/-- The two shader stages. -/
inductive ShaderType where
  | GL_VERTEX_SHADER | GL_FRAGMENT_SHADER
  deriving DecidableEq

/-- The two buffer binding points the meshes use. -/
inductive BufferTarget where
  | GL_ARRAY_BUFFER | GL_ELEMENT_ARRAY_BUFFER
  deriving DecidableEq

/-- The contents given to `glBufferData`: an array of `GLfloat` or of
`GLuint`. -/
inductive BufferData where
  | floats (values : List ℚ)
  | uints (values : List Nat)
  deriving DecidableEq

/-- The GL and GLFW calls the program issues, with their arguments. A call
that returns an object name carries the name it returned. -/
inductive GLCmd where
  | enableDepthTest
  | clearColor (r g b a : ℚ)
  | clear (colorBuffer depthBuffer : Bool)
  | viewport (x y width height : Int)
  | useProgram (program : Nat)
  | uniformMatrix4fv (location : Loc) (value : Mat4)
  | uniform3f (location : Loc) (v0 v1 v2 : ℚ)
  | uniform2fv (location : Loc) (value : Vec2)
  | uniform1i (location : Loc) (v0 : Int)
  | bindVertexArray (array : Nat)
  | activeTexture (unit : Nat)
  | bindTexture (texture : Nat)
  | texParameteri (param : TexParam)
  | drawElements (mode : Primitive) (count : Nat)
  | drawArrays (mode : Primitive) (first count : Nat)
  | swapBuffers
  | genTextures (texture : Nat)
  | texImage2D (format : PixelFormat) (width height : Int) (pixels : List UInt8)
  | generateMipmap
  | createProgram (program : Nat)
  | createShader (type : ShaderType) (shader : Nat)
  | shaderSource (shader : Nat) (source : String)
  | compileShader (shader : Nat)
  | attachShader (program shader : Nat)
  | linkProgram (program : Nat)
  | genVertexArrays (array : Nat)
  | genBuffers (buffers : List Nat)
  | bindBuffer (target : BufferTarget) (buffer : Nat)
  | bufferData (target : BufferTarget) (data : BufferData)
  | vertexAttribPointer (index size stride pointer : Nat)
  | enableVertexAttribArray (index : Nat)
  | deleteVertexArrays (array : Nat)
  | deleteBuffers (buffers : List Nat)
  | deleteProgram (program : Nat)
  | terminate
  deriving DecidableEq

/-- The image of a texture object after `glTexImage2D`. -/
structure TexImage where
  format : PixelFormat
  width : Int
  height : Int
  pixels : List UInt8
  deriving DecidableEq

/-- The state of the GL context the program renders into. -/
structure GLState where
  /-- Whether `GL_DEPTH_TEST` is enabled. -/
  depthTest : Bool
  /-- The colour `glClear` clears to. -/
  clearColor : ℚ × ℚ × ℚ × ℚ
  /-- The rectangle last given to `glViewport`. -/
  viewport : Int × Int × Int × Int
  /-- The program in use. -/
  program : Nat
  /-- The uniforms of each program. -/
  uniforms : Nat → UniformName → Option UniformValue
  /-- The bound vertex array object. -/
  vao : Nat
  /-- The active texture unit, `k` for `GL_TEXTURE0 + k`. -/
  activeTexture : Nat
  /-- The texture bound to `GL_TEXTURE_2D` on each unit. -/
  boundTexture : Nat → Nat
  /-- The texture names generated so far. -/
  textureNames : List Nat
  /-- The shader and program names created so far. -/
  shaderNames : List Nat
  /-- The vertex array names generated and not deleted. -/
  vertexArrayNames : List Nat
  /-- The buffer names generated and not deleted. -/
  bufferNames : List Nat
  /-- The wrap modes (S, T) of each texture object. -/
  texWrap : Nat → WrapMode × WrapMode
  /-- The image of each texture object. -/
  texImage : Nat → Option TexImage
  /-- Every call issued so far, oldest first. -/
  calls : List GLCmd

/-- A name the GL has not handed out yet: one more than the largest in use. -/
def freshName (used : List Nat) : Nat := used.foldl max 0 + 1

/-- The value `glUniform*` leaves in the context: the uniform of the program
in use that `location` stands for gets `value`; a location of another program
is an invalid operation and changes nothing. -/
def GLState.setUniform (g : GLState) (location : Loc) (value : UniformValue) : GLState :=
  if location.program = g.program then
    { g with uniforms := fun p n =>
        if p = g.program ∧ n = location.name then some value else g.uniforms p n }
  else g

/-- The effect of one call on the context, the log of calls aside. -/
def GLCmd.effect (g : GLState) : GLCmd → GLState
  | .enableDepthTest => { g with depthTest := true }
  | .clearColor r gr b a => { g with clearColor := (r, gr, b, a) }
  | .viewport x y w h => { g with viewport := (x, y, w, h) }
  | .useProgram p => { g with program := p }
  | .uniformMatrix4fv loc m => g.setUniform loc (.mat4 m)
  | .uniform3f loc v0 v1 v2 => g.setUniform loc (.vec3 v0 v1 v2)
  | .uniform2fv loc v => g.setUniform loc (.vec2 v)
  | .uniform1i loc i => g.setUniform loc (.int i)
  | .bindVertexArray a => { g with vao := a }
  | .activeTexture u => { g with activeTexture := u }
  | .bindTexture t =>
      { g with boundTexture := fun u => if u = g.activeTexture then t else g.boundTexture u }
  | .texParameteri (.GL_TEXTURE_WRAP_S m) =>
      { g with texWrap := fun t =>
          if t = g.boundTexture g.activeTexture then (m, (g.texWrap t).2) else g.texWrap t }
  | .texParameteri (.GL_TEXTURE_WRAP_T m) =>
      { g with texWrap := fun t =>
          if t = g.boundTexture g.activeTexture then ((g.texWrap t).1, m) else g.texWrap t }
  | .genTextures t => { g with textureNames := g.textureNames ++ [t] }
  | .texImage2D f w h px =>
      { g with texImage := fun t =>
          if t = g.boundTexture g.activeTexture then some ⟨f, w, h, px⟩ else g.texImage t }
  | .createProgram p => { g with shaderNames := g.shaderNames ++ [p] }
  | .createShader _ sh => { g with shaderNames := g.shaderNames ++ [sh] }
  | .genVertexArrays a => { g with vertexArrayNames := g.vertexArrayNames ++ [a] }
  | .genBuffers bs => { g with bufferNames := g.bufferNames ++ bs }
  | .deleteVertexArrays a =>
      { g with vertexArrayNames := g.vertexArrayNames.filter (fun n => n ≠ a) }
  | .deleteBuffers bs => { g with bufferNames := g.bufferNames.filter (fun n => n ∉ bs) }
  | .deleteProgram p => { g with shaderNames := g.shaderNames.filter (fun n => n ≠ p) }
  | _ => g

/-- One call: its effect, and the call appended to the log. -/
def exec (g : GLState) (c : GLCmd) : GLState :=
  { c.effect g with calls := g.calls ++ [c] }

/-- A sequence of calls, in order. -/
def execAll (g : GLState) (cs : List GLCmd) : GLState := cs.foldl exec g

/-- What a draw call works with: the call and the context at the moment it is
issued. `uniform` are the uniforms of the program in use. -/
structure Draw where
  call : GLCmd
  program : Nat
  vao : Nat
  uniform : UniformName → Option UniformValue
  activeTexture : Nat
  boundTexture : Nat → Nat

/-- The context as the draw call `c` sees it. -/
def GLState.snapshot (g : GLState) (c : GLCmd) : Draw :=
  { call := c, program := g.program, vao := g.vao, uniform := g.uniforms g.program,
    activeTexture := g.activeTexture, boundTexture := g.boundTexture }

/-- The draw calls among `cs`, each with the context it is issued in, when
`cs` runs from context `g`. -/
def drawsOf (g : GLState) : List GLCmd → List Draw
  | [] => []
  | .drawElements mode count :: cs =>
      g.snapshot (.drawElements mode count) :: drawsOf (exec g (.drawElements mode count)) cs
  | .drawArrays mode first count :: cs =>
      g.snapshot (.drawArrays mode first count)
        :: drawsOf (exec g (.drawArrays mode first count)) cs
  | c :: cs => drawsOf (exec g c) cs

/-! ## Program state -/

/-- The window width the program asks for (`WINDOW_WIDTH`). -/
def WINDOW_WIDTH : Int := 800

/-- The window height the program asks for (`WINDOW_HEIGHT`). -/
def WINDOW_HEIGHT : Int := 600

/-- The GL data of one mesh (`struct GLMesh`). -/
structure GLMesh where
  vao : Nat
  vbos : Nat × Nat
  nIndices : Nat
  nVertices : Nat
  deriving DecidableEq

/-- The variables of the unnamed namespace, the GL context and the standard
output: everything the functions of the program read and write. -/
structure App where
  gMeshPlaystation : GLMesh
  gMeshPlaystationCylinder : GLMesh
  gMeshFloor : GLMesh
  gMeshLightSource : GLMesh
  gMeshSpiderman : GLMesh
  gMeshRedAlert : GLMesh
  gMeshDK : GLMesh
  gMeshGB : GLMesh
  woodTexture : Nat
  playstationPlasticTexture : Nat
  playstationLogoTexture : Nat
  dkTexture : Nat
  spidermanTexture : Nat
  redAlertTexture : Nat
  gbTexture : Nat
  gUVScale : Vec2
  gTexWrapMode : WrapMode
  gProgramId : Nat
  gLampProgramId : Nat
  gCamera : Camera
  gLastX : ℚ
  gLastY : ℚ
  gFirstMouse : Bool
  isPerspectiveView : Bool
  gDeltaTime : ℚ
  gLastFrame : ℚ
  gObjectColor : Vec3
  gLightColor : Vec3
  gLightPosition : Vec3
  gLightScale : Vec3
  /-- The close flag of the window `gWindow`. -/
  windowShouldClose : Bool
  /-- The GL context of the window. -/
  gl : GLState
  /-- The text written to `cout` so far. -/
  cout : String
  /-- The text written to `cerr` so far. -/
  cerr : String

/-! ## `URender` -/

/-- The local `view` of `URender`. -/
def URender.view (s : App) : Mat4 := s.gCamera.GetViewMatrix

/-- The local `projection` of `URender`. -/
def URender.projection (isPerspectiveView : Bool) (s : App) : Mat4 :=
  if isPerspectiveView then
    .perspective (radians s.gCamera.Zoom) ((WINDOW_WIDTH : ℚ) / (WINDOW_HEIGHT : ℚ)) 0.1 100
  else
    .ortho (-5) 5 (-5) 5 0.1 100

/-- The calls of `URender` up to the first section: depth test and clear. -/
def URender.begin : List GLCmd :=
  [ .enableDepthTest,
    .clearColor 0 0 0 1,
    .clear true true ]

/-- The section of `URender` that renders the floor (plane). -/
def URender.floor (s : App) (view projection : Mat4) : List GLCmd :=
  let scale := Mat4.scale ⟨20, 20, 20⟩
  let rotation := Mat4.rotate (radians 0) ⟨1, 1, 1⟩
  let translation := Mat4.translate ⟨0, -0.5, 0⟩
  let model := translation * rotation * scale
  let modelLoc := glGetUniformLocation s.gProgramId .model
  let viewLoc := glGetUniformLocation s.gProgramId .view
  let projLoc := glGetUniformLocation s.gProgramId .projection
  let objectColorLoc := glGetUniformLocation s.gProgramId .objectColor
  let lightColorLoc := glGetUniformLocation s.gProgramId .lightColor
  let lightPositionLoc := glGetUniformLocation s.gProgramId .lightPos
  let viewPositionLoc := glGetUniformLocation s.gProgramId .viewPosition
  let cameraPosition := s.gCamera.Position
  let UVScaleLoc := glGetUniformLocation s.gProgramId .uvScale
  let gUVScaleFloor : Vec2 := ⟨4.24305, 4.24305⟩
  [ .useProgram s.gProgramId,
    .uniformMatrix4fv modelLoc model,
    .uniformMatrix4fv viewLoc view,
    .uniformMatrix4fv projLoc projection,
    .uniform3f objectColorLoc s.gObjectColor.x s.gObjectColor.y s.gObjectColor.z,
    .uniform3f lightColorLoc s.gLightColor.x s.gLightColor.y s.gLightColor.z,
    .uniform3f lightPositionLoc s.gLightPosition.x s.gLightPosition.y s.gLightPosition.z,
    .uniform3f viewPositionLoc cameraPosition.x cameraPosition.y cameraPosition.z,
    .uniform2fv UVScaleLoc s.gUVScale,
    .uniform2fv UVScaleLoc gUVScaleFloor,
    .bindVertexArray s.gMeshFloor.vao,
    .activeTexture 0,
    .bindTexture s.woodTexture,
    .uniform1i (glGetUniformLocation s.gProgramId .uTexture) 0,
    .drawElements .GL_TRIANGLES s.gMeshFloor.nIndices,
    .bindVertexArray 0 ]

/-- The section of `URender` that renders the PlayStation body (cube). -/
def URender.playstationBody (s : App) (view projection : Mat4) : List GLCmd :=
  let scale := Mat4.scale ⟨2.8, 2.0, 0.4⟩
  let rotation := Mat4.rotate (radians (-90)) ⟨1, 0, 0⟩ * Mat4.rotate (radians 10) ⟨0, 0, 1⟩
  let translation := Mat4.translate ⟨0, -0.3, 0⟩
  let model := translation * rotation * scale
  let modelLoc := glGetUniformLocation s.gProgramId .model
  let viewLoc := glGetUniformLocation s.gProgramId .view
  let projLoc := glGetUniformLocation s.gProgramId .projection
  let objectColorLoc := glGetUniformLocation s.gProgramId .objectColor
  let lightColorLoc := glGetUniformLocation s.gProgramId .lightColor
  let lightPositionLoc := glGetUniformLocation s.gProgramId .lightPos
  let viewPositionLoc := glGetUniformLocation s.gProgramId .viewPosition
  let cameraPosition := s.gCamera.Position
  let UVScaleLoc := glGetUniformLocation s.gProgramId .uvScale
  let gUVScalePS1Plastic : Vec2 := ⟨0.986171, 0.986171⟩
  [ .uniformMatrix4fv modelLoc model,
    .uniformMatrix4fv viewLoc view,
    .uniformMatrix4fv projLoc projection,
    .uniform3f objectColorLoc s.gObjectColor.x s.gObjectColor.y s.gObjectColor.z,
    .uniform3f lightColorLoc s.gLightColor.x s.gLightColor.y s.gLightColor.z,
    .uniform3f lightPositionLoc s.gLightPosition.x s.gLightPosition.y s.gLightPosition.z,
    .uniform3f viewPositionLoc cameraPosition.x cameraPosition.y cameraPosition.z,
    .uniform2fv UVScaleLoc gUVScalePS1Plastic,
    .bindVertexArray s.gMeshPlaystation.vao,
    .activeTexture 1,
    .bindTexture s.playstationPlasticTexture,
    .uniform1i (glGetUniformLocation s.gProgramId .uTexture) 1,
    .drawElements .GL_TRIANGLES s.gMeshPlaystation.nIndices,
    .bindVertexArray 0 ]

/-- The section of `URender` that renders the PlayStation cylinder. -/
def URender.playstationCylinder (s : App) (view projection : Mat4) : List GLCmd :=
  let scale := Mat4.scale ⟨0.9, 0.05, 0.9⟩
  let rotation := Mat4.rotate (radians 12) ⟨0, 1, 0⟩
  let translation := Mat4.translate ⟨0, -0.1, 0⟩
  let model := translation * rotation * scale
  let modelLoc := glGetUniformLocation s.gProgramId .model
  let viewLoc := glGetUniformLocation s.gProgramId .view
  let projLoc := glGetUniformLocation s.gProgramId .projection
  let objectColorLoc := glGetUniformLocation s.gProgramId .objectColor
  let lightColorLoc := glGetUniformLocation s.gProgramId .lightColor
  let lightPositionLoc := glGetUniformLocation s.gProgramId .lightPos
  let viewPositionLoc := glGetUniformLocation s.gProgramId .viewPosition
  let cameraPosition := s.gCamera.Position
  let UVScaleLoc := glGetUniformLocation s.gProgramId .uvScale
  let gUVScalePS1Logo : Vec2 := ⟨1.00998, 1.00998⟩
  [ .uniformMatrix4fv modelLoc model,
    .uniformMatrix4fv viewLoc view,
    .uniformMatrix4fv projLoc projection,
    .uniform3f objectColorLoc s.gObjectColor.x s.gObjectColor.y s.gObjectColor.z,
    .uniform3f lightColorLoc s.gLightColor.x s.gLightColor.y s.gLightColor.z,
    .uniform3f lightPositionLoc s.gLightPosition.x s.gLightPosition.y s.gLightPosition.z,
    .uniform3f viewPositionLoc cameraPosition.x cameraPosition.y cameraPosition.z,
    .uniform2fv UVScaleLoc gUVScalePS1Logo,
    .bindVertexArray s.gMeshPlaystationCylinder.vao,
    .activeTexture 2,
    .bindTexture s.playstationLogoTexture,
    .texParameteri (.GL_TEXTURE_WRAP_S .GL_MIRRORED_REPEAT),
    .texParameteri (.GL_TEXTURE_WRAP_T .GL_MIRRORED_REPEAT),
    .uniform1i (glGetUniformLocation s.gProgramId .uTexture) 2,
    .drawArrays .GL_TRIANGLE_FAN 0 36,
    .drawArrays .GL_TRIANGLE_FAN 36 36,
    .drawArrays .GL_TRIANGLE_STRIP 72 146,
    .bindVertexArray 0 ]

/-- The section of `URender` that renders the Game Boy (cube). -/
def URender.gameBoy (s : App) (view projection : Mat4) : List GLCmd :=
  let scale := Mat4.scale ⟨0.95, 1.5, 0.2⟩
  let rotation := Mat4.rotate (radians (-90)) ⟨1, 0, 0⟩ * Mat4.rotate (radians 40) ⟨0, 0, 1⟩
  let translation := Mat4.translate ⟨-1.4, -0.4, 2.1⟩
  let model := translation * rotation * scale
  let modelLoc := glGetUniformLocation s.gProgramId .model
  let viewLoc := glGetUniformLocation s.gProgramId .view
  let projLoc := glGetUniformLocation s.gProgramId .projection
  let objectColorLoc := glGetUniformLocation s.gProgramId .objectColor
  let lightColorLoc := glGetUniformLocation s.gProgramId .lightColor
  let lightPositionLoc := glGetUniformLocation s.gProgramId .lightPos
  let viewPositionLoc := glGetUniformLocation s.gProgramId .viewPosition
  let cameraPosition := s.gCamera.Position
  let UVScaleLoc := glGetUniformLocation s.gProgramId .uvScale
  let gUVScaleGB : Vec2 := ⟨1.02017, 1.02017⟩
  [ .uniformMatrix4fv modelLoc model,
    .uniformMatrix4fv viewLoc view,
    .uniformMatrix4fv projLoc projection,
    .uniform3f objectColorLoc s.gObjectColor.x s.gObjectColor.y s.gObjectColor.z,
    .uniform3f lightColorLoc s.gLightColor.x s.gLightColor.y s.gLightColor.z,
    .uniform3f lightPositionLoc s.gLightPosition.x s.gLightPosition.y s.gLightPosition.z,
    .uniform3f viewPositionLoc cameraPosition.x cameraPosition.y cameraPosition.z,
    .uniform2fv UVScaleLoc gUVScaleGB,
    .bindVertexArray s.gMeshGB.vao,
    .activeTexture 3,
    .bindTexture s.gbTexture,
    .uniform1i (glGetUniformLocation s.gProgramId .uTexture) 3,
    .drawElements .GL_TRIANGLES s.gMeshGB.nIndices,
    .bindVertexArray 0 ]

/-- The section of `URender` that renders the Donkey Kong game (cube). -/
def URender.donkeyKong (s : App) (view projection : Mat4) : List GLCmd :=
  let scale := Mat4.scale ⟨0.51, 0.05, 0.61⟩
  let rotation := Mat4.rotate (radians 0) ⟨1, 0, 0⟩ * Mat4.rotate (radians 20) ⟨0, 1, 0⟩
  let translation := Mat4.translate ⟨-0.25, -0.46, 1.65⟩
  let model := translation * rotation * scale
  let modelLoc := glGetUniformLocation s.gProgramId .model
  let viewLoc := glGetUniformLocation s.gProgramId .view
  let projLoc := glGetUniformLocation s.gProgramId .projection
  let objectColorLoc := glGetUniformLocation s.gProgramId .objectColor
  let lightColorLoc := glGetUniformLocation s.gProgramId .lightColor
  let lightPositionLoc := glGetUniformLocation s.gProgramId .lightPos
  let viewPositionLoc := glGetUniformLocation s.gProgramId .viewPosition
  let cameraPosition := s.gCamera.Position
  let UVScaleLoc := glGetUniformLocation s.gProgramId .uvScale
  let gUVScaleDK : Vec2 := ⟨0.97998, 0.97998⟩
  [ .uniformMatrix4fv modelLoc model,
    .uniformMatrix4fv viewLoc view,
    .uniformMatrix4fv projLoc projection,
    .uniform3f objectColorLoc s.gObjectColor.x s.gObjectColor.y s.gObjectColor.z,
    .uniform3f lightColorLoc s.gLightColor.x s.gLightColor.y s.gLightColor.z,
    .uniform3f lightPositionLoc s.gLightPosition.x s.gLightPosition.y s.gLightPosition.z,
    .uniform3f viewPositionLoc cameraPosition.x cameraPosition.y cameraPosition.z,
    .uniform2fv UVScaleLoc gUVScaleDK,
    .bindVertexArray s.gMeshDK.vao,
    .activeTexture 4,
    .bindTexture s.dkTexture,
    .uniform1i (glGetUniformLocation s.gProgramId .uTexture) 4,
    .drawElements .GL_TRIANGLES s.gMeshDK.nIndices,
    .bindVertexArray 0 ]

/-- The section of `URender` that renders the Red Alert game (cube). -/
def URender.redAlert (s : App) (view projection : Mat4) : List GLCmd :=
  let scale := Mat4.scale ⟨1.50, 0.15, 1.37⟩
  let rotation := Mat4.rotate (radians 0) ⟨1, 0, 0⟩ * Mat4.rotate (radians 355) ⟨0, 1, 0⟩
  let translation := Mat4.translate ⟨1.7, -0.42, 1.65⟩
  let model := translation * rotation * scale
  let modelLoc := glGetUniformLocation s.gProgramId .model
  let viewLoc := glGetUniformLocation s.gProgramId .view
  let projLoc := glGetUniformLocation s.gProgramId .projection
  let objectColorLoc := glGetUniformLocation s.gProgramId .objectColor
  let lightColorLoc := glGetUniformLocation s.gProgramId .lightColor
  let lightPositionLoc := glGetUniformLocation s.gProgramId .lightPos
  let viewPositionLoc := glGetUniformLocation s.gProgramId .viewPosition
  let cameraPosition := s.gCamera.Position
  let UVScaleLoc := glGetUniformLocation s.gProgramId .uvScale
  let gUVScaleRedAlert : Vec2 := ⟨0.987171, 0.987171⟩
  [ .uniformMatrix4fv modelLoc model,
    .uniformMatrix4fv viewLoc view,
    .uniformMatrix4fv projLoc projection,
    .uniform3f objectColorLoc s.gObjectColor.x s.gObjectColor.y s.gObjectColor.z,
    .uniform3f lightColorLoc s.gLightColor.x s.gLightColor.y s.gLightColor.z,
    .uniform3f lightPositionLoc s.gLightPosition.x s.gLightPosition.y s.gLightPosition.z,
    .uniform3f viewPositionLoc cameraPosition.x cameraPosition.y cameraPosition.z,
    .uniform2fv UVScaleLoc gUVScaleRedAlert,
    .bindVertexArray s.gMeshRedAlert.vao,
    .activeTexture 5,
    .bindTexture s.redAlertTexture,
    .uniform1i (glGetUniformLocation s.gProgramId .uTexture) 5,
    .drawElements .GL_TRIANGLES s.gMeshRedAlert.nIndices,
    .bindVertexArray 0 ]

/-- The section of `URender` that renders the Spiderman game (cylinder). -/
def URender.spiderman (s : App) (view projection : Mat4) : List GLCmd :=
  let scale := Mat4.scale ⟨0.58, 0.01, 0.58⟩
  let rotation := Mat4.rotate (radians 93) ⟨0, 1, 0⟩
  let translation := Mat4.translate ⟨0.13, -0.5, 2.7⟩
  let model := translation * rotation * scale
  let modelLoc := glGetUniformLocation s.gProgramId .model
  let viewLoc := glGetUniformLocation s.gProgramId .view
  let projLoc := glGetUniformLocation s.gProgramId .projection
  let objectColorLoc := glGetUniformLocation s.gProgramId .objectColor
  let lightColorLoc := glGetUniformLocation s.gProgramId .lightColor
  let lightPositionLoc := glGetUniformLocation s.gProgramId .lightPos
  let viewPositionLoc := glGetUniformLocation s.gProgramId .viewPosition
  let cameraPosition := s.gCamera.Position
  let UVScaleLoc := glGetUniformLocation s.gProgramId .uvScale
  let gUVScaleSpiderman : Vec2 := ⟨0.989171, 0.989171⟩
  [ .uniformMatrix4fv modelLoc model,
    .uniformMatrix4fv viewLoc view,
    .uniformMatrix4fv projLoc projection,
    .uniform3f objectColorLoc s.gObjectColor.x s.gObjectColor.y s.gObjectColor.z,
    .uniform3f lightColorLoc s.gLightColor.x s.gLightColor.y s.gLightColor.z,
    .uniform3f lightPositionLoc s.gLightPosition.x s.gLightPosition.y s.gLightPosition.z,
    .uniform3f viewPositionLoc cameraPosition.x cameraPosition.y cameraPosition.z,
    .uniform2fv UVScaleLoc gUVScaleSpiderman,
    .bindVertexArray s.gMeshSpiderman.vao,
    .activeTexture 6,
    .bindTexture s.spidermanTexture,
    .uniform1i (glGetUniformLocation s.gProgramId .uTexture) 6,
    .drawArrays .GL_TRIANGLE_FAN 0 36,
    .drawArrays .GL_TRIANGLE_FAN 36 36,
    .drawArrays .GL_TRIANGLE_STRIP 72 146,
    .bindVertexArray 0 ]

/-- The first lamp section of `URender`: the marker at the global
`gLightPosition`. -/
def URender.lamp1 (s : App) (view projection : Mat4) : List GLCmd :=
  let model := Mat4.translate s.gLightPosition * Mat4.scale s.gLightScale
  let modelLoc := glGetUniformLocation s.gLampProgramId .model
  let viewLoc := glGetUniformLocation s.gLampProgramId .view
  let projLoc := glGetUniformLocation s.gLampProgramId .projection
  [ .useProgram s.gLampProgramId,
    .bindVertexArray s.gMeshLightSource.vao,
    .uniformMatrix4fv modelLoc model,
    .uniformMatrix4fv viewLoc view,
    .uniformMatrix4fv projLoc projection,
    .drawElements .GL_TRIANGLES s.gMeshLightSource.nIndices ]

/-- The second lamp section of `URender`: the marker at the local
`gLightPosition` declared there, and the end of the frame. -/
def URender.lamp2 (s : App) (view projection : Mat4) : List GLCmd :=
  let gLightPosition : Vec3 := ⟨-3, 8, 8⟩
  let model := Mat4.translate gLightPosition * Mat4.scale s.gLightScale
  let modelLoc := glGetUniformLocation s.gLampProgramId .model
  let viewLoc := glGetUniformLocation s.gLampProgramId .view
  let projLoc := glGetUniformLocation s.gLampProgramId .projection
  [ .useProgram s.gLampProgramId,
    .bindVertexArray s.gMeshLightSource.vao,
    .uniformMatrix4fv modelLoc model,
    .uniformMatrix4fv viewLoc view,
    .uniformMatrix4fv projLoc projection,
    .drawElements .GL_TRIANGLES s.gMeshLightSource.nIndices,
    .bindVertexArray 0,
    .useProgram 0,
    .swapBuffers ]

/-- The GL and GLFW calls of one `URender(isPerspectiveView)`, in program
order. -/
def URender.calls (isPerspectiveView : Bool) (s : App) : List GLCmd :=
  let view := URender.view s
  let projection := URender.projection isPerspectiveView s
  URender.begin
    ++ URender.floor s view projection
    ++ URender.playstationBody s view projection
    ++ URender.playstationCylinder s view projection
    ++ URender.gameBoy s view projection
    ++ URender.donkeyKong s view projection
    ++ URender.redAlert s view projection
    ++ URender.spiderman s view projection
    ++ URender.lamp1 s view projection
    ++ URender.lamp2 s view projection

/-- The function `URender`: one frame. Besides the GL calls it sets the global
`gTexWrapMode` (in the PlayStation-cylinder section). -/
def URender (isPerspectiveView : Bool) (s : App) : App :=
  { s with gl := execAll s.gl (URender.calls isPerspectiveView s),
           gTexWrapMode := .GL_MIRRORED_REPEAT }

/-- The draw calls of one `URender(isPerspectiveView)` from state `s`, each
with the context it is issued in. -/
def URender.draws (isPerspectiveView : Bool) (s : App) : List Draw :=
  drawsOf s.gl (URender.calls isPerspectiveView s)

/-- The function `UResizeWindow`. -/
def UResizeWindow (width height : Int) (s : App) : App :=
  { s with gl := exec s.gl (.viewport 0 0 width height) }

/-! ## The scene entries, section by section -/

/-- The seven lit objects `URender` draws, in the order of its sections. -/
inductive Entry where
  | floor | playstationBody | playstationCylinder | gameBoy | donkeyKong | redAlert | spiderman
  deriving DecidableEq

/-- The value assigned to `scale` in the entry's section. -/
def Entry.scale : Entry → Mat4
  | .floor => .scale ⟨20, 20, 20⟩
  | .playstationBody => .scale ⟨2.8, 2.0, 0.4⟩
  | .playstationCylinder => .scale ⟨0.9, 0.05, 0.9⟩
  | .gameBoy => .scale ⟨0.95, 1.5, 0.2⟩
  | .donkeyKong => .scale ⟨0.51, 0.05, 0.61⟩
  | .redAlert => .scale ⟨1.50, 0.15, 1.37⟩
  | .spiderman => .scale ⟨0.58, 0.01, 0.58⟩

/-- The value assigned to `rotation` in the entry's section. -/
def Entry.rotation : Entry → Mat4
  | .floor => .rotate (radians 0) ⟨1, 1, 1⟩
  | .playstationBody => Mat4.rotate (radians (-90)) ⟨1, 0, 0⟩ * Mat4.rotate (radians 10) ⟨0, 0, 1⟩
  | .playstationCylinder => .rotate (radians 12) ⟨0, 1, 0⟩
  | .gameBoy => Mat4.rotate (radians (-90)) ⟨1, 0, 0⟩ * Mat4.rotate (radians 40) ⟨0, 0, 1⟩
  | .donkeyKong => Mat4.rotate (radians 0) ⟨1, 0, 0⟩ * Mat4.rotate (radians 20) ⟨0, 1, 0⟩
  | .redAlert => Mat4.rotate (radians 0) ⟨1, 0, 0⟩ * Mat4.rotate (radians 355) ⟨0, 1, 0⟩
  | .spiderman => .rotate (radians 93) ⟨0, 1, 0⟩

/-- The value assigned to `translation` in the entry's section. -/
def Entry.translation : Entry → Mat4
  | .floor => .translate ⟨0, -0.5, 0⟩
  | .playstationBody => .translate ⟨0, -0.3, 0⟩
  | .playstationCylinder => .translate ⟨0, -0.1, 0⟩
  | .gameBoy => .translate ⟨-1.4, -0.4, 2.1⟩
  | .donkeyKong => .translate ⟨-0.25, -0.46, 1.65⟩
  | .redAlert => .translate ⟨1.7, -0.42, 1.65⟩
  | .spiderman => .translate ⟨0.13, -0.5, 2.7⟩

/-- The mesh whose vertex array the entry's section binds. -/
def Entry.mesh (s : App) : Entry → GLMesh
  | .floor => s.gMeshFloor
  | .playstationBody => s.gMeshPlaystation
  | .playstationCylinder => s.gMeshPlaystationCylinder
  | .gameBoy => s.gMeshGB
  | .donkeyKong => s.gMeshDK
  | .redAlert => s.gMeshRedAlert
  | .spiderman => s.gMeshSpiderman

/-- The number of draw calls in the entry's section: one `glDrawElements` for
the plane and the cubes, three `glDrawArrays` for a cylinder. -/
def Entry.drawCount : Entry → Nat
  | .playstationCylinder => 3
  | .spiderman => 3
  | _ => 1

/-- The position, among the draw calls of the frame, of the first draw call of
the entry's section. -/
def Entry.firstDraw : Entry → Nat
  | .floor => 0
  | .playstationBody => 1
  | .playstationCylinder => 2
  | .gameBoy => 5
  | .donkeyKong => 6
  | .redAlert => 7
  | .spiderman => 8

/-- The uniform `name` as a draw sees it, when it holds a matrix. -/
def Draw.mat4? (d : Draw) (name : UniformName) : Option Mat4 :=
  match d.uniform name with
  | some (.mat4 m) => some m
  | _ => none

/-- The transform data of a draw: the call, the program in use, the bound
vertex array and the three matrix uniforms the vertex stage reads. -/
structure DrawTransforms where
  call : GLCmd
  program : Nat
  vao : Nat
  model : Option Mat4
  view : Option Mat4
  projection : Option Mat4
  deriving DecidableEq

/-- The transform data a draw is issued with. -/
def Draw.transforms (d : Draw) : DrawTransforms :=
  { call := d.call, program := d.program, vao := d.vao,
    model := d.mat4? .model, view := d.mat4? .view, projection := d.mat4? .projection }

/-! ## The state at program start -/

/-- Modelled from the spec: the constructor `Camera(position)` of `camera.h`,
which is not among the sources. The spec fixes only that the camera is
"created at startup with a fixed initial position/orientation", that world-up
is (0,1,0), and the ranges of pitch and zoom; the remaining values are the
customary defaults of this camera class (yaw -90, pitch 0, speed 2.5,
sensitivity 0.1, zoom 45), looking down the negative z axis. -/
def Camera.create (position : Vec3) : Camera :=
  { Position := position, Front := ⟨0, 0, -1⟩, Up := ⟨0, 1, 0⟩, Right := ⟨1, 0, 0⟩,
    WorldUp := ⟨0, 1, 0⟩, Yaw := -90, Pitch := 0, MovementSpeed := 2.5,
    MouseSensitivity := 0.1, Zoom := 45 }

/-- A fresh GL context for a window of `WINDOW_WIDTH` by `WINDOW_HEIGHT`:
nothing bound, nothing created, the viewport covering the window. -/
def GLState.initial : GLState :=
  { depthTest := false, clearColor := (0, 0, 0, 0),
    viewport := (0, 0, WINDOW_WIDTH, WINDOW_HEIGHT),
    program := 0, uniforms := fun _ _ => none, vao := 0, activeTexture := 0,
    boundTexture := fun _ => 0, textureNames := [], shaderNames := [],
    vertexArrayNames := [], bufferNames := [],
    texWrap := fun _ => (.GL_REPEAT, .GL_REPEAT), texImage := fun _ => none, calls := [] }

/-- The mesh variables before `UCreateAllMeshes`: zero-initialised. -/
def GLMesh.zero : GLMesh := ⟨0, (0, 0), 0, 0⟩

/-- The variables of the unnamed namespace as their definitions initialise
them, with a fresh GL context and nothing written to `cout`. -/
def App.initial : App :=
  { gMeshPlaystation := .zero, gMeshPlaystationCylinder := .zero, gMeshFloor := .zero,
    gMeshLightSource := .zero, gMeshSpiderman := .zero, gMeshRedAlert := .zero,
    gMeshDK := .zero, gMeshGB := .zero,
    woodTexture := 0, playstationPlasticTexture := 0, playstationLogoTexture := 0,
    dkTexture := 0, spidermanTexture := 0, redAlertTexture := 0, gbTexture := 0,
    gUVScale := ⟨5, 5⟩, gTexWrapMode := .GL_REPEAT,
    gProgramId := 0, gLampProgramId := 0,
    gCamera := Camera.create ⟨0, 0, 5⟩,
    gLastX := (WINDOW_WIDTH : ℚ) / 2, gLastY := (WINDOW_HEIGHT : ℚ) / 2,
    gFirstMouse := true, isPerspectiveView := true,
    gDeltaTime := 0, gLastFrame := 0,
    gObjectColor := ⟨1, 1, 1⟩, gLightColor := ⟨1, 1, 1⟩,
    gLightPosition := ⟨3, 8, 8⟩, gLightScale := ⟨1, 1, 1⟩,
    windowShouldClose := false, gl := .initial, cout := "", cerr := "" }

/-- The aspect-ratio argument of the `glm::perspective` call whose result a
draw sees as its `projection` uniform. -/
def Draw.aspect? (d : Draw) : Option ℚ := (d.mat4? .projection).bind Mat4.aspect?

/-- A run of framebuffer-size events: `UResizeWindow` once for each reported
size, oldest first. -/
def resizeAll (s : App) (sizes : List (Int × Int)) : App :=
  sizes.foldl (fun s wh => UResizeWindow wh.1 wh.2 s) s

/-! ## Keyboard input -/

/-- The GLFW key action `GLFW_RELEASE`. -/
def GLFW_RELEASE : Int := 0

/-- The GLFW key action `GLFW_PRESS`. -/
def GLFW_PRESS : Int := 1

/-- The GLFW key action `GLFW_REPEAT`. -/
def GLFW_REPEAT : Int := 2

/-- The GLFW key code `GLFW_KEY_A`. -/
def GLFW_KEY_A : Int := 65

/-- The GLFW key code `GLFW_KEY_D`. -/
def GLFW_KEY_D : Int := 68

/-- The GLFW key code `GLFW_KEY_E`. -/
def GLFW_KEY_E : Int := 69

/-- The GLFW key code `GLFW_KEY_P`. -/
def GLFW_KEY_P : Int := 80

/-- The GLFW key code `GLFW_KEY_Q`. -/
def GLFW_KEY_Q : Int := 81

/-- The GLFW key code `GLFW_KEY_S`. -/
def GLFW_KEY_S : Int := 83

/-- The GLFW key code `GLFW_KEY_W`. -/
def GLFW_KEY_W : Int := 87

/-- The GLFW key code `GLFW_KEY_ESCAPE`. -/
def GLFW_KEY_ESCAPE : Int := 256

/-- The function `key_callback`. -/
def key_callback (key scancode action mods : Int) (s : App) : App :=
  if key = GLFW_KEY_P ∧ action = GLFW_PRESS then
    { s with isPerspectiveView := !s.isPerspectiveView }
  else s

/-- The statements of `UProcessInput`, with the two calls that leave the file
as parameters: `close` is `glfwSetWindowShouldClose(window, true)` and
`processKeyboard direction` is `gCamera.ProcessKeyboard(direction, gDeltaTime)`,
each as the change it makes to the state. `glfwGetKey key` is the last reported
state of `key` for the window. -/
def UProcessInput.statements {σ : Type} (close : σ → σ)
    (processKeyboard : Camera_Movement → σ → σ) (glfwGetKey : Int → Int) (s : σ) : σ :=
  let s := if glfwGetKey GLFW_KEY_ESCAPE = GLFW_PRESS then close s else s
  let s := if glfwGetKey GLFW_KEY_W = GLFW_PRESS then processKeyboard .FORWARD s else s
  let s := if glfwGetKey GLFW_KEY_S = GLFW_PRESS then processKeyboard .BACKWARD s else s
  let s := if glfwGetKey GLFW_KEY_A = GLFW_PRESS then processKeyboard .LEFT s else s
  let s := if glfwGetKey GLFW_KEY_D = GLFW_PRESS then processKeyboard .RIGHT s else s
  let s := if glfwGetKey GLFW_KEY_E = GLFW_PRESS then processKeyboard .UP s else s
  let s := if glfwGetKey GLFW_KEY_Q = GLFW_PRESS then processKeyboard .DOWN s else s
  s

/-- The function `UProcessInput`: its statements on the program state, the
close request setting the close flag of the window and each call of
`Camera::ProcessKeyboard` made on `gCamera` with the `gDeltaTime` of the
moment. -/
def UProcessInput (glfwGetKey : Int → Int) (s : App) : App :=
  UProcessInput.statements (fun s => { s with windowShouldClose := true })
    (fun direction s => { s with gCamera := s.gCamera.ProcessKeyboard direction s.gDeltaTime })
    glfwGetKey s

/-- The calls of `Camera::ProcessKeyboard` that `UProcessInput` makes from
state `s`, in the order it makes them, each with its two arguments: the
statements of `UProcessInput` run with every call written to a list. -/
def UProcessInput.keyboardCalls (glfwGetKey : Int → Int) (s : App) :
    List (Camera_Movement × ℚ) :=
  UProcessInput.statements (fun calls => calls)
    (fun direction calls => calls ++ [(direction, s.gDeltaTime)]) glfwGetKey []

/-- The movement keys of `UProcessInput` with the direction each stands for,
in the order of its statements. -/
def UProcessInput.keyTable : List (Int × Camera_Movement) :=
  [ (GLFW_KEY_W, .FORWARD), (GLFW_KEY_S, .BACKWARD), (GLFW_KEY_A, .LEFT),
    (GLFW_KEY_D, .RIGHT), (GLFW_KEY_E, .UP), (GLFW_KEY_Q, .DOWN) ]

/-- One key event as GLFW delivers it to `key_callback`. -/
structure KeyEvent where
  key : Int
  scancode : Int
  action : Int
  mods : Int
  deriving DecidableEq

/-- The key events `evs` delivered to `key_callback`, oldest first. -/
def deliverKeys (s : App) (evs : List KeyEvent) : App :=
  evs.foldl (fun s e => key_callback e.key e.scancode e.action e.mods s) s

/-- One press-release cycle of the P key: a PRESS event, one REPEAT event for
each entry of `repeats`, a RELEASE event. Each pair is the scancode and the
modifier bits the event carries. -/
def pKeyCycle (press : Int × Int) (repeats : List (Int × Int)) (release : Int × Int) :
    List KeyEvent :=
  ⟨GLFW_KEY_P, press.1, GLFW_PRESS, press.2⟩
    :: repeats.map (fun r => ⟨GLFW_KEY_P, r.1, GLFW_REPEAT, r.2⟩)
    ++ [⟨GLFW_KEY_P, release.1, GLFW_RELEASE, release.2⟩]

/-! ## `flipImageVertically` -/

/-- The inner loop of `flipImageVertically`, with `i` the loop counter: it
swaps `image[index1]` and `image[index2]` and advances both, `i` times. An
access outside the buffer has no defined result (`none`). -/
def flipImageVertically.row (image : List UInt8) (index1 index2 : Int) :
    Nat → Option (List UInt8)
  | 0 => some image
  | i + 1 =>
    if 0 ≤ index1 ∧ 0 ≤ index2 then
      match image[index1.toNat]?, image[index2.toNat]? with
      | some tmp, some b =>
          flipImageVertically.row ((image.set index1.toNat b).set index2.toNat tmp)
            (index1 + 1) (index2 + 1) i
      | _, _ => none
    else none

/-- The outer loop of `flipImageVertically` from row `j` on, with `n`
iterations left. -/
def flipImageVertically.rows (image : List UInt8) (width height channels : Int) (j : Int) :
    Nat → Option (List UInt8)
  | 0 => some image
  | n + 1 =>
    let index1 := j * width * channels
    let index2 := (height - 1 - j) * width * channels
    match flipImageVertically.row image index1 index2 (width * channels).toNat with
    | some image => flipImageVertically.rows image width height channels (j + 1) n
    | none => none

/-- The function `flipImageVertically`: the buffer after the call, or `none`
when the call reads or writes outside the buffer. The outer loop runs for
`j = 0, ..., height / 2 - 1` (C++ integer division), the inner one
`width * channels` times. The index arithmetic is exact here: this is the run
of the code wherever its `int` results fit 32 bits. The run with every `int`
result checked against the 32-bit range is `flipImageVertically.checked`;
whenever that run ends without a fault it leaves this buffer. -/
def flipImageVertically (image : List UInt8) (width height channels : Int) :
    Option (List UInt8) :=
  flipImageVertically.rows image width height channels 0 (height.tdiv 2).toNat

/-! ## `UCreateTexture` -/

/-- What `stbi_load` hands back when it succeeds: the buffer and the three
values written through its out-parameters. -/
structure StbImage where
  data : List UInt8
  width : Int
  height : Int
  channels : Int
  deriving DecidableEq

/-- The contract of `stbi_load` on success: non-negative dimensions and a
buffer of `width * height * channels` bytes. -/
def StbImage.WellFormed (img : StbImage) : Prop :=
  0 ≤ img.width ∧ 0 ≤ img.height ∧ 0 ≤ img.channels
    ∧ (img.data.length : Int) = img.width * img.height * img.channels

instance (img : StbImage) : Decidable img.WellFormed := by
  unfold StbImage.WellFormed; infer_instance

/-- The function `UCreateTexture`. `stbi_load filename` is what decoding the
file gives (`none` for a null pointer); `textureId` is the variable passed by
reference, returned with the `bool` result and the new state. The whole result
is `none` when `flipImageVertically` leaves the buffer. -/
def UCreateTexture (stbi_load : String → Option StbImage) (filename : String)
    (textureId : Nat) (s : App) : Option (Bool × Nat × App) :=
  match stbi_load filename with
  | some img =>
    match flipImageVertically img.data img.width img.height img.channels with
    | none => none
    | some image =>
      let textureId := freshName s.gl.textureNames
      let gl := execAll s.gl
        [ .genTextures textureId,
          .bindTexture textureId,
          .texParameteri (.GL_TEXTURE_WRAP_S .GL_REPEAT),
          .texParameteri (.GL_TEXTURE_WRAP_T .GL_REPEAT),
          .texParameteri .GL_TEXTURE_MIN_FILTER_LINEAR,
          .texParameteri .GL_TEXTURE_MAG_FILTER_LINEAR ]
      if img.channels = 3 then
        let gl := execAll gl
          [ .texImage2D .RGB img.width img.height image, .generateMipmap, .bindTexture 0 ]
        some (true, textureId, { s with gl := gl })
      else if img.channels = 4 then
        let gl := execAll gl
          [ .texImage2D .RGBA img.width img.height image, .generateMipmap, .bindTexture 0 ]
        some (true, textureId, { s with gl := gl })
      else
        some (false, textureId,
          { s with gl := gl,
                   cout := s.cout ++ "Not implemented to handle image with "
                     ++ toString img.channels ++ " channels" ++ "\n" })
  | none => some (false, textureId, s)

/-! ## `UCreateShaderProgram` -/

/-- The GLSL compiler and linker of the GL implementation, as the status and
info-log queries report them: for a stage and its source, and for a pair of
sources linked together. -/
structure ShaderDriver where
  compileStatus : ShaderType → String → Bool
  shaderInfoLog : ShaderType → String → String
  linkStatus : String → String → Bool
  programInfoLog : String → String → String

/-- The function `UCreateShaderProgram`. `programId` is the variable passed by
reference, returned with the `bool` result and the new state. -/
def UCreateShaderProgram (driver : ShaderDriver) (vtxShaderSource fragShaderSource : String)
    (programId : Nat) (s : App) : Bool × Nat × App :=
  let programId := freshName s.gl.shaderNames
  let gl := exec s.gl (.createProgram programId)
  let vertexShaderId := freshName gl.shaderNames
  let gl := exec gl (.createShader .GL_VERTEX_SHADER vertexShaderId)
  let fragmentShaderId := freshName gl.shaderNames
  let gl := exec gl (.createShader .GL_FRAGMENT_SHADER fragmentShaderId)
  let gl := execAll gl
    [ .shaderSource vertexShaderId vtxShaderSource,
      .shaderSource fragmentShaderId fragShaderSource,
      .compileShader vertexShaderId ]
  let success := driver.compileStatus .GL_VERTEX_SHADER vtxShaderSource
  if !success then
    let infoLog := driver.shaderInfoLog .GL_VERTEX_SHADER vtxShaderSource
    (false, programId,
      { s with gl := gl,
               cout := s.cout ++ "ERROR::SHADER::VERTEX::COMPILATION_FAILED\n" ++ infoLog ++ "\n" })
  else
    let gl := exec gl (.compileShader fragmentShaderId)
    let success := driver.compileStatus .GL_FRAGMENT_SHADER fragShaderSource
    if !success then
      let infoLog := driver.shaderInfoLog .GL_FRAGMENT_SHADER fragShaderSource
      (false, programId,
        { s with gl := gl,
                 cout := s.cout ++ "ERROR::SHADER::FRAGMENT::COMPILATION_FAILED\n" ++ infoLog
                   ++ "\n" })
    else
      let gl := execAll gl
        [ .attachShader programId vertexShaderId,
          .attachShader programId fragmentShaderId,
          .linkProgram programId ]
      let success := driver.linkStatus vtxShaderSource fragShaderSource
      if !success then
        let infoLog := driver.programInfoLog vtxShaderSource fragShaderSource
        (false, programId,
          { s with gl := gl,
                   cout := s.cout ++ "ERROR::SHADER::PROGRAM::LINKING_FAILED\n" ++ infoLog
                     ++ "\n" })
      else
        let gl := exec gl (.useProgram programId)
        (true, programId, { s with gl := gl })

/-! ## Mesh data and mesh creation -/

/-- The array `verts` of `UCreatePlaneMesh`: 3 position, 3 normal and 2
texture coordinates for each vertex. -/
def UCreatePlaneMesh.verts : List ℚ :=
  [
    -1, 0, 1, 0, 1, 0, 0, 0,
    1, 0, 1, 0, 1, 0, 1, 0,
    1, 0, -1, 0, 1, 0, 1, 1,
    -1, 0, -1, 0, 1, 0, 0, 1
  ]

/-- The array `indices` of `UCreatePlaneMesh`. -/
def UCreatePlaneMesh.indices : List Nat :=
  [
    0, 1, 2,
    0, 3, 2
  ]

/-- The array `verts` of `UCreateCube`, a face of four vertices at a time:
back, bottom, left, right, top, front. -/
def UCreateCube.verts : List ℚ :=
  [
    0.5, 0.5, -0.5, 0, 0, -1, 0, 1,
    0.5, -0.5, -0.5, 0, 0, -1, 0, 0,
    -0.5, -0.5, -0.5, 0, 0, -1, 1, 0,
    -0.5, 0.5, -0.5, 0, 0, -1, 1, 1,
    -0.5, -0.5, 0.5, 0, -1, 0, 0, 1,
    -0.5, -0.5, -0.5, 0, -1, 0, 0, 0,
    0.5, -0.5, -0.5, 0, -1, 0, 1, 0,
    0.5, -0.5, 0.5, 0, -1, 0, 1, 1,
    -0.5, 0.5, -0.5, 1, 0, 0, 0, 1,
    -0.5, -0.5, -0.5, 1, 0, 0, 0, 0,
    -0.5, -0.5, 0.5, 1, 0, 0, 1, 0,
    -0.5, 0.5, 0.5, 1, 0, 0, 1, 1,
    0.5, 0.5, 0.5, 1, 0, 0, 0, 1,
    0.5, -0.5, 0.5, 1, 0, 0, 0, 0,
    0.5, -0.5, -0.5, 1, 0, 0, 1, 0,
    0.5, 0.5, -0.5, 1, 0, 0, 1, 1,
    -0.5, 0.5, -0.5, 0, 1, 0, 0, 1,
    -0.5, 0.5, 0.5, 0, 1, 0, 0, 0,
    0.5, 0.5, 0.5, 0, 1, 0, 1, 0,
    0.5, 0.5, -0.5, 0, 1, 0, 1, 1,
    -0.5, 0.5, 0.5, 0, 0, 1, 0, 1,
    -0.5, -0.5, 0.5, 0, 0, 1, 0, 0,
    0.5, -0.5, 0.5, 0, 0, 1, 1, 0,
    0.5, 0.5, 0.5, 0, 0, 1, 1, 1
  ]

/-- The array `indices` of `UCreateCube`. -/
def UCreateCube.indices : List Nat :=
  [
    0, 1, 2,
    0, 3, 2,
    4, 5, 6,
    4, 7, 6,
    8, 9, 10,
    8, 11, 10,
    12, 13, 14,
    12, 15, 14,
    16, 17, 18,
    16, 19, 18,
    20, 21, 22,
    20, 23, 22
  ]

/-- The rows of `verts` of `UCreateCylinderMesh` under "cylinder bottom". -/
def UCreateCylinderMesh.verts.bottom : List ℚ :=
  [
    1, 0, 0, 0, -1, 0, 0.5, 1,
    0.98, 0, -0.17, 0, -1, 0, 0.41, 0.983,
    0.94, 0, -0.34, 0, -1, 0, 0.33, 0.96,
    0.87, 0, -0.5, 0, -1, 0, 0.25, 0.92,
    0.77, 0, -0.64, 0, -1, 0, 0.17, 0.87,
    0.64, 0, -0.77, 0, -1, 0, 0.13, 0.83,
    0.5, 0, -0.87, 0, -1, 0, 0.08, 0.77,
    0.34, 0, -0.94, 0, -1, 0, 0.04, 0.68,
    0.17, 0, -0.98, 0, -1, 0, 0.017, 0.6,
    0, 0, -1, 0, -1, 0, 0, 0.5,
    -0.17, 0, -0.98, 0, -1, 0, 0.017, 0.41,
    -0.34, 0, -0.94, 0, -1, 0, 0.04, 0.33,
    -0.5, 0, -0.87, 0, -1, 0, 0.08, 0.25,
    -0.64, 0, -0.77, 0, -1, 0, 0.13, 0.17,
    -0.77, 0, -0.64, 0, -1, 0, 0.17, 0.13,
    -0.87, 0, -0.5, 0, -1, 0, 0.25, 0.08,
    -0.94, 0, -0.34, 0, -1, 0, 0.33, 0.04,
    -0.98, 0, -0.17, 0, -1, 0, 0.41, 0.017,
    -1, 0, 0, 0, -1, 0, 0.5, 0,
    -0.98, 0, 0.17, 0, -1, 0, 0.6, 0.017,
    -0.94, 0, 0.34, 0, -1, 0, 0.68, 0.04,
    -0.87, 0, 0.5, 0, -1, 0, 0.77, 0.08,
    -0.77, 0, 0.64, 0, -1, 0, 0.83, 0.13,
    -0.64, 0, 0.77, 0, -1, 0, 0.87, 0.17,
    -0.5, 0, 0.87, 0, -1, 0, 0.92, 0.25,
    -0.34, 0, 0.94, 0, -1, 0, 0.96, 0.33,
    -0.17, 0, 0.98, 0, -1, 0, 0.983, 0.41,
    0, 0, 1, 0, -1, 0, 1, 0.5,
    0.17, 0, 0.98, 0, -1, 0, 0.983, 0.6,
    0.34, 0, 0.94, 0, -1, 0, 0.96, 0.68,
    0.5, 0, 0.87, 0, -1, 0, 0.92, 0.77,
    0.64, 0, 0.77, 0, -1, 0, 0.87, 0.83,
    0.77, 0, 0.64, 0, -1, 0, 0.83, 0.87,
    0.87, 0, 0.5, 0, -1, 0, 0.77, 0.92,
    0.94, 0, 0.34, 0, -1, 0, 0.68, 0.96,
    0.98, 0, 0.17, 0, -1, 0, 0.6, 0.983
  ]

/-- The rows of `verts` of `UCreateCylinderMesh` under "cylinder top". -/
def UCreateCylinderMesh.verts.top : List ℚ :=
  [
    1, 1, 0, 0, 1, 0, 0.5, 1,
    0.98, 1, -0.17, 0, 1, 0, 0.41, 0.983,
    0.94, 1, -0.34, 0, 1, 0, 0.33, 0.96,
    0.87, 1, -0.5, 0, 1, 0, 0.25, 0.92,
    0.77, 1, -0.64, 0, 1, 0, 0.17, 0.87,
    0.64, 1, -0.77, 0, 1, 0, 0.13, 0.83,
    0.5, 1, -0.87, 0, 1, 0, 0.08, 0.77,
    0.34, 1, -0.94, 0, 1, 0, 0.04, 0.68,
    0.17, 1, -0.98, 0, 1, 0, 0.017, 0.6,
    0, 1, -1, 0, 1, 0, 0, 0.5,
    -0.17, 1, -0.98, 0, 1, 0, 0.017, 0.41,
    -0.34, 1, -0.94, 0, 1, 0, 0.04, 0.33,
    -0.5, 1, -0.87, 0, 1, 0, 0.08, 0.25,
    -0.64, 1, -0.77, 0, 1, 0, 0.13, 0.17,
    -0.77, 1, -0.64, 0, 1, 0, 0.17, 0.13,
    -0.87, 1, -0.5, 0, 1, 0, 0.25, 0.08,
    -0.94, 1, -0.34, 0, 1, 0, 0.33, 0.04,
    -0.98, 1, -0.17, 0, 1, 0, 0.41, 0.017,
    -1, 1, 0, 0, 1, 0, 0.5, 0,
    -0.98, 1, 0.17, 0, 1, 0, 0.6, 0.017,
    -0.94, 1, 0.34, 0, 1, 0, 0.68, 0.04,
    -0.87, 1, 0.5, 0, 1, 0, 0.77, 0.08,
    -0.77, 1, 0.64, 0, 1, 0, 0.83, 0.13,
    -0.64, 1, 0.77, 0, 1, 0, 0.87, 0.17,
    -0.5, 1, 0.87, 0, 1, 0, 0.92, 0.25,
    -0.34, 1, 0.94, 0, 1, 0, 0.96, 0.33,
    -0.17, 1, 0.98, 0, 1, 0, 0.983, 0.41,
    0, 1, 1, 0, 1, 0, 1, 0.5,
    0.17, 1, 0.98, 0, 1, 0, 0.983, 0.6,
    0.34, 1, 0.94, 0, 1, 0, 0.96, 0.68,
    0.5, 1, 0.87, 0, 1, 0, 0.92, 0.77,
    0.64, 1, 0.77, 0, 1, 0, 0.87, 0.83,
    0.77, 1, 0.64, 0, 1, 0, 0.83, 0.87,
    0.87, 1, 0.5, 0, 1, 0, 0.77, 0.92,
    0.94, 1, 0.34, 0, 1, 0, 0.68, 0.96,
    0.98, 1, 0.17, 0, 1, 0, 0.6, 0.983
  ]

/-- The rows of `verts` of `UCreateCylinderMesh` under "cylinder body",
vertices 72 to 119. -/
def UCreateCylinderMesh.verts.body1 : List ℚ :=
  [
    1, 1, 0, 1, 0, 0, 0, 1,
    1, 0, 0, 1, 0, 0, 0, 0,
    0.98, 0, -0.17, 1, 0, 0, 0.0277, 0,
    1, 1, 0, 0.92, 0, -0.08, 0, 1,
    0.98, 1, -0.17, 0.92, 0, -0.08, 0.0277, 1,
    0.98, 0, -0.17, 0.92, 0, -0.08, 0.0277, 0,
    0.94, 0, -0.34, 0.83, 0, -0.17, 0.0554, 0,
    0.98, 1, -0.17, 0.83, 0, -0.17, 0.0277, 1,
    0.94, 1, -0.34, 0.83, 0, -0.17, 0.0554, 1,
    0.94, 0, -0.34, 0.75, 0, -0.25, 0.0554, 0,
    0.87, 0, -0.5, 0.75, 0, -0.25, 0.0831, 0,
    0.94, 1, -0.34, 0.75, 0, -0.25, 0.0554, 1,
    0.87, 1, -0.5, 0.67, 0, -0.33, 0.0831, 1,
    0.87, 0, -0.5, 0.67, 0, -0.33, 0.0831, 0,
    0.77, 0, -0.64, 0.67, 0, -0.33, 0.1108, 0,
    0.87, 1, -0.5, 0.58, 0, -0.42, 0.0831, 1,
    0.77, 1, -0.64, 0.58, 0, -0.42, 0.1108, 1,
    0.77, 0, -0.64, 0.58, 0, -0.42, 0.1108, 0,
    0.64, 0, -0.77, 0.5, 0, -0.5, 0.1385, 0,
    0.77, 1, -0.64, 0.5, 0, -0.5, 0.1108, 1,
    0.64, 1, -0.77, 0.5, 0, -0.5, 0.1385, 1,
    0.64, 0, -0.77, 0.42, 0, -0.58, 0.1385, 0,
    0.5, 0, -0.87, 0.42, 0, -0.58, 0.1662, 0,
    0.64, 1, -0.77, 0.42, 0, -0.58, 0.1385, 1,
    0.5, 1, -0.87, 0.33, 0, -0.67, 0.1662, 1,
    0.5, 0, -0.87, 0.33, 0, -0.67, 0.1662, 0,
    0.34, 0, -0.94, 0.33, 0, -0.67, 0.1939, 0,
    0.5, 1, -0.87, 0.25, 0, -0.75, 0.1662, 1,
    0.34, 1, -0.94, 0.25, 0, -0.75, 0.1939, 1,
    0.34, 0, -0.94, 0.25, 0, -0.75, 0.1939, 0,
    0.17, 0, -0.98, 0.17, 0, -0.83, 0.2216, 0,
    0.34, 1, -0.94, 0.17, 0, -0.83, 0.1939, 1,
    0.17, 1, -0.98, 0.17, 0, -0.83, 0.2216, 1,
    0.17, 0, -0.98, 0.08, 0, -0.92, 0.2216, 0,
    0, 0, -1, 0.08, 0, -0.92, 0.2493, 0,
    0.17, 1, -0.98, 0.08, 0, -0.92, 0.2216, 1,
    0, 1, -1, 0, 0, -1, 0.2493, 1,
    0, 0, -1, 0, 0, -1, 0.2493, 0,
    -0.17, 0, -0.98, 0, 0, -1, 0.277, 0,
    0, 1, -1, 0.08, 0, -1.08, 0.2493, 1,
    -0.17, 1, -0.98, -0.08, 0, -0.92, 0.277, 1,
    -0.17, 0, -0.98, -0.08, 0, -0.92, 0.277, 0,
    -0.34, 0, -0.94, -0.08, 0, -0.92, 0.3047, 0,
    -0.17, 1, -0.98, -0.08, 0, -0.92, 0.277, 1,
    -0.34, 1, -0.94, -0.17, 0, -0.83, 0.3047, 1,
    -0.34, 0, -0.94, -0.17, 0, -0.83, 0.3047, 0,
    -0.5, 0, -0.87, -0.17, 0, -0.83, 0.3324, 0,
    -0.34, 1, -0.94, -0.25, 0, -0.75, 0.3047, 1
  ]

/-- The rows of `verts` of `UCreateCylinderMesh` under "cylinder body",
vertices 120 to 167. -/
def UCreateCylinderMesh.verts.body2 : List ℚ :=
  [
    -0.5, 1, -0.87, -0.25, 0, -0.75, 0.3324, 1,
    -0.5, 0, -0.87, -0.25, 0, -0.75, 0.3324, 0,
    -0.64, 0, -0.77, -0.33, 0, -0.67, 0.3601, 0,
    -0.5, 1, -0.87, -0.33, 0, -0.67, 0.3324, 1,
    -0.64, 1, -0.77, -0.33, 0, -0.67, 0.3601, 1,
    -0.64, 0, -0.77, -0.42, 0, -0.58, 0.3601, 0,
    -0.77, 0, -0.64, -0.42, 0, -0.58, 0.3878, 0,
    -0.64, 1, -0.77, -0.42, 0, -0.58, 0.3601, 1,
    -0.77, 1, -0.64, -0.5, 0, -0.5, 0.3878, 1,
    -0.77, 0, -0.64, -0.5, 0, -0.5, 0.3878, 0,
    -0.87, 0, -0.5, -0.5, 0, -0.5, 0.4155, 0,
    -0.77, 1, -0.64, -0.58, 0, -0.42, 0.3878, 1,
    -0.87, 1, -0.5, -0.58, 0, -0.42, 0.4155, 1,
    -0.87, 0, -0.5, -0.58, 0, -0.42, 0.4155, 0,
    -0.94, 0, -0.34, -0.67, 0, -0.33, 0.4432, 0,
    -0.87, 1, -0.5, -0.67, 0, -0.33, 0.4155, 1,
    -0.94, 1, -0.34, -0.67, 0, -0.33, 0.4432, 1,
    -0.94, 0, -0.34, -0.75, 0, -0.25, 0.4432, 0,
    -0.98, 0, -0.17, -0.75, 0, -0.25, 0.4709, 0,
    -0.94, 1, -0.34, -0.75, 0, -0.25, 0.4432, 1,
    -0.98, 1, -0.17, -0.83, 0, -0.17, 0.4709, 1,
    -0.98, 0, -0.17, -0.83, 0, -0.17, 0.4709, 0,
    -1, 0, 0, -0.83, 0, -0.17, 0.4986, 0,
    -0.98, 1, -0.17, -0.92, 0, -0.08, 0.4709, 1,
    -1, 1, 0, -0.92, 0, -0.08, 0.4986, 1,
    -1, 0, 0, -0.92, 0, -0.08, 0.4986, 0,
    -0.98, 0, 0.17, -1, 0, 0, 0.5263, 0,
    -1, 1, 0, -1, 0, 0, 0.4986, 1,
    -0.98, 1, 0.17, -1, 0, 0, 0.5263, 1,
    -0.98, 0, 0.17, -0.92, 0, 0.08, 0.5263, 0,
    -0.94, 0, 0.34, -0.92, 0, 0.08, 0.554, 0,
    -0.98, 1, 0.17, -0.92, 0, 0.08, 0.5263, 1,
    -0.94, 1, 0.34, -0.83, 0, 0.17, 0.554, 1,
    -0.94, 0, 0.34, -0.83, 0, 0.17, 0.554, 0,
    -0.87, 0, 0.5, -0.83, 0, 0.17, 0.5817, 0,
    -0.94, 1, 0.34, -0.75, 0, 0.25, 0.554, 1,
    -0.87, 1, 0.5, -0.75, 0, 0.25, 0.5817, 1,
    -0.87, 0, 0.5, -0.75, 0, 0.25, 0.5817, 0,
    -0.77, 0, 0.64, -0.67, 0, 0.33, 0.6094, 0,
    -0.87, 1, 0.5, -0.67, 0, 0.33, 0.5817, 1,
    -0.77, 1, 0.64, -0.67, 0, 0.33, 0.6094, 1,
    -0.77, 0, 0.64, -0.58, 0, 0.42, 0.6094, 0,
    -0.64, 0, 0.77, -0.58, 0, 0.42, 0.6371, 0,
    -0.77, 1, 0.64, -0.58, 0, 0.42, 0.6094, 1,
    -0.64, 1, 0.77, -0.5, 0, 0.5, 0.6371, 1,
    -0.64, 0, 0.77, -0.5, 0, 0.5, 0.6371, 0,
    -0.5, 0, 0.87, -0.5, 0, 0.5, 0.6648, 0,
    -0.64, 1, 0.77, -0.42, 0, 0.58, 0.6371, 1
  ]

/-- The rows of `verts` of `UCreateCylinderMesh` under "cylinder body",
vertices 168 to 217. -/
def UCreateCylinderMesh.verts.body3 : List ℚ :=
  [
    -0.5, 1, 0.87, -0.42, 0, 0.58, 0.6648, 1,
    -0.5, 0, 0.87, -0.42, 0, 0.58, 0.6648, 0,
    -0.34, 0, 0.94, -0.33, 0, 0.67, 0.6925, 0,
    -0.5, 1, 0.87, -0.33, 0, 0.67, 0.6648, 1,
    -0.34, 1, 0.94, -0.33, 0, 0.67, 0.6925, 1,
    -0.34, 0, 0.94, -0.25, 0, 0.75, 0.6925, 0,
    -0.17, 0, 0.98, -0.25, 0, 0.75, 0.7202, 0,
    -0.34, 1, 0.94, -0.25, 0, 0.75, 0.6925, 1,
    -0.17, 1, 0.98, -0.17, 0, 0.83, 0.7202, 1,
    -0.17, 0, 0.98, -0.17, 0, 0.83, 0.7202, 0,
    0, 0, 1, -0.17, 0, 0.83, 0.7479, 0,
    -0.17, 1, 0.98, -0.08, 0, 0.92, 0.7202, 1,
    0, 1, 1, -0.08, 0, 0.92, 0.7479, 1,
    0, 0, 1, -0.08, 0, 0.92, 0.7479, 0,
    0.17, 0, 0.98, -0, 0, 1, 0.7756, 0,
    0, 1, 1, -0, 0, 1, 0.7479, 1,
    0.17, 1, 0.98, -0, 0, 1, 0.7756, 1,
    0.17, 0, 0.98, 0.08, 0, 0.92, 0.7756, 0,
    0.34, 0, 0.94, 0.08, 0, 0.92, 0.8033, 0,
    0.17, 1, 0.98, 0.08, 0, 0.92, 0.7756, 1,
    0.34, 1, 0.94, 0.17, 0, 0.83, 0.8033, 1,
    0.34, 0, 0.94, 0.17, 0, 0.83, 0.8033, 0,
    0.5, 0, 0.87, 0.17, 0, 0.83, 0.831, 0,
    0.34, 1, 0.94, 0.25, 0, 0.75, 0.8033, 1,
    0.5, 1, 0.87, 0.25, 0, 0.75, 0.831, 1,
    0.5, 0, 0.87, 0.25, 0, 0.75, 0.831, 0,
    0.64, 0, 0.77, 0.33, 0, 0.67, 0.8587, 0,
    0.5, 1, 0.87, 0.33, 0, 0.67, 0.831, 1,
    0.64, 1, 0.77, 0.33, 0, 0.67, 0.8587, 1,
    0.64, 0, 0.77, 0.42, 0, 0.58, 0.8587, 0,
    0.77, 0, 0.64, 0.42, 0, 0.58, 0.8864, 0,
    0.64, 1, 0.77, 0.42, 0, 0.58, 0.8587, 1,
    0.77, 1, 0.64, 0.5, 0, 0.5, 0.8864, 1,
    0.77, 0, 0.64, 0.5, 0, 0.5, 0.8864, 0,
    0.87, 0, 0.5, 0.5, 0, 0.5, 0.9141, 0,
    0.77, 1, 0.64, 0.58, 0, 0.42, 0.8864, 1,
    0.87, 1, 0.5, 0.58, 0, 0.42, 0.9141, 1,
    0.87, 0, 0.5, 0.58, 0, 0.42, 0.9141, 0,
    0.94, 0, 0.34, 0.67, 0, 0.33, 0.9418, 0,
    0.87, 1, 0.5, 0.67, 0, 0.33, 0.9141, 1,
    0.94, 1, 0.34, 0.67, 0, 0.33, 0.9418, 1,
    0.94, 0, 0.34, 0.75, 0, 0.25, 0.9418, 0,
    0.98, 0, 0.17, 0.75, 0, 0.25, 0.9695, 0,
    0.94, 1, 0.34, 0.75, 0, 0.25, 0.9418, 0,
    0.98, 1, 0.17, 0.83, 0, 0.17, 0.9695, 1,
    0.98, 0, 0.17, 0.83, 0, 0.17, 0.9695, 0,
    1, 0, 0, 0.83, 0, 0.17, 1, 0,
    0.98, 1, 0.17, 0.92, 0, 0.08, 0.9695, 1,
    1, 1, 0, 0.92, 0, 0.08, 1, 1,
    1, 0, 0, 0.92, 0, 0.08, 1, 0
  ]

/-- The array `verts` of `UCreateCylinderMesh`: 36 vertices of the bottom, 36
of the top, 146 of the body, each 3 position, 3 normal and 2 texture
coordinates. -/
def UCreateCylinderMesh.verts : List ℚ :=
  UCreateCylinderMesh.verts.bottom ++ UCreateCylinderMesh.verts.top
    ++ UCreateCylinderMesh.verts.body1 ++ UCreateCylinderMesh.verts.body2
    ++ UCreateCylinderMesh.verts.body3

/-- The vertex shader source of the lit program: the text the macro
`GLSL(440, ...)` expands to, the version line followed by the source with its
comments removed and each run of white space turned into one blank. -/
def vertexShaderSource : String :=
  "#version 440 core \n"
    ++ "layout(location = 0) in vec3 position; layout(location = 1) in vec3 normal; "
    ++ "layout(location = 2) in vec2 textureCoordinate; out vec3 vertexNormal; "
    ++ "out vec3 vertexFragmentPos; out vec2 vertexTextureCoordinate; uniform mat4 model; "
    ++ "uniform mat4 view; uniform mat4 projection; void main() \x7b "
    ++ "gl_Position = projection * view * model * vec4(position, 1.0f); "
    ++ "vertexFragmentPos = vec3(model * vec4(position, 1.0f)); "
    ++ "vertexNormal = mat3(transpose(inverse(model))) * normal; "
    ++ "vertexTextureCoordinate = textureCoordinate; \x7d"

/-- The fragment shader source of the lit program: the text the macro
`GLSL(440, ...)` expands to, the version line followed by the source with its
comments removed and each run of white space turned into one blank. -/
def fragmentShaderSource : String :=
  "#version 440 core \n"
    ++ "in vec3 vertexNormal; in vec3 vertexFragmentPos; in vec2 vertexTextureCoordinate; "
    ++ "out vec4 fragmentColor; uniform vec3 objectColor; uniform vec3 lightColor; "
    ++ "uniform vec3 lightPos; uniform vec3 viewPosition; uniform sampler2D uTexture; "
    ++ "uniform vec2 uvScale; void main() \x7b float ambientStrength = 0.22f; "
    ++ "vec3 ambient = ambientStrength * lightColor; vec3 norm = normalize(vertexNormal); "
    ++ "vec3 lightDirection = normalize(lightPos - vertexFragmentPos); "
    ++ "float impact = max(dot(norm, lightDirection), 0.0); "
    ++ "vec3 diffuse = impact * lightColor; float specularIntensity = 0.9f; "
    ++ "float highlightSize = 16.0f; "
    ++ "vec3 viewDir = normalize(viewPosition - vertexFragmentPos); "
    ++ "vec3 reflectDir = reflect(-lightDirection, norm); "
    ++ "float specularComponent = pow(max(dot(viewDir, reflectDir), 0.0), highlightSize); "
    ++ "vec3 specular = specularIntensity * specularComponent * lightColor; "
    ++ "vec4 textureColor = texture(uTexture, vertexTextureCoordinate * uvScale); "
    ++ "vec3 phong = (ambient + diffuse + specular) * textureColor.xyz; "
    ++ "fragmentColor = vec4(phong, 1.0); \x7d"

/-- The vertex shader source of the lamp program: the text the macro
`GLSL(440, ...)` expands to, the version line followed by the source with its
comments removed and each run of white space turned into one blank. -/
def lampVertexShaderSource : String :=
  "#version 440 core \n"
    ++ "layout(location = 0) in vec3 position; uniform mat4 model; uniform mat4 view; "
    ++ "uniform mat4 projection; void main() \x7b "
    ++ "gl_Position = projection * view * model * vec4(position, 1.0f); \x7d"

/-- The fragment shader source of the lamp program: the text the macro
`GLSL(440, ...)` expands to, the version line followed by the source with its
comments removed and each run of white space turned into one blank. -/
def lampFragmentShaderSource : String :=
  "#version 440 core \n"
    ++ "out vec4 fragmentColor; void main() \x7b fragmentColor = vec4(1.0f); \x7d"

/-- The size in bytes of a `GLfloat` and of a `GLuint` (`sizeof`). -/
def sizeofGL : Nat := 4

/-- The function `UCreatePlaneMesh`. `mesh` is the variable passed by
reference, returned with the new state. -/
def UCreatePlaneMesh (mesh : GLMesh) (s : App) : GLMesh × App :=
  let verts := UCreatePlaneMesh.verts
  let indices := UCreatePlaneMesh.indices
  let floatsPerVertex := 3
  let floatsPerNormal := 3
  let floatsPerUV := 2
  let mesh := { mesh with
    nVertices := (sizeofGL * verts.length)
      / (sizeofGL * (floatsPerVertex + floatsPerNormal + floatsPerUV)) }
  let mesh := { mesh with nIndices := (sizeofGL * indices.length) / sizeofGL }
  let vao := freshName s.gl.vertexArrayNames
  let mesh := { mesh with vao := vao }
  let gl := execAll s.gl [.genVertexArrays vao, .bindVertexArray vao]
  let vbo0 := freshName gl.bufferNames
  let vbo1 := freshName (gl.bufferNames ++ [vbo0])
  let mesh := { mesh with vbos := (vbo0, vbo1) }
  let stride := sizeofGL * (floatsPerVertex + floatsPerNormal + floatsPerUV)
  let gl := execAll gl
    [ .genBuffers [vbo0, vbo1],
      .bindBuffer .GL_ARRAY_BUFFER mesh.vbos.1,
      .bufferData .GL_ARRAY_BUFFER (.floats verts),
      .bindBuffer .GL_ELEMENT_ARRAY_BUFFER mesh.vbos.2,
      .bufferData .GL_ELEMENT_ARRAY_BUFFER (.uints indices),
      .vertexAttribPointer 0 floatsPerVertex stride 0,
      .enableVertexAttribArray 0,
      .vertexAttribPointer 1 floatsPerNormal stride (sizeofGL * floatsPerVertex),
      .enableVertexAttribArray 1,
      .vertexAttribPointer 2 floatsPerUV stride (sizeofGL * (floatsPerVertex + floatsPerNormal)),
      .enableVertexAttribArray 2 ]
  (mesh, { s with gl := gl })

/-- The function `UCreateCube`. `mesh` is the variable passed by reference,
returned with the new state. -/
def UCreateCube (mesh : GLMesh) (s : App) : GLMesh × App :=
  let verts := UCreateCube.verts
  let indices := UCreateCube.indices
  let floatsPerVertex := 3
  let floatsPerNormal := 3
  let floatsPerUV := 2
  let mesh := { mesh with
    nVertices := (sizeofGL * verts.length)
      / (sizeofGL * (floatsPerVertex + floatsPerNormal + floatsPerUV)) }
  let mesh := { mesh with nIndices := (sizeofGL * indices.length) / sizeofGL }
  let vao := freshName s.gl.vertexArrayNames
  let mesh := { mesh with vao := vao }
  let gl := execAll s.gl [.genVertexArrays vao, .bindVertexArray vao]
  let vbo0 := freshName gl.bufferNames
  let vbo1 := freshName (gl.bufferNames ++ [vbo0])
  let mesh := { mesh with vbos := (vbo0, vbo1) }
  let gl := execAll gl
    [ .genBuffers [vbo0, vbo1],
      .bindBuffer .GL_ARRAY_BUFFER mesh.vbos.1,
      .bufferData .GL_ARRAY_BUFFER (.floats verts),
      .bindBuffer .GL_ELEMENT_ARRAY_BUFFER mesh.vbos.2,
      .bufferData .GL_ELEMENT_ARRAY_BUFFER (.uints indices) ]
  let stride := sizeofGL * (floatsPerVertex + floatsPerNormal + floatsPerUV)
  let gl := execAll gl
    [ .vertexAttribPointer 0 floatsPerVertex stride 0,
      .enableVertexAttribArray 0,
      .vertexAttribPointer 1 floatsPerNormal stride (sizeofGL * floatsPerVertex),
      .enableVertexAttribArray 1,
      .vertexAttribPointer 2 floatsPerUV stride (sizeofGL * (floatsPerVertex + floatsPerNormal)),
      .enableVertexAttribArray 2 ]
  (mesh, { s with gl := gl })

/-- The function `UCreateCylinderMesh`. `mesh` is the variable passed by
reference, returned with the new state. The function assigns `nIndices`,
`vao` and `vbos[0]`; it has no statement that assigns `nVertices` or
`vbos[1]`. -/
def UCreateCylinderMesh (mesh : GLMesh) (s : App) : GLMesh × App :=
  let verts := UCreateCylinderMesh.verts
  let floatsPerVertex := 3
  let floatsPerNormal := 3
  let floatsPerUV := 2
  let mesh := { mesh with nIndices := 0 }
  let vao := freshName s.gl.vertexArrayNames
  let mesh := { mesh with vao := vao }
  let gl := execAll s.gl [.genVertexArrays vao, .bindVertexArray vao]
  let vbo0 := freshName gl.bufferNames
  let mesh := { mesh with vbos := (vbo0, mesh.vbos.2) }
  let gl := execAll gl
    [ .genBuffers [vbo0],
      .bindBuffer .GL_ARRAY_BUFFER mesh.vbos.1,
      .bufferData .GL_ARRAY_BUFFER (.floats verts) ]
  let stride := sizeofGL * (floatsPerVertex + floatsPerNormal + floatsPerUV)
  let gl := execAll gl
    [ .vertexAttribPointer 0 floatsPerVertex stride 0,
      .enableVertexAttribArray 0,
      .vertexAttribPointer 1 floatsPerNormal stride (sizeofGL * floatsPerVertex),
      .enableVertexAttribArray 1,
      .vertexAttribPointer 2 floatsPerUV stride (sizeofGL * (floatsPerVertex + floatsPerNormal)),
      .enableVertexAttribArray 2 ]
  (mesh, { s with gl := gl })

/-- The function `UCreateAllMeshes`. -/
def UCreateAllMeshes (s : App) : App :=
  let (m, s) := UCreatePlaneMesh s.gMeshFloor s
  let s := { s with gMeshFloor := m }
  let (m, s) := UCreateCube s.gMeshPlaystation s
  let s := { s with gMeshPlaystation := m }
  let (m, s) := UCreateCylinderMesh s.gMeshPlaystationCylinder s
  let s := { s with gMeshPlaystationCylinder := m }
  let (m, s) := UCreateCube s.gMeshGB s
  let s := { s with gMeshGB := m }
  let (m, s) := UCreateCube s.gMeshDK s
  let s := { s with gMeshDK := m }
  let (m, s) := UCreateCube s.gMeshRedAlert s
  let s := { s with gMeshRedAlert := m }
  let (m, s) := UCreateCylinderMesh s.gMeshSpiderman s
  let s := { s with gMeshSpiderman := m }
  let (m, s) := UCreateCube s.gMeshLightSource s
  let s := { s with gMeshLightSource := m }
  s

/-- The function `UDestroyMesh`. -/
def UDestroyMesh (mesh : GLMesh) (s : App) : App :=
  let gl := execAll s.gl
    [ .deleteVertexArrays mesh.vao, .deleteBuffers [mesh.vbos.1, mesh.vbos.2] ]
  { s with gl := gl }

/-- The function `UDestroyTexture`: its one statement is
`glGenTextures(1, &textureId)`, on its own copy of `textureId`. -/
def UDestroyTexture (textureId : Nat) (s : App) : App :=
  let textureId := freshName s.gl.textureNames
  { s with gl := exec s.gl (.genTextures textureId) }

/-- The function `UDestroyShaderProgram`. -/
def UDestroyShaderProgram (programId : Nat) (s : App) : App :=
  { s with gl := exec s.gl (.deleteProgram programId) }

/-! ## Mouse input -/

/-- The `float` library functions the camera uses, on the values they are
applied to: cosine and sine of an angle, and `glm::normalize`. -/
structure FloatMath where
  cos : Angle → ℚ
  sin : Angle → ℚ
  normalize : Vec3 → Vec3

/-- The cross product `glm::cross`. -/
def Vec3.cross (a b : Vec3) : Vec3 :=
  ⟨a.y * b.z - a.z * b.y, a.z * b.x - a.x * b.z, a.x * b.y - a.y * b.x⟩

/-- Modelled from the spec: the recomputation of the camera basis in
`camera.h`, which is not among the sources. It "recomputes front/right/up from
yaw/pitch using standard spherical-to-Cartesian conversion, assuming
world-up = (0,1,0)". -/
def Camera.updateCameraVectors (m : FloatMath) (c : Camera) : Camera :=
  let front : Vec3 :=
    ⟨m.cos (radians c.Yaw) * m.cos (radians c.Pitch),
     m.sin (radians c.Pitch),
     m.sin (radians c.Yaw) * m.cos (radians c.Pitch)⟩
  let Front := m.normalize front
  let Right := m.normalize (Front.cross c.WorldUp)
  let Up := m.normalize (Right.cross Front)
  { c with Front := Front, Right := Right, Up := Up }

/-- Modelled from the spec: `Camera::ProcessMouseMovement` of `camera.h`,
which is not among the sources. It "accumulates into yaw (+xoffset*sensitivity)
and pitch (+yoffset*sensitivity); pitch is clamped to (-89°, +89°)", then
recomputes the basis. -/
def Camera.ProcessMouseMovement (m : FloatMath) (c : Camera) (xoffset yoffset : ℚ) : Camera :=
  let xoffset := xoffset * c.MouseSensitivity
  let yoffset := yoffset * c.MouseSensitivity
  let Yaw := c.Yaw + xoffset
  let Pitch := c.Pitch + yoffset
  let Pitch := if Pitch > 89 then 89 else Pitch
  let Pitch := if Pitch < -89 then -89 else Pitch
  Camera.updateCameraVectors m { c with Yaw := Yaw, Pitch := Pitch }

/-- Modelled from the spec: `Camera::ProcessMouseScroll` of `camera.h`, which
is not among the sources. It "adjusts `zoom` (field of view) by `-yoffset`,
clamped to [1°, 45°]", with "zero side effects beyond this field". -/
def Camera.ProcessMouseScroll (c : Camera) (yoffset : ℚ) : Camera :=
  let Zoom := c.Zoom - yoffset
  let Zoom := if Zoom < 1 then 1 else Zoom
  let Zoom := if Zoom > 45 then 45 else Zoom
  { c with Zoom := Zoom }

/-- The function `UMousePositionCallback`. -/
def UMousePositionCallback (m : FloatMath) (xpos ypos : ℚ) (s : App) : App :=
  let s := if s.gFirstMouse then
      { s with gLastX := xpos, gLastY := ypos, gFirstMouse := false } else s
  let xoffset := xpos - s.gLastX
  let yoffset := s.gLastY - ypos
  let s := { s with gLastX := xpos, gLastY := ypos }
  { s with gCamera := s.gCamera.ProcessMouseMovement m xoffset yoffset }

/-- The function `UMouseScrollCallback`. -/
def UMouseScrollCallback (xoffset yoffset : ℚ) (s : App) : App :=
  { s with gCamera := s.gCamera.ProcessMouseScroll yoffset }

/-! ## `main` -/

/-- The exit status `EXIT_SUCCESS`. -/
def EXIT_SUCCESS : Int := 0

/-- The exit status `EXIT_FAILURE`. -/
def EXIT_FAILURE : Int := 1

/-- What the program meets outside itself at startup: whether
`glfwCreateWindow` gives a window, whether `glewInit` gives `GLEW_OK` (and the
error text otherwise), the version string of the GL, its shader compiler and
linker, the image decoder on the files present, and the `float` library. -/
structure Env where
  windowCreated : Bool
  glewOk : Bool
  glewErrorString : String
  glVersion : String
  driver : ShaderDriver
  stbi_load : String → Option StbImage
  math : FloatMath

/-- The function `UInitialize`. The callbacks it registers are the ones
`glfwPollEvents` dispatches to. -/
def UInitialize (env : Env) (argc : Int) (argv : List String) (s : App) : Bool × App :=
  if !env.windowCreated then
    (false, { s with cout := s.cout ++ "Failed to create GLFW window" ++ "\n",
                     gl := exec s.gl .terminate })
  else if !env.glewOk then
    (false, { s with cerr := s.cerr ++ env.glewErrorString ++ "\n" })
  else
    (true, { s with cout := s.cout ++ "INFO: OpenGL Version: " ++ env.glVersion ++ "\n" })

/-- One event as `glfwPollEvents` hands it to the window: a key event, a
cursor position, a scroll offset, a framebuffer size, or a request to close
the window. -/
inductive Event where
  | key (key scancode action mods : Int)
  | cursorPos (xpos ypos : ℚ)
  | scroll (xoffset yoffset : ℚ)
  | framebufferSize (width height : Int)
  | close

/-- The callback registered for an event, `UInitialize` having registered
`key_callback`, `UMousePositionCallback`, `UMouseScrollCallback` and
`UResizeWindow`; a close request sets the close flag of the window. -/
def dispatchEvent (env : Env) (s : App) : Event → App
  | .key key scancode action mods => key_callback key scancode action mods s
  | .cursorPos xpos ypos => UMousePositionCallback env.math xpos ypos s
  | .scroll xoffset yoffset => UMouseScrollCallback xoffset yoffset s
  | .framebufferSize width height => UResizeWindow width height s
  | .close => { s with windowShouldClose := true }

/-- The library call `glfwPollEvents`, for the events pending at the call. -/
def glfwPollEvents (env : Env) (events : List Event) (s : App) : App :=
  events.foldl (dispatchEvent env) s

/-- What one iteration of the render loop meets: the value of `glfwGetTime`,
the key states `glfwGetKey` reports, and the events pending at
`glfwPollEvents`. -/
structure FrameInput where
  time : ℚ
  keys : Int → Int
  events : List Event

/-- The body of the render loop of `main`. -/
def main.frame (env : Env) (f : FrameInput) (s : App) : App :=
  let currentFrame := f.time
  let s := { s with gDeltaTime := currentFrame - s.gLastFrame, gLastFrame := currentFrame }
  let s := UProcessInput f.keys s
  let s := URender s.isPerspectiveView s
  glfwPollEvents env f.events s

/-- The render loop of `main`, `while (!glfwWindowShouldClose(gWindow))`, with
`n` the number of iterations done so far: the count and the state when the
loop is left, or `none` when the window is still open after the last of
`frames`. -/
def main.loop (env : Env) : List FrameInput → Nat → App → Option (Nat × App)
  | [], n, s => if s.windowShouldClose then some (n, s) else none
  | f :: frames, n, s =>
    if s.windowShouldClose then some (n, s)
    else main.loop env frames (n + 1) (main.frame env f s)

/-- How a run of `main` stands: the process has exited with a status after a
number of loop iterations, or it has run into undefined behaviour, or it is
still in the render loop. -/
inductive Outcome where
  | exit (status : Int) (iterations : Nat) (s : App)
  | undefined
  | running

/-- The path of the first texture file. -/
def texFilename1 : String := "../resources/textures/wood.jpg"

/-- The path of the second texture file. -/
def texFilename2 : String := "../resources/textures/ps1.png"

/-- The path of the third texture file. -/
def texFilename3 : String := "../resources/textures/logo.jpg"

/-- The path of the fourth texture file. -/
def texFilename4 : String := "../resources/textures/gb5.png"

/-- The path of the fifth texture file. -/
def texFilename5 : String := "../resources/textures/dk.jpg"

/-- The path of the sixth texture file. -/
def texFilename6 : String := "../resources/textures/ra.png"

/-- The path of the seventh texture file. -/
def texFilename7 : String := "../resources/textures/spiderman2.png"

/-- One "Load texture" block of `main`:
`if (!UCreateTexture(texFilename, texture)) { cout << "Failed to load texture "
<< printed << endl; return EXIT_FAILURE; }`, with `get` and `set` reading and
writing the texture variable the block names. -/
def main.loadTexture (env : Env) (texFilename printed : String) (get : App → Nat)
    (set : App → Nat → App) (s : App) : Except Outcome App :=
  match UCreateTexture env.stbi_load texFilename (get s) s with
  | none => .error .undefined
  | some (ok, textureId, s) =>
    let s := set s textureId
    if !ok then
      .error (.exit EXIT_FAILURE 0
        { s with cout := s.cout ++ "Failed to load texture " ++ printed ++ "\n" })
    else .ok s

/-- One "Create the shader program" statement of `main`:
`if (!UCreateShaderProgram(vtx, frag, program)) return EXIT_FAILURE;`. -/
def main.createProgram (env : Env) (vtxShaderSource fragShaderSource : String)
    (get : App → Nat) (set : App → Nat → App) (s : App) : Except Outcome App :=
  match UCreateShaderProgram env.driver vtxShaderSource fragShaderSource (get s) s with
  | (ok, programId, s) =>
    let s := set s programId
    if !ok then .error (.exit EXIT_FAILURE 0 s) else .ok s

/-- The statements of `main` before the render loop: the state the loop starts
from, or how the run ended. -/
def main.startup (argc : Int) (argv : List String) (env : Env) : Except Outcome App := do
  let s ← (match UInitialize env argc argv App.initial with
    | (ok, s) => if !ok then .error (.exit EXIT_FAILURE 0 s) else .ok s)
  let s := UCreateAllMeshes s
  let s ← main.createProgram env vertexShaderSource fragmentShaderSource
    (fun s => s.gProgramId) (fun s id => { s with gProgramId := id }) s
  let s ← main.createProgram env lampVertexShaderSource lampFragmentShaderSource
    (fun s => s.gLampProgramId) (fun s id => { s with gLampProgramId := id }) s
  let s ← main.loadTexture env texFilename1 texFilename1
    (fun s => s.woodTexture) (fun s id => { s with woodTexture := id }) s
  let s ← main.loadTexture env texFilename2 texFilename2
    (fun s => s.playstationPlasticTexture)
    (fun s id => { s with playstationPlasticTexture := id }) s
  let s ← main.loadTexture env texFilename3 texFilename3
    (fun s => s.playstationLogoTexture) (fun s id => { s with playstationLogoTexture := id }) s
  let s ← main.loadTexture env texFilename4 texFilename3
    (fun s => s.gbTexture) (fun s id => { s with gbTexture := id }) s
  let s ← main.loadTexture env texFilename5 texFilename5
    (fun s => s.dkTexture) (fun s id => { s with dkTexture := id }) s
  let s ← main.loadTexture env texFilename6 texFilename6
    (fun s => s.redAlertTexture) (fun s id => { s with redAlertTexture := id }) s
  let s ← main.loadTexture env texFilename7 texFilename7
    (fun s => s.spidermanTexture) (fun s id => { s with spidermanTexture := id }) s
  let gl := execAll s.gl
    [ .useProgram s.gProgramId,
      .uniform1i (glGetUniformLocation s.gProgramId .uTexture) 0,
      .clearColor 0 0 0 1 ]
  pure { s with gl := gl }

/-- The statements of `main` after the render loop, up to `exit`. -/
def main.shutdown (s : App) : App :=
  let s := UDestroyMesh s.gMeshFloor s
  let s := UDestroyMesh s.gMeshPlaystation s
  let s := UDestroyMesh s.gMeshPlaystationCylinder s
  let s := UDestroyMesh s.gMeshGB s
  let s := UDestroyMesh s.gMeshSpiderman s
  let s := UDestroyMesh s.gMeshRedAlert s
  let s := UDestroyMesh s.gMeshDK s
  let s := UDestroyTexture s.woodTexture s
  let s := UDestroyTexture s.playstationPlasticTexture s
  let s := UDestroyTexture s.playstationLogoTexture s
  let s := UDestroyTexture s.gbTexture s
  let s := UDestroyTexture s.spidermanTexture s
  let s := UDestroyTexture s.redAlertTexture s
  let s := UDestroyTexture s.dkTexture s
  let s := UDestroyShaderProgram s.gProgramId s
  let s := UDestroyShaderProgram s.gLampProgramId s
  s

/-- The function `main`, run in the environment `env` with `frames` the inputs
of the successive iterations of the render loop. -/
def main (argc : Int) (argv : List String) (env : Env) (frames : List FrameInput) : Outcome :=
  match main.startup argc argv env with
  | .error o => o
  | .ok s =>
    match main.loop env frames 0 s with
    | none => .running
    | some (n, s) => .exit EXIT_SUCCESS n (main.shutdown s)

/-! ## Observations on a frame and on a run -/

/-- The texture unit the entry's section activates and gives to the sampler
`uTexture`. -/
def Entry.unit : Entry → Nat
  | .floor => 0
  | .playstationBody => 1
  | .playstationCylinder => 2
  | .gameBoy => 3
  | .donkeyKong => 4
  | .redAlert => 5
  | .spiderman => 6

/-- The texture variable the entry's section binds. -/
def Entry.texture (s : App) : Entry → Nat
  | .floor => s.woodTexture
  | .playstationBody => s.playstationPlasticTexture
  | .playstationCylinder => s.playstationLogoTexture
  | .gameBoy => s.gbTexture
  | .donkeyKong => s.dkTexture
  | .redAlert => s.redAlertTexture
  | .spiderman => s.spidermanTexture

/-- The value the entry's section gives to `uvScale` last before its draw. -/
def Entry.uvScale : Entry → Vec2
  | .floor => ⟨4.24305, 4.24305⟩
  | .playstationBody => ⟨0.986171, 0.986171⟩
  | .playstationCylinder => ⟨1.00998, 1.00998⟩
  | .gameBoy => ⟨1.02017, 1.02017⟩
  | .donkeyKong => ⟨0.97998, 0.97998⟩
  | .redAlert => ⟨0.987171, 0.987171⟩
  | .spiderman => ⟨0.989171, 0.989171⟩

/-- The entry of each of the eleven lit draw calls of a frame, in the order of
the calls. -/
def Entry.ofLitDraws : List Entry :=
  [.floor, .playstationBody, .playstationCylinder, .playstationCylinder, .playstationCylinder,
   .gameBoy, .donkeyKong, .redAlert, .spiderman, .spiderman, .spiderman]

/-- The shading data of a draw: the uniforms the fragment stage of the lit
program reads, the active texture unit and the texture bound on it. -/
structure DrawShading where
  objectColor : Option UniformValue
  lightColor : Option UniformValue
  lightPos : Option UniformValue
  viewPosition : Option UniformValue
  uvScale : Option UniformValue
  uTexture : Option UniformValue
  activeTexture : Nat
  texture : Nat
  deriving DecidableEq

/-- The shading data a draw is issued with. -/
def Draw.shading (d : Draw) : DrawShading :=
  { objectColor := d.uniform .objectColor, lightColor := d.uniform .lightColor,
    lightPos := d.uniform .lightPos, viewPosition := d.uniform .viewPosition,
    uvScale := d.uniform .uvScale, uTexture := d.uniform .uTexture,
    activeTexture := d.activeTexture, texture := d.boundTexture d.activeTexture }

/-- The shading data the section of entry `e` sets up from state `s`. -/
def Entry.shading (s : App) (e : Entry) : DrawShading :=
  { objectColor := some (.vec3 s.gObjectColor.x s.gObjectColor.y s.gObjectColor.z),
    lightColor := some (.vec3 s.gLightColor.x s.gLightColor.y s.gLightColor.z),
    lightPos := some (.vec3 s.gLightPosition.x s.gLightPosition.y s.gLightPosition.z),
    viewPosition := some (.vec3 s.gCamera.Position.x s.gCamera.Position.y s.gCamera.Position.z),
    uvScale := some (.vec2 e.uvScale), uTexture := some (.int e.unit),
    activeTexture := e.unit, texture := e.texture s }

/-- Whether a call is `glDrawElements` or `glDrawArrays`. -/
def GLCmd.isDraw : GLCmd → Bool
  | .drawElements _ _ => true
  | .drawArrays _ _ _ => true
  | _ => false

/-- Whether a call is `glUseProgram`. -/
def GLCmd.isUseProgram : GLCmd → Bool
  | .useProgram _ => true
  | _ => false

/-- Whether a call is `glfwSwapBuffers`. -/
def GLCmd.isSwapBuffers : GLCmd → Bool
  | .swapBuffers => true
  | _ => false

/-- Whether a call is `glDeleteVertexArrays`. -/
def GLCmd.isDeleteVertexArrays : GLCmd → Bool
  | .deleteVertexArrays _ => true
  | _ => false

/-- The vector a call uploads to a `lightPos` uniform, when it is such an
upload. -/
def GLCmd.lightPos? : GLCmd → Option Vec3
  | .uniform3f ⟨_, .lightPos⟩ v0 v1 v2 => some ⟨v0, v1, v2⟩
  | _ => none

/-- The state after the loop body has run once for each of `frames`, oldest
first. -/
def runFrames (env : Env) (s : App) (frames : List FrameInput) : App :=
  frames.foldl (fun s f => main.frame env f s) s

/-- The seven texture variables, in the order of the scene entries. -/
def App.textures (s : App) : List Nat :=
  [ s.woodTexture, s.playstationPlasticTexture, s.playstationLogoTexture, s.gbTexture,
    s.dkTexture, s.redAlertTexture, s.spidermanTexture ]

/-- Whether an event is a request to close the window. -/
def Event.isClose : Event → Bool
  | .close => true
  | _ => false

/-- Whether a frame input asks the window to close: Escape is reported
pressed, or a close request is among the pending events. -/
def FrameInput.asksClose (f : FrameInput) : Bool :=
  decide (f.keys GLFW_KEY_ESCAPE = GLFW_PRESS) || f.events.any Event.isClose

/-- Whether the shader compiler and linker of `env` build the program of the
two sources. -/
def Env.builds (env : Env) (vtxShaderSource fragShaderSource : String) : Bool :=
  env.driver.compileStatus .GL_VERTEX_SHADER vtxShaderSource
    && env.driver.compileStatus .GL_FRAGMENT_SHADER fragShaderSource
    && env.driver.linkStatus vtxShaderSource fragShaderSource

/-- Whether the decoder of `env` decodes the file into 3 or 4 channels. -/
def Env.loads (env : Env) (filename : String) : Bool :=
  match env.stbi_load filename with
  | some img => decide (img.channels = 3 ∨ img.channels = 4)
  | none => false

/-- Whether every startup step succeeds in `env`: the window is created, GLEW
initialises, both programs build and the seven texture files load. -/
def Env.startupOk (env : Env) : Bool :=
  env.windowCreated && env.glewOk
    && env.builds vertexShaderSource fragmentShaderSource
    && env.builds lampVertexShaderSource lampFragmentShaderSource
    && env.loads texFilename1 && env.loads texFilename2 && env.loads texFilename3
    && env.loads texFilename4 && env.loads texFilename5 && env.loads texFilename6
    && env.loads texFilename7

/-- The contract of `stbi_load` in `env`: every image it hands back is
well formed. -/
def Env.WellFormed (env : Env) : Prop :=
  ∀ filename img, env.stbi_load filename = some img → img.WellFormed

/-- An environment in which every startup step succeeds: every texture file
decodes to a 1 by 1 RGB image. -/
def Env.working : Env :=
  { windowCreated := true, glewOk := true, glewErrorString := "", glVersion := "4.4",
    driver := ⟨fun _ _ => true, fun _ _ => "", fun _ _ => true, fun _ _ => ""⟩,
    stbi_load := fun _ => some ⟨[7, 8, 9], 1, 1, 3⟩,
    math := ⟨fun _ => 1, fun _ => 0, fun v => v⟩ }

/-- The environment `Env.working` without the file `gb5.png`. -/
def Env.withoutGb5 : Env :=
  { Env.working with
    stbi_load := fun f => if f = texFilename4 then none else some ⟨[7, 8, 9], 1, 1, 3⟩ }

/-- A frame input at time 1 with Escape held and no pending event. -/
def FrameInput.escape : FrameInput :=
  ⟨1, fun k => if k = GLFW_KEY_ESCAPE then GLFW_PRESS else GLFW_RELEASE, []⟩

/-- The state a run of `main` exits in, when it has exited. -/
def Outcome.final? : Outcome → Option App
  | .exit _ _ s => some s
  | _ => none

/-- The scene data the render loop reads and no statement of the program
assigns after startup: the shared light position, the light scale and the
seven texture variables. -/
def App.scene (s : App) : Vec3 × Vec3 × List Nat :=
  (s.gLightPosition, s.gLightScale, s.textures)

/-- The state the render loop starts from in the environment `Env.working`. -/
def App.started : App :=
  match main.startup 0 [] Env.working with
  | .ok s => s
  | .error _ => App.initial

/-- The shape of a startup step of `main`: it succeeds exactly when `b` holds,
and otherwise ends the run with `EXIT_FAILURE` before the first loop
iteration. -/
def StartupStep (b : Bool) (x : Except Outcome App) : Prop :=
  (b = true ∧ ∃ s, x = .ok s) ∨ (b = false ∧ ∃ s, x = .error (.exit EXIT_FAILURE 0 s))

/-! ## The diffuse term of the lit fragment shader -/

/-- The dot product `dot` of GLSL on `vec3`. -/
def Vec3.dot (a b : Vec3) : ℚ := a.x * b.x + a.y * b.y + a.z * b.z

/-- A `normalize` that divides by the sum of the absolute values of the
components: exact on the vectors along an axis. -/
def FloatMath.axial : FloatMath :=
  ⟨fun _ => 1, fun _ => 0,
    fun v => ⟨v.x / (|v.x| + |v.y| + |v.z|), v.y / (|v.x| + |v.y| + |v.z|),
      v.z / (|v.x| + |v.y| + |v.z|)⟩⟩

/-! ## Observations on the meshes and on the uploads of a frame -/

/-- The vector a call uploads to a `uvScale` uniform, when it is such an
upload. -/
def GLCmd.uvScale? : GLCmd → Option Vec2
  | .uniform2fv ⟨_, .uvScale⟩ v => some v
  | _ => none

/-- The eight mesh variables, in the order `UCreateAllMeshes` fills them. -/
def App.meshes (s : App) : List GLMesh :=
  [ s.gMeshFloor, s.gMeshPlaystation, s.gMeshPlaystationCylinder, s.gMeshGB, s.gMeshDK,
    s.gMeshRedAlert, s.gMeshSpiderman, s.gMeshLightSource ]

/-- The data the render loop reads and no statement of the program assigns
after the meshes are built: the global `gUVScale` and the eight meshes. -/
def App.assets (s : App) : Vec2 × List GLMesh := (s.gUVScale, s.meshes)

/-- The number of floats of one vertex in the vertex data of the meshes:
`floatsPerVertex + floatsPerNormal + floatsPerUV`. -/
def floatsPerRow : Nat := 3 + 3 + 2

/-- The position of vertex `i` of the cube: attribute 0, the first three floats
of the row. -/
def UCreateCube.position (i : Nat) : Vec3 :=
  ⟨UCreateCube.verts.getD (floatsPerRow * i) 0, UCreateCube.verts.getD (floatsPerRow * i + 1) 0,
    UCreateCube.verts.getD (floatsPerRow * i + 2) 0⟩

/-- The normal of vertex `i` of the cube: attribute 1, the three floats after
the position. -/
def UCreateCube.normal (i : Nat) : Vec3 :=
  ⟨UCreateCube.verts.getD (floatsPerRow * i + 3) 0,
    UCreateCube.verts.getD (floatsPerRow * i + 4) 0,
    UCreateCube.verts.getD (floatsPerRow * i + 5) 0⟩

/-- The normal that the comment above the rows of vertex `i` names: back face
negative Z, bottom negative Y, left negative X, right positive X, top positive
Y, front positive Z, four vertices each. -/
def UCreateCube.commentNormal (i : Nat) : Vec3 :=
  match i / 4 with
  | 0 => ⟨0, 0, -1⟩
  | 1 => ⟨0, -1, 0⟩
  | 2 => ⟨-1, 0, 0⟩
  | 3 => ⟨1, 0, 0⟩
  | 4 => ⟨0, 1, 0⟩
  | _ => ⟨0, 0, 1⟩

/-! ## `flipImageVertically` on 32-bit `int` -/

/-- What ends a run outside defined behaviour: a signed `int` result that
does not fit 32 bits, or an access outside the buffer. -/
inductive Fault where
  | overflow
  | outOfBounds
  deriving DecidableEq

/-- The largest `int`. -/
def INT_MAX : Int := 2147483647

/-- The smallest `int`. -/
def INT_MIN : Int := -2147483648

/-- The result of an `int` operation whose exact value is `x`. -/
def intResult (x : Int) : Except Fault Int :=
  if INT_MIN ≤ x ∧ x ≤ INT_MAX then .ok x else .error .overflow

/-- The inner loop of `flipImageVertically` with every step checked: `i`
iterations from the running indices `index1`, `index2`. `accesses` collects the
indices of the buffer read and written so far, in program order. -/
def flipImageVertically.checked.row (image : List UInt8) (accesses : List Int)
    (index1 index2 : Int) : Nat → Except Fault (List UInt8 × List Int)
  | 0 => .ok (image, accesses)
  | i + 1 =>
    if 0 ≤ index1 ∧ 0 ≤ index2 then
      match image[index1.toNat]?, image[index2.toNat]? with
      | some tmp, some b => do
          let image := (image.set index1.toNat b).set index2.toNat tmp
          let accesses := accesses ++ [index1, index2, index1, index2]
          let index1 ← intResult (index1 + 1)
          let index2 ← intResult (index2 + 1)
          flipImageVertically.checked.row image accesses index1 index2 i
      | _, _ => .error .outOfBounds
    else .error .outOfBounds

/-- The outer loop of `flipImageVertically` with every step checked: `n`
iterations from row `j`. Each product is computed left to right, as the
expressions `j * width * channels` and `(height - 1 - j) * width * channels`
are. -/
def flipImageVertically.checked.rows (image : List UInt8) (accesses : List Int)
    (width height channels : Int) (j : Int) : Nat → Except Fault (List UInt8 × List Int)
  | 0 => .ok (image, accesses)
  | n + 1 => do
    let t ← intResult (j * width)
    let index1 ← intResult (t * channels)
    let t ← intResult (height - 1)
    let t ← intResult (t - j)
    let t ← intResult (t * width)
    let index2 ← intResult (t * channels)
    let i ← intResult (width * channels)
    let r ← flipImageVertically.checked.row image accesses index1 index2 i.toNat
    let j ← intResult (j + 1)
    flipImageVertically.checked.rows r.1 r.2 width height channels j n

/-- The function `flipImageVertically` on 32-bit `int`, with every `int`
operation and every buffer access checked: the buffer it leaves and the indices
it read and wrote, or the fault that ends the defined behaviour. -/
def flipImageVertically.checked (image : List UInt8) (width height channels : Int) :
    Except Fault (List UInt8 × List Int) :=
  flipImageVertically.checked.rows image [] width height channels 0 (height.tdiv 2).toNat

/-! ## The offsets of `UMousePositionCallback` -/

/-- The locals `xoffset` and `yoffset` of `UMousePositionCallback`: the two
arguments of its call of `Camera::ProcessMouseMovement`. -/
def UMousePositionCallback.offsets (xpos ypos : ℚ) (s : App) : ℚ × ℚ :=
  let s := if s.gFirstMouse then
      { s with gLastX := xpos, gLastY := ypos, gFirstMouse := false } else s
  let xoffset := xpos - s.gLastX
  let yoffset := s.gLastY - ypos
  (xoffset, yoffset)

/-- The state after the cursor positions `ps` are delivered in order. -/
def deliverCursor (m : FloatMath) (s : App) (ps : List (ℚ × ℚ)) : App :=
  ps.foldl (fun s p => UMousePositionCallback m p.1 p.2 s) s

/-- The offsets of the calls of `Camera::ProcessMouseMovement` made while the
cursor positions `ps` are delivered in order. -/
def cursorOffsets (m : FloatMath) : App → List (ℚ × ℚ) → List (ℚ × ℚ)
  | _, [] => []
  | s, p :: ps =>
    UMousePositionCallback.offsets p.1 p.2 s
      :: cursorOffsets m (UMousePositionCallback m p.1 p.2 s) ps

/-- Whether a call is `glDrawElements`, the indexed draw. -/
def GLCmd.isDrawElements : GLCmd → Bool
  | .drawElements _ _ => true
  | _ => false

/-! # Theorems -/

/-! ## Running calls in sequence -/

theorem execAll_append (g : GLState) (a b : List GLCmd) :
    execAll g (a ++ b) = execAll (execAll g a) b := by
  simp [execAll, List.foldl_append]

theorem drawsOf_append (g : GLState) (a b : List GLCmd) :
    drawsOf g (a ++ b) = drawsOf g a ++ drawsOf (execAll g a) b := by
  induction a generalizing g with
  | nil => simp [drawsOf, execAll]
  | cons c cs ih =>
    cases c <;> simp [drawsOf, execAll, ih]

/-! ## The draws of each section of `URender` -/

theorem begin_draws (g : GLState) : drawsOf g URender.begin = [] := by
  simp [URender.begin, drawsOf]

theorem floor_draws (s : App) (v p : Mat4) (g : GLState) :
    (drawsOf g (URender.floor s v p)).map Draw.transforms =
      [⟨.drawElements .GL_TRIANGLES s.gMeshFloor.nIndices, s.gProgramId, s.gMeshFloor.vao,
        some (Entry.translation .floor * Entry.rotation .floor * Entry.scale .floor),
        some v, some p⟩] := by
  simp [URender.floor, drawsOf, exec, GLCmd.effect, GLState.setUniform, GLState.snapshot,
    glGetUniformLocation, Draw.transforms, Draw.mat4?, Entry.translation, Entry.rotation,
    Entry.scale]

theorem floor_program (s : App) (v p : Mat4) (g : GLState) :
    (execAll g (URender.floor s v p)).program = s.gProgramId := by
  simp [URender.floor, execAll, exec, GLCmd.effect, GLState.setUniform, glGetUniformLocation]

theorem playstationBody_draws (s : App) (v p : Mat4) (g : GLState) (hg : g.program = s.gProgramId) :
    (drawsOf g (URender.playstationBody s v p)).map Draw.transforms =
      [⟨.drawElements .GL_TRIANGLES s.gMeshPlaystation.nIndices, s.gProgramId, s.gMeshPlaystation.vao,
        some (Entry.translation .playstationBody * Entry.rotation .playstationBody * Entry.scale .playstationBody),
        some v, some p⟩] := by
  simp [URender.playstationBody, drawsOf, exec, GLCmd.effect, GLState.setUniform, GLState.snapshot,
    glGetUniformLocation, Draw.transforms, Draw.mat4?, Entry.translation, Entry.rotation,
    Entry.scale, hg]

theorem playstationBody_program (s : App) (v p : Mat4) (g : GLState) (hg : g.program = s.gProgramId) :
    (execAll g (URender.playstationBody s v p)).program = s.gProgramId := by
  simp [URender.playstationBody, execAll, exec, GLCmd.effect, GLState.setUniform, glGetUniformLocation, hg]

theorem playstationCylinder_draws (s : App) (v p : Mat4) (g : GLState) (hg : g.program = s.gProgramId) :
    (drawsOf g (URender.playstationCylinder s v p)).map Draw.transforms =
      [⟨.drawArrays .GL_TRIANGLE_FAN 0 36, s.gProgramId, s.gMeshPlaystationCylinder.vao,
        some (Entry.translation .playstationCylinder * Entry.rotation .playstationCylinder * Entry.scale .playstationCylinder),
        some v, some p⟩,
       ⟨.drawArrays .GL_TRIANGLE_FAN 36 36, s.gProgramId, s.gMeshPlaystationCylinder.vao,
        some (Entry.translation .playstationCylinder * Entry.rotation .playstationCylinder * Entry.scale .playstationCylinder),
        some v, some p⟩,
       ⟨.drawArrays .GL_TRIANGLE_STRIP 72 146, s.gProgramId, s.gMeshPlaystationCylinder.vao,
        some (Entry.translation .playstationCylinder * Entry.rotation .playstationCylinder * Entry.scale .playstationCylinder),
        some v, some p⟩] := by
  simp [URender.playstationCylinder, drawsOf, exec, GLCmd.effect, GLState.setUniform, GLState.snapshot,
    glGetUniformLocation, Draw.transforms, Draw.mat4?, Entry.translation, Entry.rotation,
    Entry.scale, hg]

theorem playstationCylinder_program (s : App) (v p : Mat4) (g : GLState) (hg : g.program = s.gProgramId) :
    (execAll g (URender.playstationCylinder s v p)).program = s.gProgramId := by
  simp [URender.playstationCylinder, execAll, exec, GLCmd.effect, GLState.setUniform, glGetUniformLocation, hg]

theorem gameBoy_draws (s : App) (v p : Mat4) (g : GLState) (hg : g.program = s.gProgramId) :
    (drawsOf g (URender.gameBoy s v p)).map Draw.transforms =
      [⟨.drawElements .GL_TRIANGLES s.gMeshGB.nIndices, s.gProgramId, s.gMeshGB.vao,
        some (Entry.translation .gameBoy * Entry.rotation .gameBoy * Entry.scale .gameBoy),
        some v, some p⟩] := by
  simp [URender.gameBoy, drawsOf, exec, GLCmd.effect, GLState.setUniform, GLState.snapshot,
    glGetUniformLocation, Draw.transforms, Draw.mat4?, Entry.translation, Entry.rotation,
    Entry.scale, hg]

theorem gameBoy_program (s : App) (v p : Mat4) (g : GLState) (hg : g.program = s.gProgramId) :
    (execAll g (URender.gameBoy s v p)).program = s.gProgramId := by
  simp [URender.gameBoy, execAll, exec, GLCmd.effect, GLState.setUniform, glGetUniformLocation, hg]

theorem donkeyKong_draws (s : App) (v p : Mat4) (g : GLState) (hg : g.program = s.gProgramId) :
    (drawsOf g (URender.donkeyKong s v p)).map Draw.transforms =
      [⟨.drawElements .GL_TRIANGLES s.gMeshDK.nIndices, s.gProgramId, s.gMeshDK.vao,
        some (Entry.translation .donkeyKong * Entry.rotation .donkeyKong * Entry.scale .donkeyKong),
        some v, some p⟩] := by
  simp [URender.donkeyKong, drawsOf, exec, GLCmd.effect, GLState.setUniform, GLState.snapshot,
    glGetUniformLocation, Draw.transforms, Draw.mat4?, Entry.translation, Entry.rotation,
    Entry.scale, hg]

theorem donkeyKong_program (s : App) (v p : Mat4) (g : GLState) (hg : g.program = s.gProgramId) :
    (execAll g (URender.donkeyKong s v p)).program = s.gProgramId := by
  simp [URender.donkeyKong, execAll, exec, GLCmd.effect, GLState.setUniform, glGetUniformLocation, hg]

theorem redAlert_draws (s : App) (v p : Mat4) (g : GLState) (hg : g.program = s.gProgramId) :
    (drawsOf g (URender.redAlert s v p)).map Draw.transforms =
      [⟨.drawElements .GL_TRIANGLES s.gMeshRedAlert.nIndices, s.gProgramId, s.gMeshRedAlert.vao,
        some (Entry.translation .redAlert * Entry.rotation .redAlert * Entry.scale .redAlert),
        some v, some p⟩] := by
  simp [URender.redAlert, drawsOf, exec, GLCmd.effect, GLState.setUniform, GLState.snapshot,
    glGetUniformLocation, Draw.transforms, Draw.mat4?, Entry.translation, Entry.rotation,
    Entry.scale, hg]

theorem redAlert_program (s : App) (v p : Mat4) (g : GLState) (hg : g.program = s.gProgramId) :
    (execAll g (URender.redAlert s v p)).program = s.gProgramId := by
  simp [URender.redAlert, execAll, exec, GLCmd.effect, GLState.setUniform, glGetUniformLocation, hg]

theorem spiderman_draws (s : App) (v p : Mat4) (g : GLState) (hg : g.program = s.gProgramId) :
    (drawsOf g (URender.spiderman s v p)).map Draw.transforms =
      [⟨.drawArrays .GL_TRIANGLE_FAN 0 36, s.gProgramId, s.gMeshSpiderman.vao,
        some (Entry.translation .spiderman * Entry.rotation .spiderman * Entry.scale .spiderman),
        some v, some p⟩,
       ⟨.drawArrays .GL_TRIANGLE_FAN 36 36, s.gProgramId, s.gMeshSpiderman.vao,
        some (Entry.translation .spiderman * Entry.rotation .spiderman * Entry.scale .spiderman),
        some v, some p⟩,
       ⟨.drawArrays .GL_TRIANGLE_STRIP 72 146, s.gProgramId, s.gMeshSpiderman.vao,
        some (Entry.translation .spiderman * Entry.rotation .spiderman * Entry.scale .spiderman),
        some v, some p⟩] := by
  simp [URender.spiderman, drawsOf, exec, GLCmd.effect, GLState.setUniform, GLState.snapshot,
    glGetUniformLocation, Draw.transforms, Draw.mat4?, Entry.translation, Entry.rotation,
    Entry.scale, hg]

theorem spiderman_program (s : App) (v p : Mat4) (g : GLState) (hg : g.program = s.gProgramId) :
    (execAll g (URender.spiderman s v p)).program = s.gProgramId := by
  simp [URender.spiderman, execAll, exec, GLCmd.effect, GLState.setUniform, glGetUniformLocation, hg]

theorem lamp1_draws (s : App) (v p : Mat4) (g : GLState) :
    (drawsOf g (URender.lamp1 s v p)).map Draw.transforms =
      [⟨.drawElements .GL_TRIANGLES s.gMeshLightSource.nIndices, s.gLampProgramId,
        s.gMeshLightSource.vao,
        some (Mat4.translate s.gLightPosition * Mat4.scale s.gLightScale), some v, some p⟩] := by
  simp [URender.lamp1, drawsOf, exec, GLCmd.effect, GLState.setUniform, GLState.snapshot,
    glGetUniformLocation, Draw.transforms, Draw.mat4?]

theorem lamp2_draws (s : App) (v p : Mat4) (g : GLState) :
    (drawsOf g (URender.lamp2 s v p)).map Draw.transforms =
      [⟨.drawElements .GL_TRIANGLES s.gMeshLightSource.nIndices, s.gLampProgramId,
        s.gMeshLightSource.vao,
        some (Mat4.translate ⟨-3, 8, 8⟩ * Mat4.scale s.gLightScale), some v, some p⟩] := by
  simp [URender.lamp2, drawsOf, exec, GLCmd.effect, GLState.setUniform, GLState.snapshot,
    glGetUniformLocation, Draw.transforms, Draw.mat4?]

/-- The transform data of the thirteen draw calls of one frame, in order. -/
theorem URender_transforms (b : Bool) (s : App) :
    (URender.draws b s).map Draw.transforms =
      (([Entry.floor, .playstationBody, .playstationCylinder, .playstationCylinder,
          .playstationCylinder, .gameBoy, .donkeyKong, .redAlert, .spiderman, .spiderman,
          .spiderman].zip
        [GLCmd.drawElements .GL_TRIANGLES s.gMeshFloor.nIndices,
          .drawElements .GL_TRIANGLES s.gMeshPlaystation.nIndices,
          .drawArrays .GL_TRIANGLE_FAN 0 36, .drawArrays .GL_TRIANGLE_FAN 36 36,
          .drawArrays .GL_TRIANGLE_STRIP 72 146,
          .drawElements .GL_TRIANGLES s.gMeshGB.nIndices,
          .drawElements .GL_TRIANGLES s.gMeshDK.nIndices,
          .drawElements .GL_TRIANGLES s.gMeshRedAlert.nIndices,
          .drawArrays .GL_TRIANGLE_FAN 0 36, .drawArrays .GL_TRIANGLE_FAN 36 36,
          .drawArrays .GL_TRIANGLE_STRIP 72 146]).map fun ec =>
        (⟨ec.2, s.gProgramId, (ec.1.mesh s).vao,
          some (ec.1.translation * ec.1.rotation * ec.1.scale),
          some (URender.view s), some (URender.projection b s)⟩ : DrawTransforms))
      ++ [⟨.drawElements .GL_TRIANGLES s.gMeshLightSource.nIndices, s.gLampProgramId,
            s.gMeshLightSource.vao,
            some (Mat4.translate s.gLightPosition * Mat4.scale s.gLightScale),
            some (URender.view s), some (URender.projection b s)⟩,
          ⟨.drawElements .GL_TRIANGLES s.gMeshLightSource.nIndices, s.gLampProgramId,
            s.gMeshLightSource.vao,
            some (Mat4.translate ⟨-3, 8, 8⟩ * Mat4.scale s.gLightScale),
            some (URender.view s), some (URender.projection b s)⟩] := by
  have h1 := floor_program s (URender.view s) (URender.projection b s) (execAll s.gl URender.begin)
  have h2 := playstationBody_program s (URender.view s) (URender.projection b s) _ h1
  have h3 := playstationCylinder_program s (URender.view s) (URender.projection b s) _ h2
  have h4 := gameBoy_program s (URender.view s) (URender.projection b s) _ h3
  have h5 := donkeyKong_program s (URender.view s) (URender.projection b s) _ h4
  have h6 := redAlert_program s (URender.view s) (URender.projection b s) _ h5
  simp only [URender.draws, URender.calls, drawsOf_append, execAll_append, List.map_append,
    begin_draws, floor_draws, playstationBody_draws _ _ _ _ h1,
    playstationCylinder_draws _ _ _ _ h2, gameBoy_draws _ _ _ _ h3, donkeyKong_draws _ _ _ _ h4,
    redAlert_draws _ _ _ _ h5, spiderman_draws _ _ _ _ h6, lamp1_draws, lamp2_draws]
  rfl

/-! ## One frame: model, view and projection at every draw -/

theorem draw_at (l : List Draw) (ts : List DrawTransforms) (h : l.map Draw.transforms = ts)
    (i : Nat) (t : DrawTransforms) (ht : ts[i]? = some t) (P : Draw → Prop)
    (hP : ∀ d, d.transforms = t → P d) :
    ∃ d, l[i]? = some d ∧ P d := by
  subst h
  rw [List.getElem?_map] at ht
  cases hd : l[i]? with
  | none => simp [hd] at ht
  | some d => exact ⟨d, rfl, hP d (by simpa [hd] using ht)⟩

theorem URender_draw_view_projection (b : Bool) (s : App) :
    ∀ d ∈ URender.draws b s,
      d.mat4? .view = some (URender.view s)
        ∧ d.mat4? .projection = some (URender.projection b s) := by
  intro d hd
  have h := List.mem_map_of_mem Draw.transforms hd
  rw [URender_transforms] at h
  simp only [List.zip_cons_cons, List.zip_nil_right, List.map_cons, List.map_nil,
    List.cons_append, List.nil_append, List.mem_cons, List.mem_singleton, List.not_mem_nil,
    or_false] at h
  rcases h with h | h | h | h | h | h | h | h | h | h | h | h | h <;>
    exact ⟨congrArg DrawTransforms.view h, congrArg DrawTransforms.projection h⟩

theorem URender_draws_length (b : Bool) (s : App) : (URender.draws b s).length = 13 := by
  have h := congrArg List.length (URender_transforms b s)
  simpa using h

theorem URender_aspect (s : App) :
    (URender.draws true s).map Draw.aspect?
      = List.replicate 13 (some ((WINDOW_WIDTH : ℚ) / (WINDOW_HEIGHT : ℚ))) := by
  apply List.eq_replicate_iff.mpr
  refine ⟨by simp [URender_draws_length], ?_⟩
  intro a ha
  obtain ⟨d, hd, rfl⟩ := List.mem_map.mp ha
  have h := (URender_draw_view_projection true s d hd).2
  simp [Draw.aspect?, h, URender.projection, Mat4.aspect?]

theorem resizeAll_gCamera (s : App) (sizes : List (Int × Int)) :
    (resizeAll s sizes).gCamera = s.gCamera := by
  induction sizes generalizing s with
  | nil => rfl
  | cons wh rest ih =>
    have := ih (UResizeWindow wh.1 wh.2 s)
    simpa [resizeAll, UResizeWindow] using this

/-- C1: for each of the seven scene entries, every draw call of the entry's
section is issued under the lit program with the entry's vertex array bound and
with the `model` uniform equal to `translation * rotation * scale` of the
entry's own three matrices, multiplied in that order; the product in the
opposite order, `scale * rotation * translation`, is a different matrix
expression. -/
theorem URender_model_is_translation_rotation_scale (isPerspectiveView : Bool) (s : App)
    (e : Entry) (k : Fin e.drawCount) :
    ∃ d, (URender.draws isPerspectiveView s)[e.firstDraw + k.val]? = some d
      ∧ d.program = s.gProgramId
      ∧ d.vao = (e.mesh s).vao
      ∧ d.mat4? .model = some (e.translation * e.rotation * e.scale)
      ∧ d.mat4? .model ≠ some (e.scale * e.rotation * e.translation) := by
  have key : ∃ d, (URender.draws isPerspectiveView s)[e.firstDraw + k.val]? = some d
      ∧ d.program = s.gProgramId ∧ d.vao = (e.mesh s).vao
      ∧ d.mat4? .model = some (e.translation * e.rotation * e.scale) := by
    cases e <;> fin_cases k <;>
      (refine draw_at _ _ (URender_transforms isPerspectiveView s) _ _ rfl _ ?_
       intro d ht
       exact ⟨congrArg DrawTransforms.program ht, congrArg DrawTransforms.vao ht,
          congrArg DrawTransforms.model ht⟩)
  obtain ⟨d, hd, hp, hv, hm⟩ := key
  refine ⟨d, hd, hp, hv, hm, ?_⟩
  rw [hm]
  intro hne
  have h1 := Option.some.inj hne
  have h2 : e.translation = e.scale := by
    have := Mat4.mul.inj h1
    exact (Mat4.mul.inj this.1).1
  cases e <;> simp [Entry.translation, Entry.scale] at h2

/-- C2: the thirteen draw calls of one `URender` (eleven under the lit program
for the seven scene entries, two under the lamp program for the light markers)
all see the same `view` and the same `projection` uniform: the matrices
computed at the start of the frame from the camera and `isPerspectiveView`. -/
theorem URender_same_view_projection_at_every_draw (isPerspectiveView : Bool) (s : App) :
    (URender.draws isPerspectiveView s).map Draw.program
        = List.replicate 11 s.gProgramId ++ List.replicate 2 s.gLampProgramId
      ∧ ∀ d ∈ URender.draws isPerspectiveView s,
          d.mat4? .view = some s.gCamera.GetViewMatrix
            ∧ d.mat4? .projection = some (URender.projection isPerspectiveView s) := by
  refine ⟨?_, URender_draw_view_projection isPerspectiveView s⟩
  have h := congrArg (List.map DrawTransforms.program) (URender_transforms isPerspectiveView s)
  simpa [Draw.transforms, Function.comp_def, List.replicate] using h

/-- C3: the projection every draw of the frame sees is chosen by
`isPerspectiveView` alone: in perspective mode it is
`perspective(radians(Zoom), 800/600, 0.1, 100)`, in orthographic mode it is
`ortho(-5, 5, -5, 5, 0.1, 100)`, the same for every camera. -/
theorem URender_projection_selected_by_flag (s : App) :
    (∀ d ∈ URender.draws true s,
        d.mat4? .projection
          = some (.perspective (radians s.gCamera.Zoom) ((800 : ℚ) / 600) 0.1 100))
      ∧ (∀ d ∈ URender.draws false s,
          d.mat4? .projection = some (.ortho (-5) 5 (-5) 5 0.1 100)) := by
  constructor
  · intro d hd
    rw [(URender_draw_view_projection true s d hd).2]
    simp [URender.projection, WINDOW_WIDTH, WINDOW_HEIGHT]
  · intro d hd
    rw [(URender_draw_view_projection false s d hd).2]
    simp [URender.projection]

theorem resizeAll_eq (sizes : List (Int × Int)) :
    ∀ s : App, resizeAll s sizes
      = { s with gl := { s.gl with
            viewport := (resizeAll s sizes).gl.viewport,
            calls := s.gl.calls ++ sizes.map fun wh => .viewport 0 0 wh.1 wh.2 } } := by
  induction sizes with
  | nil =>
    intro s
    simp [resizeAll]
  | cons wh rest ih =>
    intro s
    have h := ih (UResizeWindow wh.1 wh.2 s)
    have e : resizeAll s (wh :: rest) = resizeAll (UResizeWindow wh.1 wh.2 s) rest := rfl
    rw [e, h]
    simp [UResizeWindow, exec, GLCmd.effect]

/-- C4 (as the code has it): in perspective mode the aspect ratio passed to
`glm::perspective` is `WINDOW_WIDTH / WINDOW_HEIGHT` = 800/600 at every draw of
every frame, whatever sizes have been reported to `UResizeWindow` before the
frame. `UResizeWindow` only sets the GL viewport: one call of it changes the
viewport and issues that one GL call, and leaves every program variable and
the rest of the GL context as they are; after any run of reported sizes the
state differs from the one before only in the viewport, which is the last size
reported, and in the GL calls issued. The viewport at program start is
(0, 0, 800, 600). -/
theorem URender_aspect_is_initial_window_size (s : App) (sizes : List (Int × Int)) :
    (URender.draws true (resizeAll s sizes)).map Draw.aspect?
        = List.replicate 13 (some ((WINDOW_WIDTH : ℚ) / (WINDOW_HEIGHT : ℚ)))
      ∧ (WINDOW_WIDTH : ℚ) / (WINDOW_HEIGHT : ℚ) = 800 / 600
      ∧ (∀ (width height : Int) (t : App),
          UResizeWindow width height t
            = { t with gl := { t.gl with
                  viewport := (0, 0, width, height),
                  calls := t.gl.calls ++ [.viewport 0 0 width height] } })
      ∧ resizeAll s sizes
          = { s with gl := { s.gl with
                viewport := (resizeAll s sizes).gl.viewport,
                calls := s.gl.calls ++ sizes.map fun wh => .viewport 0 0 wh.1 wh.2 } }
      ∧ (∀ width height : Int,
          (resizeAll s (sizes ++ [(width, height)])).gl.viewport = (0, 0, width, height))
      ∧ (resizeAll s []).gl.viewport = s.gl.viewport
      ∧ App.initial.gl.viewport = (0, 0, 800, 600) := by
  refine ⟨URender_aspect _, ?_, fun _ _ _ => rfl, resizeAll_eq sizes s, ?_, rfl, rfl⟩
  · simp [WINDOW_WIDTH, WINDOW_HEIGHT]
  · intro width height
    simp [resizeAll, List.foldl_append, UResizeWindow, exec, GLCmd.effect]

/-- C4 fails as stated: after `UResizeWindow(window, 1000, 500)` on the state
at program start the window is 1000 by 500 (the viewport says so), yet every
draw of a perspective frame is issued with aspect 4/3, not 1000/500. -/
theorem URender_aspect_after_resize_counterexample :
    (UResizeWindow 1000 500 App.initial).gl.viewport = (0, 0, 1000, 500)
      ∧ (URender.draws true (UResizeWindow 1000 500 App.initial)).map Draw.aspect?
          = List.replicate 13 (some ((4 : ℚ) / 3))
      ∧ ¬ ((URender.draws true (UResizeWindow 1000 500 App.initial)).map Draw.aspect?
            = List.replicate 13 (some ((1000 : ℚ) / 500))) := by
  refine ⟨rfl, ?_, ?_⟩
  · rw [URender_aspect]
    simp [WINDOW_WIDTH, WINDOW_HEIGHT, List.replicate]
    norm_num
  · rw [URender_aspect]
    simp [WINDOW_WIDTH, WINDOW_HEIGHT, List.replicate]
    norm_num

/-! ## The projection toggle -/

theorem key_callback_flag (key scancode action mods : Int) (s : App) :
    (key_callback key scancode action mods s).isPerspectiveView
      = if key = GLFW_KEY_P ∧ action = GLFW_PRESS then !s.isPerspectiveView
        else s.isPerspectiveView := by
  unfold key_callback
  split <;> rfl

theorem deliverKeys_append (s : App) (a b : List KeyEvent) :
    deliverKeys s (a ++ b) = deliverKeys (deliverKeys s a) b := by
  simp [deliverKeys, List.foldl_append]

theorem deliverKeys_repeats (s : App) (repeats : List (Int × Int)) :
    (deliverKeys s (repeats.map fun r => ⟨GLFW_KEY_P, r.1, GLFW_REPEAT, r.2⟩)).isPerspectiveView
      = s.isPerspectiveView := by
  induction repeats generalizing s with
  | nil => rfl
  | cons r rest ih =>
    have h := ih (key_callback GLFW_KEY_P r.1 GLFW_REPEAT r.2 s)
    rw [key_callback_flag] at h
    simpa [deliverKeys, GLFW_REPEAT, GLFW_PRESS] using h

/-! ## The statements of `UProcessInput` -/

theorem UProcessInput.statements_eq {σ : Type} (close : σ → σ)
    (processKeyboard : Camera_Movement → σ → σ) (glfwGetKey : Int → Int) (s : σ) :
    UProcessInput.statements close processKeyboard glfwGetKey s
      = ((UProcessInput.keyTable.filter fun kd => decide (glfwGetKey kd.1 = GLFW_PRESS)).map
          Prod.snd).foldl (fun s direction => processKeyboard direction s)
          (if glfwGetKey GLFW_KEY_ESCAPE = GLFW_PRESS then close s else s) := by
  simp only [UProcessInput.statements, UProcessInput.keyTable]
  by_cases hW : glfwGetKey GLFW_KEY_W = GLFW_PRESS <;>
  by_cases hS : glfwGetKey GLFW_KEY_S = GLFW_PRESS <;>
  by_cases hA : glfwGetKey GLFW_KEY_A = GLFW_PRESS <;>
  by_cases hD : glfwGetKey GLFW_KEY_D = GLFW_PRESS <;>
  by_cases hE : glfwGetKey GLFW_KEY_E = GLFW_PRESS <;>
  by_cases hQ : glfwGetKey GLFW_KEY_Q = GLFW_PRESS <;>
  simp [List.filter, hW, hS, hA, hD, hE, hQ]

theorem foldl_append_singleton {α β : Type} (f : α → β) (l : List α) :
    ∀ acc : List β, l.foldl (fun calls a => calls ++ [f a]) acc = acc ++ l.map f := by
  induction l with
  | nil => intro acc; simp
  | cons a l ih => intro acc; simp [ih]

theorem UProcessInput.keyboardCalls_eq (glfwGetKey : Int → Int) (s : App) :
    UProcessInput.keyboardCalls glfwGetKey s
      = ((UProcessInput.keyTable.filter fun kd => decide (glfwGetKey kd.1 = GLFW_PRESS)).map
          fun kd => (kd.2, s.gDeltaTime)) := by
  rw [UProcessInput.keyboardCalls, UProcessInput.statements_eq]
  have h := foldl_append_singleton (fun d : Camera_Movement => (d, s.gDeltaTime))
    ((UProcessInput.keyTable.filter fun kd => decide (glfwGetKey kd.1 = GLFW_PRESS)).map Prod.snd)
    []
  simp only [List.nil_append, List.map_map] at h
  simp only [ite_self]
  rw [h]
  rfl

theorem UProcessInput.foldl_gCamera (calls : List Camera_Movement) :
    ∀ s : App, calls.foldl
        (fun s direction =>
          { s with gCamera := s.gCamera.ProcessKeyboard direction s.gDeltaTime }) s
      = { s with
          gCamera :=
            List.foldl (fun c call => c.ProcessKeyboard call.1 call.2) s.gCamera
              (calls.map fun d => (d, s.gDeltaTime)) } := by
  induction calls with
  | nil => intro s; rfl
  | cons d rest ih =>
    intro s
    simp only [List.foldl_cons, List.map_cons]
    rw [ih]

theorem UProcessInput_eq (glfwGetKey : Int → Int) (s : App) :
    UProcessInput glfwGetKey s
      = { s with
          windowShouldClose
            := (s.windowShouldClose || decide (glfwGetKey GLFW_KEY_ESCAPE = GLFW_PRESS)),
          gCamera :=
            List.foldl (fun c call => c.ProcessKeyboard call.1 call.2) s.gCamera
              (UProcessInput.keyboardCalls glfwGetKey s) } := by
  rw [UProcessInput, UProcessInput.statements_eq, UProcessInput.foldl_gCamera,
    UProcessInput.keyboardCalls_eq]
  by_cases hE : glfwGetKey GLFW_KEY_ESCAPE = GLFW_PRESS
  · simp [hE, List.map_map, Function.comp_def]
  · simp [hE, List.map_map, Function.comp_def]

/-- C5: one press-release cycle of the P key (a PRESS event, any number of
REPEAT events, a RELEASE event, each with any scancode and modifier bits)
leaves `isPerspectiveView` negated: the mode is toggled exactly once. -/
theorem key_callback_toggles_once_per_cycle (s : App) (press : Int × Int)
    (repeats : List (Int × Int)) (release : Int × Int) :
    (deliverKeys s (pKeyCycle press repeats release)).isPerspectiveView
      = !s.isPerspectiveView := by
  have h1 : pKeyCycle press repeats release
      = [⟨GLFW_KEY_P, press.1, GLFW_PRESS, press.2⟩]
        ++ (repeats.map fun r => ⟨GLFW_KEY_P, r.1, GLFW_REPEAT, r.2⟩)
        ++ [⟨GLFW_KEY_P, release.1, GLFW_RELEASE, release.2⟩] := by
    simp [pKeyCycle]
  rw [h1, deliverKeys_append, deliverKeys_append]
  have h2 : ∀ t : App, (deliverKeys t [⟨GLFW_KEY_P, release.1, GLFW_RELEASE, release.2⟩]).isPerspectiveView
      = t.isPerspectiveView := by
    intro t
    simp [deliverKeys, key_callback_flag, GLFW_RELEASE, GLFW_PRESS]
  rw [h2, deliverKeys_repeats]
  simp [deliverKeys, key_callback_flag]

/-- C6: `key_callback` changes `isPerspectiveView` exactly when the key is
`GLFW_KEY_P` and the action is `GLFW_PRESS`, and then it negates it, whatever
the scancode and the modifier bits; `UProcessInput` leaves the flag as it is
for every state of the keys. -/
theorem key_callback_changes_flag_iff (key scancode action mods : Int) (s : App) :
    ((key_callback key scancode action mods s).isPerspectiveView ≠ s.isPerspectiveView
        ↔ key = GLFW_KEY_P ∧ action = GLFW_PRESS)
      ∧ ((key = GLFW_KEY_P ∧ action = GLFW_PRESS) →
          (key_callback key scancode action mods s).isPerspectiveView = !s.isPerspectiveView)
      ∧ (¬ (key = GLFW_KEY_P ∧ action = GLFW_PRESS) →
          key_callback key scancode action mods s = s)
      ∧ ∀ glfwGetKey : Int → Int,
          (UProcessInput glfwGetKey s).isPerspectiveView = s.isPerspectiveView := by
  refine ⟨?_, ?_, ?_, ?_⟩
  · rw [key_callback_flag]
    by_cases h : key = GLFW_KEY_P ∧ action = GLFW_PRESS
    · simp [h]
    · simp [h]
  · intro h
    rw [key_callback_flag, if_pos h]
  · intro h
    simp [key_callback, h]
  · intro glfwGetKey
    rw [UProcessInput_eq]

/-! ## `UCreateShaderProgram` -/

/-- C10: `UCreateShaderProgram` returns `true` exactly when the vertex stage
compiles, the fragment stage compiles and the program links. It always returns:
when a step reports failure the result is `false`, the text written to `cout`
is the diagnostic of that step (VERTEX compilation, FRAGMENT compilation,
PROGRAM linking) followed by the info log, and the GL calls issued stop at that
step: after a failed vertex compile there is no fragment compile and no link,
after a failed fragment compile there is no attach and no link. -/
theorem UCreateShaderProgram_result (driver : ShaderDriver)
    (vtxShaderSource fragShaderSource : String) (programId : Nat) (s : App) :
    let vertexOk := driver.compileStatus .GL_VERTEX_SHADER vtxShaderSource
    let fragmentOk := driver.compileStatus .GL_FRAGMENT_SHADER fragShaderSource
    let linkOk := driver.linkStatus vtxShaderSource fragShaderSource
    let r := UCreateShaderProgram driver vtxShaderSource fragShaderSource programId s
    let p := freshName s.gl.shaderNames
    let v := freshName (s.gl.shaderNames ++ [p])
    let f := freshName (s.gl.shaderNames ++ [p] ++ [v])
    let setup : List GLCmd :=
      [ .createProgram p, .createShader .GL_VERTEX_SHADER v, .createShader .GL_FRAGMENT_SHADER f,
        .shaderSource v vtxShaderSource, .shaderSource f fragShaderSource, .compileShader v ]
    (r.1 = true ↔ vertexOk = true ∧ fragmentOk = true ∧ linkOk = true)
      ∧ (vertexOk = false →
          r.1 = false
            ∧ r.2.2.cout = s.cout ++ "ERROR::SHADER::VERTEX::COMPILATION_FAILED\n"
                ++ driver.shaderInfoLog .GL_VERTEX_SHADER vtxShaderSource ++ "\n"
            ∧ r.2.2.gl.calls = s.gl.calls ++ setup)
      ∧ (vertexOk = true → fragmentOk = false →
          r.1 = false
            ∧ r.2.2.cout = s.cout ++ "ERROR::SHADER::FRAGMENT::COMPILATION_FAILED\n"
                ++ driver.shaderInfoLog .GL_FRAGMENT_SHADER fragShaderSource ++ "\n"
            ∧ r.2.2.gl.calls = s.gl.calls ++ setup ++ [.compileShader f])
      ∧ (vertexOk = true → fragmentOk = true → linkOk = false →
          r.1 = false
            ∧ r.2.2.cout = s.cout ++ "ERROR::SHADER::PROGRAM::LINKING_FAILED\n"
                ++ driver.programInfoLog vtxShaderSource fragShaderSource ++ "\n"
            ∧ r.2.2.gl.calls = s.gl.calls ++ setup
                ++ [.compileShader f, .attachShader p v, .attachShader p f, .linkProgram p])
      ∧ (vertexOk = true → fragmentOk = true → linkOk = true →
          r.1 = true ∧ r.2.1 = p ∧ r.2.2.cout = s.cout ∧ r.2.2.gl.program = p
            ∧ r.2.2.gl.calls = s.gl.calls ++ setup
                ++ [.compileShader f, .attachShader p v, .attachShader p f, .linkProgram p,
                    .useProgram p]) := by
  intro vertexOk fragmentOk linkOk r p v f setup
  have hv : driver.compileStatus .GL_VERTEX_SHADER vtxShaderSource = vertexOk := rfl
  have hf : driver.compileStatus .GL_FRAGMENT_SHADER fragShaderSource = fragmentOk := rfl
  have hl : driver.linkStatus vtxShaderSource fragShaderSource = linkOk := rfl
  have hr : r = UCreateShaderProgram driver vtxShaderSource fragShaderSource programId s := rfl
  clear_value vertexOk fragmentOk linkOk r
  subst hr
  cases vertexOk <;> cases fragmentOk <;> cases linkOk <;>
    simp [UCreateShaderProgram, hv, hf, hl, exec, execAll, GLCmd.effect, p, v, f, setup]

/-! ## `flipImageVertically` -/

theorem swap_getElem? (image : List UInt8) (i1 i2 : Nat) (h1 : i1 < image.length)
    (h2 : i2 < image.length) (h12 : i1 ≠ i2) (p : Nat) :
    ((image.set i1 image[i2]).set i2 image[i1])[p]?
      = if p = i1 then image[i2]? else if p = i2 then image[i1]? else image[p]? := by
  simp only [List.getElem?_set, List.length_set]
  by_cases hp2 : i2 = p
  · subst hp2
    simp [h2, Ne.symm h12, List.getElem?_eq_getElem h1]
  · by_cases hp1 : i1 = p
    · subst hp1
      simp [h1, hp2, List.getElem?_eq_getElem h2]
    · simp [hp1, hp2, Ne.symm hp1, Ne.symm hp2]

theorem row_spec (t : Nat) :
    ∀ (image : List UInt8) (i1 i2 : Nat), i1 + t ≤ i2 → i2 + t ≤ image.length →
      ∃ out, flipImageVertically.row image (i1 : Int) (i2 : Int) t = some out
        ∧ out.length = image.length
        ∧ (∀ k, k < t → out[i1 + k]? = image[i2 + k]?)
        ∧ (∀ k, k < t → out[i2 + k]? = image[i1 + k]?)
        ∧ (∀ p, (p < i1 ∨ i1 + t ≤ p) → (p < i2 ∨ i2 + t ≤ p) → out[p]? = image[p]?) := by
  induction t with
  | zero =>
    intro image i1 i2 _ _
    exact ⟨image, rfl, rfl, by intro k hk; omega, by intro k hk; omega, fun _ _ _ => rfl⟩
  | succ t ih =>
    intro image i1 i2 h12 h2
    have hl1 : i1 < image.length := by omega
    have hl2 : i2 < image.length := by omega
    obtain ⟨out, hout, hlen, ha, hb, hc⟩ :=
      ih ((image.set i1 image[i2]).set i2 image[i1]) (i1 + 1) (i2 + 1) (by omega)
        (by simp only [List.length_set]; omega)
    have hsw := swap_getElem? image i1 i2 hl1 hl2 (by omega)
    refine ⟨out, ?_, ?_, ?_, ?_, ?_⟩
    · have e1 : ((i1 : Int) + 1) = ((i1 + 1 : Nat) : Int) := by push_cast; rfl
      have e2 : ((i2 : Int) + 1) = ((i2 + 1 : Nat) : Int) := by push_cast; rfl
      simp only [flipImageVertically.row, Int.toNat_ofNat, List.getElem?_eq_getElem hl1,
        List.getElem?_eq_getElem hl2, e1, e2]
      simpa using hout
    · simpa using hlen
    · intro k hk
      rcases Nat.eq_zero_or_pos k with rfl | hpos
      · rw [Nat.add_zero, hc i1 (by omega) (by omega), hsw]
        simp
      · obtain ⟨k', rfl⟩ : ∃ k', k = k' + 1 := ⟨k - 1, by omega⟩
        have := ha k' (by omega)
        rw [show i1 + (k' + 1) = i1 + 1 + k' by omega, this, hsw]
        rw [if_neg (by omega), if_neg (by omega)]
        congr 1; omega
    · intro k hk
      rcases Nat.eq_zero_or_pos k with rfl | hpos
      · rw [Nat.add_zero, hc i2 (by omega) (by omega), hsw]
        rw [if_neg (by omega)]
        simp
      · obtain ⟨k', rfl⟩ : ∃ k', k = k' + 1 := ⟨k - 1, by omega⟩
        have := hb k' (by omega)
        rw [show i2 + (k' + 1) = i2 + 1 + k' by omega, this, hsw]
        rw [if_neg (by omega), if_neg (by omega)]
        congr 1; omega
    · intro p hp1 hp2
      rw [hc p (by omega) (by omega), hsw, if_neg (by omega), if_neg (by omega)]

theorem row_index_lt {r j k n : Nat} (h : r < j) (hk : k < n) : r * n + k < j * n := by
  have := Nat.mul_le_mul_right n (show r + 1 ≤ j from h)
  rw [Nat.add_mul, Nat.one_mul] at this
  omega

theorem row_index_ge {r j n : Nat} (h : j < r) : j * n + n ≤ r * n := by
  have := Nat.mul_le_mul_right n (show j + 1 ≤ r from h)
  rw [Nat.add_mul, Nat.one_mul] at this
  omega

theorem rows_spec (w h c : Nat) (m : Nat) :
    ∀ (image : List UInt8) (j : Nat), 2 * (j + m) ≤ h → image.length = h * (w * c) →
      ∃ out, flipImageVertically.rows image (w : Int) (h : Int) (c : Int) (j : Int) m = some out
        ∧ out.length = image.length
        ∧ ∀ r k, r < h → k < w * c →
            out[r * (w * c) + k]?
              = if (j ≤ r ∧ r < j + m) ∨ (h - (j + m) ≤ r ∧ r < h - j)
                then image[(h - 1 - r) * (w * c) + k]? else image[r * (w * c) + k]? := by
  induction m with
  | zero =>
    intro image j _ _
    refine ⟨image, rfl, rfl, ?_⟩
    intro r k _ _
    rw [if_neg (by omega)]
  | succ m ih =>
    intro image j hj hlen
    have e1 : (j : Int) * (w : Int) * (c : Int) = ((j * (w * c) : Nat) : Int) := by
      push_cast; ring
    have e2 : ((h : Int) - 1 - (j : Int)) * (w : Int) * (c : Int)
        = (((h - 1 - j) * (w * c) : Nat) : Int) := by
      have : ((h - 1 - j : Nat) : Int) = (h : Int) - 1 - (j : Int) := by omega
      push_cast [this]; ring
    have e3 : ((w : Int) * (c : Int)).toNat = w * c := by
      rw [← Nat.cast_mul, Int.toNat_ofNat]
    have e4 : ((j : Int) + 1) = ((j + 1 : Nat) : Int) := by push_cast; rfl
    have hrow1 : j * (w * c) + w * c ≤ (h - 1 - j) * (w * c) :=
      row_index_ge (show j < h - 1 - j by omega)
    have hrow2 : (h - 1 - j) * (w * c) + w * c ≤ image.length := by
      rw [hlen]
      have := Nat.mul_le_mul_right (w * c) (show (h - 1 - j) + 1 ≤ h by omega)
      rw [Nat.add_mul, Nat.one_mul] at this
      exact this
    obtain ⟨img1, h1, hlen1, ha, hb, hc⟩ :=
      row_spec (w * c) image (j * (w * c)) ((h - 1 - j) * (w * c)) hrow1 hrow2
    obtain ⟨out, hout, hlen2, hrows⟩ := ih img1 (j + 1) (by omega) (by rw [hlen1, hlen])
    refine ⟨out, ?_, by rw [hlen2, hlen1], ?_⟩
    · simp only [flipImageVertically.rows, e1, e2, e3, h1, e4]
      exact hout
    · intro r k hr hk
      rw [hrows r k hr hk]
      -- rows of `img1` in terms of rows of `image`
      have himg1 : ∀ r', r' < h → img1[r' * (w * c) + k]?
          = if r' = j then image[(h - 1 - j) * (w * c) + k]?
            else if r' = h - 1 - j then image[j * (w * c) + k]?
            else image[r' * (w * c) + k]? := by
        intro r' hr'
        by_cases c1 : r' = j
        · subst c1; rw [if_pos rfl]; exact ha k hk
        · by_cases c2 : r' = h - 1 - j
          · subst c2; rw [if_neg c1, if_pos rfl]; exact hb k hk
          · rw [if_neg c1, if_neg c2]
            apply hc
            · rcases Nat.lt_or_gt_of_ne c1 with hlt | hgt
              · left; exact row_index_lt hlt hk
              · right; have := row_index_ge (n := w * c) hgt; omega
            · rcases Nat.lt_or_gt_of_ne c2 with hlt | hgt
              · left; exact row_index_lt hlt hk
              · right; have := row_index_ge (n := w * c) hgt; omega
      by_cases cA : (j + 1 ≤ r ∧ r < j + 1 + m) ∨ (h - (j + 1 + m) ≤ r ∧ r < h - (j + 1))
      · rw [if_pos cA, if_pos (by omega), himg1 (h - 1 - r) (by omega),
          if_neg (by omega), if_neg (by omega)]
      · rw [if_neg cA, himg1 r hr]
        by_cases c1 : r = j
        · subst c1
          rw [if_pos rfl, if_pos (by omega)]
        · by_cases c2 : r = h - 1 - j
          · subst c2
            rw [if_neg c1, if_pos rfl, if_pos (by omega)]
            have e5 : h - 1 - (h - 1 - j) = j := by omega
            rw [e5]
          · rw [if_neg c1, if_neg c2, if_neg (by omega)]

theorem flipImageVertically_spec (image : List UInt8) (w h c : Nat)
    (hlen : image.length = h * (w * c)) :
    ∃ out, flipImageVertically image (w : Int) (h : Int) (c : Int) = some out
      ∧ out.length = image.length
      ∧ ∀ r k, r < h → k < w * c →
          out[r * (w * c) + k]? = image[(h - 1 - r) * (w * c) + k]? := by
  have e : ((h : Int).tdiv 2).toNat = h / 2 := by
    have : (h : Int).tdiv 2 = ((h / 2 : Nat) : Int) := (Int.ofNat_tdiv h 2).symm
    rw [this, Int.toNat_ofNat]
  obtain ⟨out, hout, hl, hrows⟩ := rows_spec w h c (h / 2) image 0 (by omega) hlen
  refine ⟨out, ?_, hl, ?_⟩
  · simp only [flipImageVertically, e]
    exact_mod_cast hout
  · intro r k hr hk
    rw [hrows r k hr hk]
    by_cases cA : (0 ≤ r ∧ r < 0 + h / 2) ∨ (h - (0 + h / 2) ≤ r ∧ r < h - 0)
    · rw [if_pos cA]
    · rw [if_neg cA]
      have e5 : h - 1 - r = r := by omega
      rw [e5]

theorem flipImageVertically_of_wellFormed (image : List UInt8) (width height channels : Int)
    (hw : 0 ≤ width) (hh : 0 ≤ height) (hc : 0 ≤ channels)
    (hlen : (image.length : Int) = width * height * channels) :
    ∃ out, flipImageVertically image width height channels = some out
      ∧ out.length = image.length
      ∧ ∀ r k : Nat, (r : Int) < height → (k : Int) < width * channels →
          ∃ b, image[(height.toNat - 1 - r) * (width * channels).toNat + k]? = some b
            ∧ out[r * (width * channels).toNat + k]? = some b := by
  lift width to ℕ using hw
  lift height to ℕ using hh
  lift channels to ℕ using hc
  have hlen' : image.length = height * (width * channels) := by
    have : (image.length : Int) = ((height * (width * channels) : Nat) : Int) := by
      rw [hlen]; push_cast; ring
    exact_mod_cast this
  obtain ⟨out, hout, hl, hrows⟩ := flipImageVertically_spec image width height channels hlen'
  refine ⟨out, hout, hl, ?_⟩
  intro r k hr hk
  have hr' : r < height := by exact_mod_cast hr
  have hk' : k < width * channels := by exact_mod_cast hk
  have e3 : ((width : Int) * (channels : Int)).toNat = width * channels := by
    rw [← Nat.cast_mul, Int.toNat_ofNat]
  rw [e3, Int.toNat_ofNat, hrows r k hr' hk']
  have hb : (height - 1 - r) * (width * channels) + k < image.length := by
    rw [hlen']
    exact row_index_lt (by omega) hk'
  exact ⟨image[(height - 1 - r) * (width * channels) + k], List.getElem?_eq_getElem hb,
    List.getElem?_eq_getElem hb⟩

/-! ## `UCreateTexture` -/

/-- C8: when `stbi_load` keeps its contract, `UCreateTexture` returns, and it
returns `true` exactly when the decode succeeds with 3 or 4 channels: `false`
when the decode fails, `false` for any other channel count. With 3 channels
the image given to the new texture is the flipped buffer in the RGB format,
with 4 channels in the RGBA format. -/
theorem UCreateTexture_true_iff (stbi_load : String → Option StbImage) (filename : String)
    (textureId : Nat) (s : App)
    (hwf : ∀ img, stbi_load filename = some img → img.WellFormed) :
    ∃ ok id s', UCreateTexture stbi_load filename textureId s = some (ok, id, s')
      ∧ (ok = true ↔
          ∃ img, stbi_load filename = some img ∧ (img.channels = 3 ∨ img.channels = 4))
      ∧ (stbi_load filename = none → ok = false)
      ∧ (∀ img, stbi_load filename = some img → img.channels ≠ 3 → img.channels ≠ 4 →
          ok = false)
      ∧ (∀ img, stbi_load filename = some img → img.channels = 3 →
          ∃ px, flipImageVertically img.data img.width img.height img.channels = some px
            ∧ s'.gl.texImage id = some ⟨.RGB, img.width, img.height, px⟩)
      ∧ (∀ img, stbi_load filename = some img → img.channels = 4 →
          ∃ px, flipImageVertically img.data img.width img.height img.channels = some px
            ∧ s'.gl.texImage id = some ⟨.RGBA, img.width, img.height, px⟩) := by
  cases hload : stbi_load filename with
  | none =>
    refine ⟨false, textureId, s, by simp [UCreateTexture, hload], ?_, ?_, ?_, ?_, ?_⟩ <;> simp
  | some img =>
    obtain ⟨h1, h2, h3, h4⟩ := hwf img hload
    obtain ⟨px, hpx, -, -⟩ :=
      flipImageVertically_of_wellFormed img.data img.width img.height img.channels h1 h2 h3 h4
    by_cases c3 : img.channels = 3
    · refine ⟨true, freshName s.gl.textureNames, _, by
        simp only [UCreateTexture, hload, hpx]; rw [if_pos c3], ?_, ?_, ?_, ?_, ?_⟩
      · simp [c3]
      · simp
      · intro img' h' h3' _; cases h'; exact absurd c3 h3'
      · intro img' h' _; cases h'
        exact ⟨px, hpx, by simp [execAll, exec, GLCmd.effect]⟩
      · intro img' h' h4'; cases h'; omega
    · by_cases c4 : img.channels = 4
      · refine ⟨true, freshName s.gl.textureNames, _, by
          simp only [UCreateTexture, hload, hpx]; rw [if_neg c3, if_pos c4], ?_, ?_, ?_, ?_, ?_⟩
        · simp [c4]
        · simp
        · intro img' h' _ h4'; cases h'; exact absurd c4 h4'
        · intro img' h' h3'; cases h'; exact absurd h3' c3
        · intro img' h' _; cases h'
          exact ⟨px, hpx, by simp [execAll, exec, GLCmd.effect]⟩
      · refine ⟨false, freshName s.gl.textureNames, _, by
          simp only [UCreateTexture, hload, hpx]; rw [if_neg c3, if_neg c4], ?_, ?_, ?_, ?_, ?_⟩
        · simp [c3, c4]
        · simp
        · intros; rfl
        · intro img' h' h3'; cases h'; exact absurd h3' c3
        · intro img' h' h4'; cases h'; exact absurd h4' c4

/-- C8 at a 1 by 1 RGB image: the call returns `true` and the texture holds
the three bytes in the RGB format. -/
theorem UCreateTexture_true_iff_witness :
    ∃ ok id s',
      UCreateTexture (fun _ => some ⟨[7, 8, 9], 1, 1, 3⟩) "wood.jpg" 0 App.initial
          = some (ok, id, s')
      ∧ (ok = true ↔
          ∃ img, (fun _ => some ⟨[7, 8, 9], 1, 1, 3⟩ : String → Option StbImage) "wood.jpg"
              = some img ∧ (img.channels = 3 ∨ img.channels = 4))
      ∧ ((fun _ => some ⟨[7, 8, 9], 1, 1, 3⟩ : String → Option StbImage) "wood.jpg" = none
          → ok = false)
      ∧ (∀ img, (fun _ => some ⟨[7, 8, 9], 1, 1, 3⟩ : String → Option StbImage) "wood.jpg"
            = some img → img.channels ≠ 3 → img.channels ≠ 4 → ok = false)
      ∧ (∀ img, (fun _ => some ⟨[7, 8, 9], 1, 1, 3⟩ : String → Option StbImage) "wood.jpg"
            = some img → img.channels = 3 →
          ∃ px, flipImageVertically img.data img.width img.height img.channels = some px
            ∧ s'.gl.texImage id = some ⟨.RGB, img.width, img.height, px⟩)
      ∧ (∀ img, (fun _ => some ⟨[7, 8, 9], 1, 1, 3⟩ : String → Option StbImage) "wood.jpg"
            = some img → img.channels = 4 →
          ∃ px, flipImageVertically img.data img.width img.height img.channels = some px
            ∧ s'.gl.texImage id = some ⟨.RGBA, img.width, img.height, px⟩) :=
  UCreateTexture_true_iff (fun _ => some ⟨[7, 8, 9], 1, 1, 3⟩) "wood.jpg" 0 App.initial
    (by intro img h; cases h; decide)

/-- C9 fails on the code: for a 1 by 1 image that decodes with one channel,
`UCreateTexture` returns `false`, but the caller's `textureId` (0 before the
call) has become 1 and the GL has generated texture 1, which stays bound. -/
theorem UCreateTexture_one_channel_generates_texture :
    ∃ s', UCreateTexture (fun _ => some ⟨[7], 1, 1, 1⟩) "gray.png" 0 App.initial
          = some (false, 1, s')
      ∧ App.initial.gl.textureNames = []
      ∧ s'.gl.textureNames = [1]
      ∧ s'.gl.boundTexture s'.gl.activeTexture = 1
      ∧ s'.cout = "Not implemented to handle image with 1 channels\n" := by
  refine ⟨_, rfl, rfl, ?_, ?_, ?_⟩
  · decide
  · decide
  · decide

/-! ## Mesh creation and destruction -/

set_option maxRecDepth 100000 in
/-- C15 fails on the code for the cylinder: `UCreatePlaneMesh` stores 4
vertices and 6 indices and `UCreateCube` 24 and 36, the counts of their
arrays, but `UCreateCylinderMesh`, whose array holds 1744 floats (218
vertices), stores `nIndices = 0` and leaves `nVertices` as it found it: 0 for
the zero-initialised meshes `UCreateAllMeshes` passes. -/
theorem UCreateCylinderMesh_leaves_nVertices :
    ((UCreatePlaneMesh GLMesh.zero App.initial).1.nVertices = 4
        ∧ (UCreatePlaneMesh GLMesh.zero App.initial).1.nIndices = 6)
      ∧ ((UCreateCube GLMesh.zero App.initial).1.nVertices = 24
        ∧ (UCreateCube GLMesh.zero App.initial).1.nIndices = 36)
      ∧ UCreateCylinderMesh.verts.length = 8 * 218
      ∧ (UCreateCylinderMesh GLMesh.zero App.initial).1.nIndices = 0
      ∧ (UCreateCylinderMesh GLMesh.zero App.initial).1.nVertices = 0
      ∧ (UCreateAllMeshes App.initial).gMeshPlaystationCylinder.nVertices = 0
      ∧ (UCreateAllMeshes App.initial).gMeshSpiderman.nVertices = 0 :=
  ⟨⟨rfl, rfl⟩, ⟨rfl, rfl⟩, rfl, rfl, rfl, rfl, rfl⟩

theorem UDestroyTexture_textureNames (textureId : Nat) (s : App) :
    (UDestroyTexture textureId s).gl.textureNames
      = s.gl.textureNames ++ [freshName s.gl.textureNames] := by
  simp [UDestroyTexture, exec, GLCmd.effect]

/-- C13 fails on the code: with texture 1 the only live texture,
`UDestroyTexture(1)` leaves texture 1 live and generates texture 2. -/
theorem UDestroyTexture_generates_texture :
    ({ App.initial with gl := exec App.initial.gl (.genTextures 1) } : App).gl.textureNames = [1]
      ∧ (UDestroyTexture 1
          { App.initial with gl := exec App.initial.gl (.genTextures 1) }).gl.textureNames
        = [1, 2] :=
  ⟨rfl, rfl⟩

set_option maxRecDepth 100000 in
/-- C14 fails on the code: on a run where startup succeeds and Escape closes
the window in the first frame, the process exits with status 0 after one
iteration, having deleted the vertex arrays of seven meshes (floor,
PlayStation body, PlayStation cylinder, Game Boy, Spiderman, Red Alert, Donkey
Kong) once each; the vertex array (8) and the two buffers (13, 14) of the
light-source mesh are never deleted and are still live at exit. -/
theorem main_leaves_light_source_mesh :
    ∃ s, main 0 [] Env.working [FrameInput.escape] = .exit EXIT_SUCCESS 1 s
      ∧ [s.gMeshFloor.vao, s.gMeshPlaystation.vao, s.gMeshPlaystationCylinder.vao,
          s.gMeshGB.vao, s.gMeshDK.vao, s.gMeshRedAlert.vao, s.gMeshSpiderman.vao,
          s.gMeshLightSource.vao] = [1, 2, 3, 4, 5, 6, 7, 8]
      ∧ s.gl.calls.filter GLCmd.isDeleteVertexArrays
          = [.deleteVertexArrays 1, .deleteVertexArrays 2, .deleteVertexArrays 3,
             .deleteVertexArrays 4, .deleteVertexArrays 7, .deleteVertexArrays 6,
             .deleteVertexArrays 5]
      ∧ s.gMeshLightSource.vbos = (13, 14)
      ∧ s.gl.vertexArrayNames = [8]
      ∧ s.gl.bufferNames = [13, 14] :=
  ⟨_, rfl, rfl, rfl, rfl, rfl, rfl⟩

/-! ## Startup diagnostics -/

set_option maxRecDepth 100000 in
/-- C12 fails on the code for `gb5.png`: when every earlier startup step
succeeds and `gb5.png` cannot be loaded, `main` exits with `EXIT_FAILURE`
before the first loop iteration, and the diagnostic line it has printed names
`logo.jpg`. -/
theorem main_names_logo_when_gb5_fails (frames : List FrameInput) :
    Env.withoutGb5.stbi_load "../resources/textures/gb5.png" = none
      ∧ ∃ s, main 0 [] Env.withoutGb5 frames = .exit EXIT_FAILURE 0 s
        ∧ s.cout = "INFO: OpenGL Version: 4.4\n"
            ++ "Failed to load texture ../resources/textures/logo.jpg\n" :=
  ⟨rfl, _, rfl, rfl⟩

/-! ## `UProcessInput` -/

/-- C20: the statements of `UProcessInput`, for every way the two calls that
leave the file act on the state, make one call of `Camera::ProcessKeyboard` for
each held key of W, S, A, D, E, Q, in that order, with the direction FORWARD,
BACKWARD, LEFT, RIGHT, UP, DOWN of the key, and none for a key that is not
held, after the close request that Escape held makes. The calls made from a
state carry its `gDeltaTime`; each direction occurs once among them when its
key is held and not at all otherwise, whatever the other keys, so opposite keys
held together both get their call. `UProcessInput` leaves `gCamera` as these
calls leave it, sets the close flag when Escape is held, whether or not a
movement key is held, and changes nothing else. -/
theorem UProcessInput_one_call_per_held_key (glfwGetKey : Int → Int) (s : App) :
    (∀ (σ : Type) (close : σ → σ) (processKeyboard : Camera_Movement → σ → σ) (x : σ),
        UProcessInput.statements close processKeyboard glfwGetKey x
          = ((UProcessInput.keyTable.filter
                fun kd => decide (glfwGetKey kd.1 = GLFW_PRESS)).map Prod.snd).foldl
              (fun x direction => processKeyboard direction x)
              (if glfwGetKey GLFW_KEY_ESCAPE = GLFW_PRESS then close x else x))
      ∧ UProcessInput.keyboardCalls glfwGetKey s
        = ((UProcessInput.keyTable.filter fun kd => decide (glfwGetKey kd.1 = GLFW_PRESS)).map
            fun kd => (kd.2, s.gDeltaTime))
      ∧ UProcessInput glfwGetKey s
        = { s with
            windowShouldClose
              := (s.windowShouldClose || decide (glfwGetKey GLFW_KEY_ESCAPE = GLFW_PRESS)),
            gCamera :=
              List.foldl (fun c call => c.ProcessKeyboard call.1 call.2) s.gCamera
                (UProcessInput.keyboardCalls glfwGetKey s) }
      ∧ (UProcessInput glfwGetKey s).gCamera
        = (UProcessInput.keyboardCalls glfwGetKey s).foldl
            (fun c call => c.ProcessKeyboard call.1 call.2) s.gCamera
      ∧ (UProcessInput glfwGetKey s).windowShouldClose
        = (s.windowShouldClose || decide (glfwGetKey GLFW_KEY_ESCAPE = GLFW_PRESS))
      ∧ (∀ kd ∈ UProcessInput.keyTable,
          ((UProcessInput.keyboardCalls glfwGetKey s).map Prod.fst).count kd.2
            = if glfwGetKey kd.1 = GLFW_PRESS then 1 else 0)
      ∧ (∀ call ∈ UProcessInput.keyboardCalls glfwGetKey s, call.2 = s.gDeltaTime)
      ∧ ((UProcessInput.keyboardCalls glfwGetKey s).map Prod.fst).Sublist
          [.FORWARD, .BACKWARD, .LEFT, .RIGHT, .UP, .DOWN]
      ∧ (glfwGetKey GLFW_KEY_W = GLFW_PRESS → glfwGetKey GLFW_KEY_S = GLFW_PRESS →
          (UProcessInput.keyboardCalls glfwGetKey s).take 2
            = [(.FORWARD, s.gDeltaTime), (.BACKWARD, s.gDeltaTime)])
      ∧ UProcessInput.keyTable.map Prod.fst
        = [GLFW_KEY_W, GLFW_KEY_S, GLFW_KEY_A, GLFW_KEY_D, GLFW_KEY_E, GLFW_KEY_Q]
      ∧ UProcessInput.keyTable.map Prod.snd = [.FORWARD, .BACKWARD, .LEFT, .RIGHT, .UP, .DOWN] := by
  have hfull := UProcessInput_eq glfwGetKey s
  have hcalls := UProcessInput.keyboardCalls_eq glfwGetKey s
  refine ⟨fun σ close processKeyboard x =>
      UProcessInput.statements_eq close processKeyboard glfwGetKey x,
    hcalls, hfull, by rw [hfull], by rw [hfull], ?_, ?_, ?_, ?_, rfl, rfl⟩
  · intro kd hkd
    rw [hcalls]
    simp only [UProcessInput.keyTable, List.mem_cons, List.mem_singleton, List.not_mem_nil,
      or_false] at hkd
    rcases hkd with rfl | rfl | rfl | rfl | rfl | rfl <;>
    by_cases hW : glfwGetKey GLFW_KEY_W = GLFW_PRESS <;>
    by_cases hS : glfwGetKey GLFW_KEY_S = GLFW_PRESS <;>
    by_cases hA : glfwGetKey GLFW_KEY_A = GLFW_PRESS <;>
    by_cases hD : glfwGetKey GLFW_KEY_D = GLFW_PRESS <;>
    by_cases hE : glfwGetKey GLFW_KEY_E = GLFW_PRESS <;>
    by_cases hQ : glfwGetKey GLFW_KEY_Q = GLFW_PRESS <;>
    simp [UProcessInput.keyTable, List.filter, hW, hS, hA, hD, hE, hQ]
  · intro call hcall
    rw [hcalls] at hcall
    obtain ⟨kd, -, rfl⟩ := List.mem_map.mp hcall
    rfl
  · rw [hcalls]
    by_cases hW : glfwGetKey GLFW_KEY_W = GLFW_PRESS <;>
    by_cases hS : glfwGetKey GLFW_KEY_S = GLFW_PRESS <;>
    by_cases hA : glfwGetKey GLFW_KEY_A = GLFW_PRESS <;>
    by_cases hD : glfwGetKey GLFW_KEY_D = GLFW_PRESS <;>
    by_cases hE : glfwGetKey GLFW_KEY_E = GLFW_PRESS <;>
    by_cases hQ : glfwGetKey GLFW_KEY_Q = GLFW_PRESS <;>
    simp only [UProcessInput.keyTable, List.filter, hW, hS, hA, hD, hE, hQ, decide_True,
      decide_False, List.map_cons, List.map_nil] <;>
    decide
  · intro hW hS
    rw [hcalls]
    simp [UProcessInput.keyTable, List.filter, hW, hS]

/-! ## The calls of one frame -/

/-- C16: the calls of one `URender` begin with the depth test enabled, the
clear colour set and the colour and depth buffers cleared; the program binds,
draw calls and buffer swaps among them are, in order: the lit program bound
once, the eleven draw calls of the seven entries (floor, PlayStation body,
PlayStation cylinder, Game Boy, Donkey Kong, Red Alert, Spiderman, each with
its own vertex array bound), the lamp program bound and the two marker draws,
and one buffer swap, which is the last call of the frame; every draw sees the
view and projection computed on entry. -/
theorem URender_calls_shape (isPerspectiveView : Bool) (s : App) :
    (URender.calls isPerspectiveView s).take 3
        = [.enableDepthTest, .clearColor 0 0 0 1, .clear true true]
      ∧ (URender.calls isPerspectiveView s).filter
          (fun c => c.isUseProgram || c.isDraw || c.isSwapBuffers)
        = [ .useProgram s.gProgramId,
            .drawElements .GL_TRIANGLES s.gMeshFloor.nIndices,
            .drawElements .GL_TRIANGLES s.gMeshPlaystation.nIndices,
            .drawArrays .GL_TRIANGLE_FAN 0 36, .drawArrays .GL_TRIANGLE_FAN 36 36,
            .drawArrays .GL_TRIANGLE_STRIP 72 146,
            .drawElements .GL_TRIANGLES s.gMeshGB.nIndices,
            .drawElements .GL_TRIANGLES s.gMeshDK.nIndices,
            .drawElements .GL_TRIANGLES s.gMeshRedAlert.nIndices,
            .drawArrays .GL_TRIANGLE_FAN 0 36, .drawArrays .GL_TRIANGLE_FAN 36 36,
            .drawArrays .GL_TRIANGLE_STRIP 72 146,
            .useProgram s.gLampProgramId,
            .drawElements .GL_TRIANGLES s.gMeshLightSource.nIndices,
            .useProgram s.gLampProgramId,
            .drawElements .GL_TRIANGLES s.gMeshLightSource.nIndices,
            .useProgram 0,
            .swapBuffers ]
      ∧ (URender.calls isPerspectiveView s).getLast? = some .swapBuffers
      ∧ (URender.draws isPerspectiveView s).map Draw.vao
        = (Entry.ofLitDraws.map fun e => (e.mesh s).vao)
          ++ [s.gMeshLightSource.vao, s.gMeshLightSource.vao]
      ∧ (URender.draws isPerspectiveView s).map Draw.call
        = (URender.calls isPerspectiveView s).filter GLCmd.isDraw
      ∧ ∀ d ∈ URender.draws isPerspectiveView s,
          d.mat4? .view = some (URender.view s)
            ∧ d.mat4? .projection = some (URender.projection isPerspectiveView s) := by
  refine ⟨rfl, rfl, rfl, ?_, ?_, URender_draw_view_projection isPerspectiveView s⟩
  · have h := congrArg (List.map DrawTransforms.vao) (URender_transforms isPerspectiveView s)
    simpa [Draw.transforms, Function.comp_def, Entry.ofLitDraws] using h
  · have h := congrArg (List.map DrawTransforms.call) (URender_transforms isPerspectiveView s)
    rw [List.map_map] at h
    exact h.trans rfl

/-! ## The shading data of each section of `URender` -/

theorem floor_shading (s : App) (v p : Mat4) (g : GLState) :
    (drawsOf g (URender.floor s v p)).map Draw.shading = [Entry.shading s .floor] := by
  simp [URender.floor, drawsOf, exec, GLCmd.effect, GLState.setUniform, GLState.snapshot,
    glGetUniformLocation, Draw.shading, Entry.shading, Entry.uvScale, Entry.unit,
    Entry.texture]

theorem playstationBody_shading (s : App) (v p : Mat4) (g : GLState) (hg : g.program = s.gProgramId) :
    (drawsOf g (URender.playstationBody s v p)).map Draw.shading = [Entry.shading s .playstationBody] := by
  simp [URender.playstationBody, drawsOf, exec, GLCmd.effect, GLState.setUniform, GLState.snapshot,
    glGetUniformLocation, Draw.shading, Entry.shading, Entry.uvScale, Entry.unit,
    Entry.texture, hg]

theorem playstationCylinder_shading (s : App) (v p : Mat4) (g : GLState) (hg : g.program = s.gProgramId) :
    (drawsOf g (URender.playstationCylinder s v p)).map Draw.shading = [Entry.shading s .playstationCylinder, Entry.shading s .playstationCylinder, Entry.shading s .playstationCylinder] := by
  simp [URender.playstationCylinder, drawsOf, exec, GLCmd.effect, GLState.setUniform, GLState.snapshot,
    glGetUniformLocation, Draw.shading, Entry.shading, Entry.uvScale, Entry.unit,
    Entry.texture, hg]

theorem gameBoy_shading (s : App) (v p : Mat4) (g : GLState) (hg : g.program = s.gProgramId) :
    (drawsOf g (URender.gameBoy s v p)).map Draw.shading = [Entry.shading s .gameBoy] := by
  simp [URender.gameBoy, drawsOf, exec, GLCmd.effect, GLState.setUniform, GLState.snapshot,
    glGetUniformLocation, Draw.shading, Entry.shading, Entry.uvScale, Entry.unit,
    Entry.texture, hg]

theorem donkeyKong_shading (s : App) (v p : Mat4) (g : GLState) (hg : g.program = s.gProgramId) :
    (drawsOf g (URender.donkeyKong s v p)).map Draw.shading = [Entry.shading s .donkeyKong] := by
  simp [URender.donkeyKong, drawsOf, exec, GLCmd.effect, GLState.setUniform, GLState.snapshot,
    glGetUniformLocation, Draw.shading, Entry.shading, Entry.uvScale, Entry.unit,
    Entry.texture, hg]

theorem redAlert_shading (s : App) (v p : Mat4) (g : GLState) (hg : g.program = s.gProgramId) :
    (drawsOf g (URender.redAlert s v p)).map Draw.shading = [Entry.shading s .redAlert] := by
  simp [URender.redAlert, drawsOf, exec, GLCmd.effect, GLState.setUniform, GLState.snapshot,
    glGetUniformLocation, Draw.shading, Entry.shading, Entry.uvScale, Entry.unit,
    Entry.texture, hg]

theorem spiderman_shading (s : App) (v p : Mat4) (g : GLState) (hg : g.program = s.gProgramId) :
    (drawsOf g (URender.spiderman s v p)).map Draw.shading = [Entry.shading s .spiderman, Entry.shading s .spiderman, Entry.shading s .spiderman] := by
  simp [URender.spiderman, drawsOf, exec, GLCmd.effect, GLState.setUniform, GLState.snapshot,
    glGetUniformLocation, Draw.shading, Entry.shading, Entry.uvScale, Entry.unit,
    Entry.texture, hg]

theorem lamp1_draws_length (s : App) (v p : Mat4) (g : GLState) :
    (drawsOf g (URender.lamp1 s v p)).length = 1 := by
  simp [URender.lamp1, drawsOf]

theorem lamp2_draws_length (s : App) (v p : Mat4) (g : GLState) :
    (drawsOf g (URender.lamp2 s v p)).length = 1 := by
  simp [URender.lamp2, drawsOf]

/-- The shading data of the eleven lit draw calls of one frame, in order; the
two lamp draws follow them. -/
theorem URender_shading (b : Bool) (s : App) :
    ∃ lit lamp : List Draw, URender.draws b s = lit ++ lamp
      ∧ lit.map Draw.shading = Entry.ofLitDraws.map (Entry.shading s)
      ∧ lamp.length = 2 := by
  have h1 := floor_program s (URender.view s) (URender.projection b s) (execAll s.gl URender.begin)
  have h2 := playstationBody_program s (URender.view s) (URender.projection b s) _ h1
  have h3 := playstationCylinder_program s (URender.view s) (URender.projection b s) _ h2
  have h4 := gameBoy_program s (URender.view s) (URender.projection b s) _ h3
  have h5 := donkeyKong_program s (URender.view s) (URender.projection b s) _ h4
  have h6 := redAlert_program s (URender.view s) (URender.projection b s) _ h5
  let v := URender.view s
  let p := URender.projection b s
  let litCalls := URender.begin ++ URender.floor s v p ++ URender.playstationBody s v p
    ++ URender.playstationCylinder s v p ++ URender.gameBoy s v p ++ URender.donkeyKong s v p
    ++ URender.redAlert s v p ++ URender.spiderman s v p
  refine ⟨drawsOf s.gl litCalls,
    drawsOf (execAll s.gl litCalls) (URender.lamp1 s v p ++ URender.lamp2 s v p), ?_, ?_, ?_⟩
  · simp only [URender.draws, URender.calls]
    rw [List.append_assoc _ (URender.lamp1 _ _ _) (URender.lamp2 _ _ _), drawsOf_append]
  · simp only [litCalls, v, p, drawsOf_append, execAll_append, List.map_append, begin_draws,
      floor_shading, playstationBody_shading _ _ _ _ h1, playstationCylinder_shading _ _ _ _ h2,
      gameBoy_shading _ _ _ _ h3, donkeyKong_shading _ _ _ _ h4, redAlert_shading _ _ _ _ h5,
      spiderman_shading _ _ _ _ h6]
    rfl
  · simp [drawsOf_append, lamp1_draws_length, lamp2_draws_length]

/-! ## What startup and the render loop leave in the scene variables -/

theorem bind_eq_ok {ε α β : Type} (x : Except ε α) (f : α → Except ε β) (b : β) :
    (x >>= f) = .ok b ↔ ∃ a, x = .ok a ∧ f a = .ok b := by
  cases x <;> simp [bind, Except.bind]

theorem UCreateTexture_true (stbi_load : String → Option StbImage) (filename : String)
    (textureId id : Nat) (s s' : App)
    (h : UCreateTexture stbi_load filename textureId s = some (true, id, s')) :
    id = freshName s.gl.textureNames
      ∧ s' = { s with gl := s'.gl }
      ∧ s'.gl.textureNames = s.gl.textureNames ++ [freshName s.gl.textureNames] := by
  unfold UCreateTexture at h
  split at h
  · split at h
    · exact absurd h (by simp)
    · split at h
      · simp only [Option.some.injEq, Prod.mk.injEq, true_and] at h
        obtain ⟨h1, h2⟩ := h
        subst h2
        exact ⟨h1.symm, rfl, by simp [execAll, exec, GLCmd.effect]⟩
      · split at h
        · simp only [Option.some.injEq, Prod.mk.injEq, true_and] at h
          obtain ⟨h1, h2⟩ := h
          subst h2
          exact ⟨h1.symm, rfl, by simp [execAll, exec, GLCmd.effect]⟩
        · simp at h
  · simp at h

theorem loadTexture_ok (env : Env) (texFilename printed : String) (get : App → Nat)
    (set : App → Nat → App) (s s' : App)
    (h : main.loadTexture env texFilename printed get set s = .ok s') :
    ∃ g, s' = set { s with gl := g } (freshName s.gl.textureNames)
      ∧ g.textureNames = s.gl.textureNames ++ [freshName s.gl.textureNames] := by
  unfold main.loadTexture at h
  split at h
  · exact absurd h (by simp)
  · rename_i ok id s'' hU
    cases ok
    · simp at h
    · obtain ⟨h1, h2, h3⟩ := UCreateTexture_true _ _ _ _ _ _ hU
      simp only [Bool.not_true, Bool.false_eq_true, if_false, Except.ok.injEq] at h
      refine ⟨s''.gl, ?_, h3⟩
      rw [← h, h1, ← h2]

theorem createProgram_ok (env : Env) (vtx frag : String) (get : App → Nat)
    (set : App → Nat → App) (s s' : App)
    (h : main.createProgram env vtx frag get set s = .ok s') :
    ∃ g id, s' = set { s with gl := g, cout := s.cout } id
      ∧ g.textureNames = s.gl.textureNames := by
  unfold main.createProgram at h
  by_cases hv : env.driver.compileStatus .GL_VERTEX_SHADER vtx = true
  · by_cases hf : env.driver.compileStatus .GL_FRAGMENT_SHADER frag = true
    · by_cases hl : env.driver.linkStatus vtx frag = true
      · simp only [UCreateShaderProgram, hv, hf, hl, Bool.not_true, Bool.false_eq_true,
          if_false, Except.ok.injEq] at h
        exact ⟨_, _, h.symm, by simp [execAll, exec, GLCmd.effect]⟩
      · simp [UCreateShaderProgram, hv, hf, hl] at h
    · simp [UCreateShaderProgram, hv, hf] at h
  · simp [UCreateShaderProgram, hv] at h

theorem UInitialize_ok (env : Env) (argc : Int) (argv : List String) (s : App)
    (h : (UInitialize env argc argv s).1 = true) :
    (UInitialize env argc argv s).2
      = { s with cout := s.cout ++ "INFO: OpenGL Version: " ++ env.glVersion ++ "\n" } := by
  unfold UInitialize at h ⊢
  split
  · rename_i hw; simp [hw] at h
  · split
    · rename_i hw hg; simp [hw, hg] at h
    · rfl

theorem startup_scene (argc : Int) (argv : List String) (env : Env) (s : App)
    (h : main.startup argc argv env = .ok s) :
    s.scene = (⟨3, 8, 8⟩, ⟨1, 1, 1⟩, [1, 2, 3, 4, 5, 6, 7]) := by
  simp only [main.startup, bind_eq_ok] at h
  obtain ⟨s1, h1, s3, h3, s4, h4, s5, h5, s6, h6, s7, h7, s8, h8, s9, h9, s10, h10, s11, h11,
    h⟩ := h
  have hi : (UInitialize env argc argv App.initial).1 = true := by
    cases hb : (UInitialize env argc argv App.initial).1 <;> simp [hb] at h1 ⊢
  simp only [hi, Bool.not_true, Bool.false_eq_true, if_false, Except.ok.injEq,
    UInitialize_ok env argc argv App.initial hi] at h1
  obtain ⟨g3, id3, rfl, t3⟩ := createProgram_ok _ _ _ _ _ _ _ h3
  obtain ⟨g4, id4, rfl, t4⟩ := createProgram_ok _ _ _ _ _ _ _ h4
  obtain ⟨g5, rfl, t5⟩ := loadTexture_ok _ _ _ _ _ _ _ h5
  obtain ⟨g6, rfl, t6⟩ := loadTexture_ok _ _ _ _ _ _ _ h6
  obtain ⟨g7, rfl, t7⟩ := loadTexture_ok _ _ _ _ _ _ _ h7
  obtain ⟨g8, rfl, t8⟩ := loadTexture_ok _ _ _ _ _ _ _ h8
  obtain ⟨g9, rfl, t9⟩ := loadTexture_ok _ _ _ _ _ _ _ h9
  obtain ⟨g10, rfl, t10⟩ := loadTexture_ok _ _ _ _ _ _ _ h10
  obtain ⟨g11, rfl, t11⟩ := loadTexture_ok _ _ _ _ _ _ _ h11
  have e0 : (UCreateAllMeshes s1).gl.textureNames = [] := by rw [← h1]; rfl
  have e1 : (UCreateAllMeshes s1).gLightPosition = ⟨3, 8, 8⟩ := by rw [← h1]; rfl
  have e2 : (UCreateAllMeshes s1).gLightScale = ⟨1, 1, 1⟩ := by rw [← h1]; rfl
  simp only [e0] at t3
  simp only [t3] at t4
  simp only [t4, List.nil_append] at t5
  simp only [t5] at t6
  simp only [t6] at t7
  simp only [t7] at t8
  simp only [t8] at t9
  simp only [t9] at t10
  simp only [t10] at t11
  simp only [pure, Except.pure, Except.ok.injEq] at h
  subst h
  simp only [App.scene, App.textures, e1, e2, t4, t5, t6, t7, t8, t9, t10]
  simp [freshName]

theorem UProcessInput_scene (glfwGetKey : Int → Int) (s : App) :
    (UProcessInput glfwGetKey s).scene = s.scene := by
  rw [UProcessInput_eq]
  rfl

theorem key_callback_scene (key scancode action mods : Int) (s : App) :
    (key_callback key scancode action mods s).scene = s.scene := by
  unfold key_callback
  split <;> rfl

theorem UMousePositionCallback_scene (m : FloatMath) (xpos ypos : ℚ) (s : App) :
    (UMousePositionCallback m xpos ypos s).scene = s.scene := by
  unfold UMousePositionCallback
  cases s.gFirstMouse <;> rfl

theorem dispatchEvent_scene (env : Env) (s : App) (e : Event) :
    (dispatchEvent env s e).scene = s.scene := by
  cases e with
  | key k sc a m => exact key_callback_scene k sc a m s
  | cursorPos x y => exact UMousePositionCallback_scene env.math x y s
  | scroll x y => rfl
  | framebufferSize w h => rfl
  | close => rfl

theorem glfwPollEvents_scene (env : Env) (events : List Event) (s : App) :
    (glfwPollEvents env events s).scene = s.scene := by
  induction events generalizing s with
  | nil => rfl
  | cons e rest ih =>
    have h := ih (dispatchEvent env s e)
    rw [dispatchEvent_scene] at h
    simpa [glfwPollEvents] using h

theorem frame_scene (env : Env) (f : FrameInput) (s : App) :
    (main.frame env f s).scene = s.scene := by
  simp only [main.frame, glfwPollEvents_scene]
  exact (UProcessInput_scene f.keys _)

theorem runFrames_scene (env : Env) (s : App) (frames : List FrameInput) :
    (runFrames env s frames).scene = s.scene := by
  induction frames generalizing s with
  | nil => rfl
  | cons f rest ih =>
    have h := ih (main.frame env f s)
    rw [frame_scene] at h
    simpa [runFrames] using h

theorem reachable_scene (argc : Int) (argv : List String) (env : Env) (s0 : App)
    (frames : List FrameInput) (h : main.startup argc argv env = .ok s0) :
    (runFrames env s0 frames).gLightPosition = ⟨3, 8, 8⟩
      ∧ (runFrames env s0 frames).gLightScale = ⟨1, 1, 1⟩
      ∧ (runFrames env s0 frames).textures = [1, 2, 3, 4, 5, 6, 7] := by
  have h1 := runFrames_scene env s0 frames
  rw [startup_scene argc argv env s0 h] at h1
  simp only [App.scene, Prod.mk.injEq] at h1
  exact h1

theorem lit_draw_at (b : Bool) (s : App) (e : Entry) (k : Fin e.drawCount) :
    ∃ d, (URender.draws b s)[e.firstDraw + k.val]? = some d ∧ d.shading = e.shading s := by
  obtain ⟨lit, lamp, hd, hlit, -⟩ := URender_shading b s
  have hlen : lit.length = 11 := by
    have := congrArg List.length hlit
    simpa [Entry.ofLitDraws] using this
  have hi : e.firstDraw + k.val < lit.length := by
    rw [hlen]
    cases e <;> fin_cases k <;> simp [Entry.firstDraw]
  have hk : (Entry.ofLitDraws.map (Entry.shading s))[e.firstDraw + k.val]? = some (e.shading s) := by
    cases e <;> fin_cases k <;> rfl
  rw [← hlit, List.getElem?_map] at hk
  rw [hd, List.getElem?_append_left hi]
  cases hl : lit[e.firstDraw + k.val]? with
  | none => simp [hl] at hk
  | some d => exact ⟨d, rfl, by simpa [hl] using hk⟩

/-! ## Textures and lights at the draws of a frame -/

/-- C17: in every frame of a run whose startup succeeded, each draw call of
each of the seven sections is issued with the sampler `uTexture` holding the
entry's unit, that unit active, and the entry's texture bound on it; the units
are 0 to 6 in the order of the sections; no two entries have the same unit and
no two have the same texture. -/
theorem URender_samples_own_texture (argc : Int) (argv : List String) (env : Env)
    (s0 : App) (frames : List FrameInput) (isPerspectiveView : Bool)
    (h : main.startup argc argv env = .ok s0) :
    (∀ (e : Entry) (k : Fin e.drawCount),
        ∃ d, (URender.draws isPerspectiveView (runFrames env s0 frames))[e.firstDraw + k.val]?
            = some d
          ∧ d.uniform .uTexture = some (.int e.unit)
          ∧ d.activeTexture = e.unit
          ∧ d.boundTexture e.unit = e.texture (runFrames env s0 frames))
      ∧ [Entry.floor, .playstationBody, .playstationCylinder, .gameBoy, .donkeyKong, .redAlert,
          .spiderman].map Entry.unit = [0, 1, 2, 3, 4, 5, 6]
      ∧ Function.Injective Entry.unit
      ∧ Function.Injective (Entry.texture (runFrames env s0 frames)) := by
  refine ⟨?_, rfl, ?_, ?_⟩
  · intro e k
    obtain ⟨d, hd, hs⟩ := lit_draw_at isPerspectiveView (runFrames env s0 frames) e k
    have h1 := congrArg DrawShading.uTexture hs
    have h2 : d.activeTexture = e.unit := congrArg DrawShading.activeTexture hs
    have h3 := congrArg DrawShading.texture hs
    refine ⟨d, hd, h1, h2, ?_⟩
    rw [← h2]
    exact h3
  · intro a b hab
    cases a <;> cases b <;> simp [Entry.unit] at hab ⊢
  · obtain ⟨-, -, ht⟩ := reachable_scene argc argv env s0 frames h
    simp only [App.textures, List.cons.injEq, and_true] at ht
    obtain ⟨t1, t2, t3, t4, t5, t6, t7⟩ := ht
    intro a b hab
    cases a <;> cases b <;> simp [Entry.texture, t1, t2, t3, t4, t5, t6, t7] at hab ⊢

set_option maxRecDepth 100000 in
/-- C17 on the run in `Env.working`, in the frame after one frame with Escape
held: the floor draw samples unit 0 with texture 1 bound on it. -/
theorem URender_samples_own_texture_witness :
    main.startup 0 [] Env.working = .ok App.started
      ∧ ∃ d, (URender.draws true (runFrames Env.working App.started [FrameInput.escape]))[0]?
            = some d
          ∧ d.uniform .uTexture = some (.int 0)
          ∧ d.activeTexture = 0
          ∧ d.boundTexture 0 = 1 :=
  ⟨rfl,
    (URender_samples_own_texture 0 [] Env.working App.started [FrameInput.escape] true rfl).1
      .floor ⟨0, by decide⟩⟩

/-- C18: in every frame of a run whose startup succeeded, the two last of the
thirteen draw calls are the light markers: both under the lamp program with
the vertex array of the light-source mesh bound, the first with
`model = translate(3, 8, 8) * scale(gLightScale)`, the second with
`model = translate(-3, 8, 8) * scale(gLightScale)`, the first position
mirrored in x; `gLightScale` is (1, 1, 1). -/
theorem URender_two_light_markers (argc : Int) (argv : List String) (env : Env)
    (s0 : App) (frames : List FrameInput) (isPerspectiveView : Bool)
    (h : main.startup argc argv env = .ok s0) :
    (URender.draws isPerspectiveView (runFrames env s0 frames)).map Draw.program
        = List.replicate 11 (runFrames env s0 frames).gProgramId
          ++ List.replicate 2 (runFrames env s0 frames).gLampProgramId
      ∧ ((URender.draws isPerspectiveView (runFrames env s0 frames)).drop 11).map
          (fun d => (d.call, d.vao, d.mat4? .model))
        = [ (.drawElements .GL_TRIANGLES (runFrames env s0 frames).gMeshLightSource.nIndices,
              (runFrames env s0 frames).gMeshLightSource.vao,
              some (Mat4.translate ⟨3, 8, 8⟩ * Mat4.scale (runFrames env s0 frames).gLightScale)),
            (.drawElements .GL_TRIANGLES (runFrames env s0 frames).gMeshLightSource.nIndices,
              (runFrames env s0 frames).gMeshLightSource.vao,
              some (Mat4.translate ⟨-3, 8, 8⟩
                * Mat4.scale (runFrames env s0 frames).gLightScale)) ]
      ∧ (runFrames env s0 frames).gLightPosition = ⟨3, 8, 8⟩
      ∧ (runFrames env s0 frames).gLightScale = ⟨1, 1, 1⟩
      ∧ (⟨-3, 8, 8⟩ : Vec3)
        = ⟨-(runFrames env s0 frames).gLightPosition.x,
            (runFrames env s0 frames).gLightPosition.y,
            (runFrames env s0 frames).gLightPosition.z⟩ := by
  obtain ⟨hp, hsc, -⟩ := reachable_scene argc argv env s0 frames h
  have ht := URender_transforms isPerspectiveView (runFrames env s0 frames)
  refine ⟨?_, ?_, hp, hsc, ?_⟩
  · have h1 := congrArg (List.map DrawTransforms.program) ht
    simpa [Draw.transforms, Function.comp_def, List.replicate] using h1
  · have h1 := congrArg (fun l => (l.drop 11).map
        (fun t : DrawTransforms => (t.call, t.vao, t.model))) ht
    simp only [← List.map_drop, List.map_map] at h1
    rw [hp] at h1
    exact h1
  · rw [hp]

set_option maxRecDepth 100000 in
/-- C18 on the run in `Env.working`, in the frame after one frame with Escape
held: the light position is (3, 8, 8). -/
theorem URender_two_light_markers_witness :
    main.startup 0 [] Env.working = .ok App.started
      ∧ (runFrames Env.working App.started [FrameInput.escape]).gLightPosition = ⟨3, 8, 8⟩ :=
  ⟨rfl,
    (URender_two_light_markers 0 [] Env.working App.started [FrameInput.escape] true rfl).2.2.1⟩

/-- C19: in every frame of a run whose startup succeeded, each of the eleven
lit draw calls sees `lightPos = (3, 8, 8)`, the shared `gLightPosition`; the
seven uploads of `lightPos` in the frame all carry (3, 8, 8), none (-3, 8, 8);
and neither the loop body nor any input callback changes `gLightPosition`. -/
theorem URender_lightPos_is_shared_position (argc : Int) (argv : List String) (env : Env)
    (s0 : App) (frames : List FrameInput) (isPerspectiveView : Bool)
    (h : main.startup argc argv env = .ok s0) :
    (runFrames env s0 frames).gLightPosition = ⟨3, 8, 8⟩
      ∧ (∀ (e : Entry) (k : Fin e.drawCount),
          ∃ d, (URender.draws isPerspectiveView (runFrames env s0 frames))[e.firstDraw + k.val]?
              = some d
            ∧ d.program = (runFrames env s0 frames).gProgramId
            ∧ d.uniform .lightPos = some (.vec3 3 8 8))
      ∧ (URender.calls isPerspectiveView (runFrames env s0 frames)).filterMap GLCmd.lightPos?
          = List.replicate 7 ⟨3, 8, 8⟩
      ∧ (∀ (f : FrameInput) (s : App),
          (main.frame env f s).gLightPosition = s.gLightPosition)
      ∧ (∀ (e : Event) (s : App), (dispatchEvent env s e).gLightPosition = s.gLightPosition)
      ∧ (∀ (keys : Int → Int) (s : App),
          (UProcessInput keys s).gLightPosition = s.gLightPosition)
      ∧ (∀ (b : Bool) (s : App), (URender b s).gLightPosition = s.gLightPosition) := by
  obtain ⟨hp, -, -⟩ := reachable_scene argc argv env s0 frames h
  refine ⟨hp, ?_, ?_, ?_, ?_, ?_, fun _ _ => rfl⟩
  · intro e k
    obtain ⟨d, hd, hs⟩ := lit_draw_at isPerspectiveView (runFrames env s0 frames) e k
    have h1 : d.uniform .lightPos = _ := congrArg DrawShading.lightPos hs
    obtain ⟨d', hd', hprog⟩ : ∃ d', (URender.draws isPerspectiveView
        (runFrames env s0 frames))[e.firstDraw + k.val]? = some d'
        ∧ d'.program = (runFrames env s0 frames).gProgramId := by
      cases e <;> fin_cases k <;>
        (refine draw_at _ _ (URender_transforms isPerspectiveView _) _ _ rfl _ ?_
         intro d ht
         exact congrArg DrawTransforms.program ht)
    rw [hd] at hd'
    cases hd'
    refine ⟨d, hd, hprog, ?_⟩
    rw [h1]
    simp [Entry.shading, hp]
  · have : (URender.calls isPerspectiveView (runFrames env s0 frames)).filterMap GLCmd.lightPos?
        = List.replicate 7 (runFrames env s0 frames).gLightPosition := rfl
    rw [this, hp]
  · intro f s
    exact congrArg Prod.fst (frame_scene env f s)
  · intro e s
    exact congrArg Prod.fst (dispatchEvent_scene env s e)
  · intro keys s
    exact congrArg Prod.fst (UProcessInput_scene keys s)

set_option maxRecDepth 100000 in
/-- C19 on the run in `Env.working`, in the frame after one frame with Escape
held: the seven uploads of `lightPos` carry (3, 8, 8). -/
theorem URender_lightPos_is_shared_position_witness :
    main.startup 0 [] Env.working = .ok App.started
      ∧ (URender.calls true (runFrames Env.working App.started [FrameInput.escape])).filterMap
          GLCmd.lightPos?
        = List.replicate 7 ⟨3, 8, 8⟩ :=
  ⟨rfl,
    (URender_lightPos_is_shared_position 0 [] Env.working App.started [FrameInput.escape] true
      rfl).2.2.1⟩

/-! ## The exit status of `main` -/

theorem StartupStep.bind {b c : Bool} {x : Except Outcome App} {f : App → Except Outcome App}
    (hx : StartupStep b x) (hf : ∀ s, StartupStep c (f s)) : StartupStep (b && c) (x >>= f) := by
  rcases hx with ⟨hb, s, rfl⟩ | ⟨hb, s, rfl⟩
  · subst hb
    rcases hf s with ⟨hc, r, hr⟩ | ⟨hc, r, hr⟩
    · exact Or.inl ⟨by simp [hc], r, by simpa [bind, Except.bind] using hr⟩
    · exact Or.inr ⟨by simp [hc], r, by simpa [bind, Except.bind] using hr⟩
  · subst hb
    exact Or.inr ⟨by simp, s, by simp [Bind.bind, Except.bind]⟩

theorem UCreateTexture_total (env : Env) (hwf : env.WellFormed) (filename : String)
    (textureId : Nat) (s : App) :
    ∃ id s', UCreateTexture env.stbi_load filename textureId s
      = some (env.loads filename, id, s') := by
  have key : (UCreateTexture env.stbi_load filename textureId s).map Prod.fst
      = some (env.loads filename) := by
    unfold Env.loads
    cases hload : env.stbi_load filename with
    | none => simp [UCreateTexture, hload]
    | some img =>
      obtain ⟨h1, h2, h3, h4⟩ := hwf filename img hload
      obtain ⟨px, hpx, -, -⟩ :=
        flipImageVertically_of_wellFormed img.data img.width img.height img.channels h1 h2 h3 h4
      simp only [UCreateTexture, hload, hpx]
      by_cases c3 : img.channels = 3
      · rw [if_pos c3]; simp [c3]
      · by_cases c4 : img.channels = 4
        · rw [if_neg c3, if_pos c4]; simp [c4]
        · rw [if_neg c3, if_neg c4]; simp [c3, c4]
  cases hU : UCreateTexture env.stbi_load filename textureId s with
  | none => simp [hU] at key
  | some r =>
    obtain ⟨ok, id, s'⟩ := r
    simp only [hU, Option.map_some', Option.some.injEq] at key
    exact ⟨id, s', by rw [← key]⟩

theorem loadTexture_step (env : Env) (hwf : env.WellFormed) (texFilename printed : String)
    (get : App → Nat) (set : App → Nat → App) (s : App) :
    StartupStep (env.loads texFilename)
      (main.loadTexture env texFilename printed get set s) := by
  obtain ⟨id, s', hU⟩ := UCreateTexture_total env hwf texFilename (get s) s
  unfold main.loadTexture StartupStep
  rw [hU]
  cases env.loads texFilename <;> simp

theorem createProgram_step (env : Env) (vtx frag : String) (get : App → Nat)
    (set : App → Nat → App) (s : App) :
    StartupStep (env.builds vtx frag) (main.createProgram env vtx frag get set s) := by
  unfold main.createProgram StartupStep Env.builds
  cases hv : env.driver.compileStatus .GL_VERTEX_SHADER vtx <;>
  cases hf : env.driver.compileStatus .GL_FRAGMENT_SHADER frag <;>
  cases hl : env.driver.linkStatus vtx frag <;>
  simp [UCreateShaderProgram, hv, hf, hl]

theorem UInitialize_step (env : Env) (argc : Int) (argv : List String) (s : App) :
    StartupStep (env.windowCreated && env.glewOk)
      (match UInitialize env argc argv s with
        | (ok, s) => if !ok then .error (.exit EXIT_FAILURE 0 s) else .ok s) := by
  unfold UInitialize StartupStep
  cases env.windowCreated <;> cases env.glewOk <;> simp

theorem startup_step (argc : Int) (argv : List String) (env : Env) (hwf : env.WellFormed) :
    StartupStep env.startupOk (main.startup argc argv env) := by
  have key : StartupStep
      ((env.windowCreated && env.glewOk)
        && (env.builds vertexShaderSource fragmentShaderSource
        && (env.builds lampVertexShaderSource lampFragmentShaderSource
        && (env.loads texFilename1 && (env.loads texFilename2 && (env.loads texFilename3
        && (env.loads texFilename4 && (env.loads texFilename5 && (env.loads texFilename6
        && (env.loads texFilename7 && true))))))))))
      (main.startup argc argv env) := by
    unfold main.startup
    refine StartupStep.bind (UInitialize_step env argc argv App.initial) fun s => ?_
    refine StartupStep.bind (createProgram_step env _ _ _ _ _) fun s => ?_
    refine StartupStep.bind (createProgram_step env _ _ _ _ _) fun s => ?_
    refine StartupStep.bind (loadTexture_step env hwf _ _ _ _ _) fun s => ?_
    refine StartupStep.bind (loadTexture_step env hwf _ _ _ _ _) fun s => ?_
    refine StartupStep.bind (loadTexture_step env hwf _ _ _ _ _) fun s => ?_
    refine StartupStep.bind (loadTexture_step env hwf _ _ _ _ _) fun s => ?_
    refine StartupStep.bind (loadTexture_step env hwf _ _ _ _ _) fun s => ?_
    refine StartupStep.bind (loadTexture_step env hwf _ _ _ _ _) fun s => ?_
    refine StartupStep.bind (loadTexture_step env hwf _ _ _ _ _) fun s => ?_
    exact Or.inl ⟨rfl, _, rfl⟩
  have e : env.startupOk = ((env.windowCreated && env.glewOk)
        && (env.builds vertexShaderSource fragmentShaderSource
        && (env.builds lampVertexShaderSource lampFragmentShaderSource
        && (env.loads texFilename1 && (env.loads texFilename2 && (env.loads texFilename3
        && (env.loads texFilename4 && (env.loads texFilename5 && (env.loads texFilename6
        && (env.loads texFilename7 && true)))))))))) := by
    simp [Env.startupOk, Bool.and_assoc]
  rw [e]
  exact key

theorem startup_windowShouldClose (argc : Int) (argv : List String) (env : Env) (s : App)
    (h : main.startup argc argv env = .ok s) : s.windowShouldClose = false := by
  simp only [main.startup, bind_eq_ok] at h
  obtain ⟨s1, h1, s3, h3, s4, h4, s5, h5, s6, h6, s7, h7, s8, h8, s9, h9, s10, h10, s11, h11,
    h⟩ := h
  have hi : (UInitialize env argc argv App.initial).1 = true := by
    cases hb : (UInitialize env argc argv App.initial).1 <;> simp [hb] at h1 ⊢
  simp only [hi, Bool.not_true, Bool.false_eq_true, if_false, Except.ok.injEq,
    UInitialize_ok env argc argv App.initial hi] at h1
  obtain ⟨g3, id3, rfl, -⟩ := createProgram_ok _ _ _ _ _ _ _ h3
  obtain ⟨g4, id4, rfl, -⟩ := createProgram_ok _ _ _ _ _ _ _ h4
  obtain ⟨g5, rfl, -⟩ := loadTexture_ok _ _ _ _ _ _ _ h5
  obtain ⟨g6, rfl, -⟩ := loadTexture_ok _ _ _ _ _ _ _ h6
  obtain ⟨g7, rfl, -⟩ := loadTexture_ok _ _ _ _ _ _ _ h7
  obtain ⟨g8, rfl, -⟩ := loadTexture_ok _ _ _ _ _ _ _ h8
  obtain ⟨g9, rfl, -⟩ := loadTexture_ok _ _ _ _ _ _ _ h9
  obtain ⟨g10, rfl, -⟩ := loadTexture_ok _ _ _ _ _ _ _ h10
  obtain ⟨g11, rfl, -⟩ := loadTexture_ok _ _ _ _ _ _ _ h11
  simp only [pure, Except.pure, Except.ok.injEq] at h
  subst h
  subst h1
  rfl

/-! ## The render loop -/

theorem UProcessInput_windowShouldClose (keys : Int → Int) (s : App) :
    (UProcessInput keys s).windowShouldClose
      = (s.windowShouldClose || decide (keys GLFW_KEY_ESCAPE = GLFW_PRESS)) := by
  exact congrArg App.windowShouldClose (UProcessInput_eq keys s)

theorem dispatchEvent_windowShouldClose (env : Env) (s : App) (e : Event) :
    (dispatchEvent env s e).windowShouldClose = (s.windowShouldClose || e.isClose) := by
  cases e with
  | key k sc a m =>
    simp only [dispatchEvent, key_callback, Event.isClose]
    split <;> simp
  | cursorPos x y =>
    simp only [dispatchEvent, UMousePositionCallback, Event.isClose]
    cases s.gFirstMouse <;> simp
  | scroll x y => simp [dispatchEvent, UMouseScrollCallback, Event.isClose]
  | framebufferSize w h => simp [dispatchEvent, UResizeWindow, Event.isClose]
  | close => simp [dispatchEvent, Event.isClose]

theorem glfwPollEvents_windowShouldClose (env : Env) (events : List Event) (s : App) :
    (glfwPollEvents env events s).windowShouldClose
      = (s.windowShouldClose || events.any Event.isClose) := by
  induction events generalizing s with
  | nil => simp [glfwPollEvents]
  | cons e rest ih =>
    have h := ih (dispatchEvent env s e)
    rw [dispatchEvent_windowShouldClose] at h
    simp only [glfwPollEvents, List.foldl_cons] at h ⊢
    rw [h]
    simp [Bool.or_assoc]

theorem frame_windowShouldClose (env : Env) (f : FrameInput) (s : App) :
    (main.frame env f s).windowShouldClose = (s.windowShouldClose || f.asksClose) := by
  simp only [main.frame, glfwPollEvents_windowShouldClose, FrameInput.asksClose]
  have h1 : (URender (UProcessInput f.keys
      { s with gDeltaTime := f.time - s.gLastFrame, gLastFrame := f.time }).isPerspectiveView
      (UProcessInput f.keys
        { s with gDeltaTime := f.time - s.gLastFrame, gLastFrame := f.time })).windowShouldClose
      = (UProcessInput f.keys
        { s with gDeltaTime := f.time - s.gLastFrame, gLastFrame := f.time }).windowShouldClose :=
    rfl
  rw [h1, UProcessInput_windowShouldClose]
  simp [Bool.or_assoc]

theorem loop_closed (env : Env) (frames : List FrameInput) (n : Nat) (s : App)
    (h : s.windowShouldClose = true) : main.loop env frames n s = some (n, s) := by
  cases frames <;> simp [main.loop, h]

theorem loop_exits (env : Env) (frames : List FrameInput) :
    ∀ (n : Nat) (s : App), (∃ f ∈ frames, f.asksClose = true) →
      ∃ n' s', main.loop env frames n s = some (n', s') := by
  induction frames with
  | nil => intro n s h; simp at h
  | cons f rest ih =>
    intro n s h
    by_cases hs : s.windowShouldClose = true
    · exact ⟨n, s, loop_closed env _ n s hs⟩
    · simp only [main.loop, hs, Bool.false_eq_true, if_false]
      by_cases hf : f.asksClose = true
      · exact ⟨n + 1, _, loop_closed env rest (n + 1) _
          (by rw [frame_windowShouldClose]; simp [hf])⟩
      · apply ih
        obtain ⟨g, hg, hga⟩ := h
        rcases List.mem_cons.mp hg with rfl | hg'
        · exact absurd hga hf
        · exact ⟨g, hg', hga⟩

theorem loop_stays (env : Env) (frames : List FrameInput) :
    ∀ (n : Nat) (s : App), s.windowShouldClose = false → (∀ f ∈ frames, f.asksClose = false) →
      main.loop env frames n s = none := by
  induction frames with
  | nil => intro n s hs _; simp [main.loop, hs]
  | cons f rest ih =>
    intro n s hs h
    simp only [main.loop, hs, Bool.false_eq_true, if_false]
    apply ih
    · rw [frame_windowShouldClose, hs]
      simp [h f (List.mem_cons_self _ _)]
    · intro g hg
      exact h g (List.mem_cons_of_mem _ hg)

/-- C11: when `stbi_load` keeps its contract, `main` exits with `EXIT_FAILURE`
exactly when a startup step fails (no window, GLEW not initialised, one of the
two programs not built, one of the seven textures not loaded), and then it
exits before the first iteration of the render loop. When every startup step
succeeds, `main` exits with `EXIT_SUCCESS` if one of the frames asks the
window to close (Escape held, or a close request), and is still in the render
loop if none does. -/
theorem main_exit_status (argc : Int) (argv : List String) (env : Env)
    (frames : List FrameInput) (hwf : env.WellFormed) :
    ((∃ n s, main argc argv env frames = .exit EXIT_FAILURE n s) ↔ env.startupOk = false)
      ∧ (env.startupOk = false → ∃ s, main argc argv env frames = .exit EXIT_FAILURE 0 s)
      ∧ (env.startupOk = true → (∃ f ∈ frames, f.asksClose = true) →
          ∃ n s, main argc argv env frames = .exit EXIT_SUCCESS n s)
      ∧ (env.startupOk = true → (∀ f ∈ frames, f.asksClose = false) →
          main argc argv env frames = .running) := by
  have hfail : env.startupOk = false → ∃ s, main argc argv env frames = .exit EXIT_FAILURE 0 s := by
    intro hb
    rcases startup_step argc argv env hwf with ⟨hb', -⟩ | ⟨-, s, hs⟩
    · rw [hb] at hb'; exact absurd hb' (by simp)
    · exact ⟨s, by simp [main, hs]⟩
  have hok : env.startupOk = true → ∃ s0, main.startup argc argv env = .ok s0 := by
    intro hb
    rcases startup_step argc argv env hwf with ⟨-, s, hs⟩ | ⟨hb', -⟩
    · exact ⟨s, hs⟩
    · rw [hb] at hb'; exact absurd hb' (by simp)
  refine ⟨⟨?_, fun hb => ?_⟩, hfail, ?_, ?_⟩
  · rintro ⟨n, s, hm⟩
    cases hb : env.startupOk with
    | false => rfl
    | true =>
      obtain ⟨s0, hs0⟩ := hok hb
      simp only [main, hs0] at hm
      cases hl : main.loop env frames 0 s0 with
      | none => simp [hl] at hm
      | some r =>
        simp only [hl, Outcome.exit.injEq] at hm
        exact absurd hm.1 (by decide)
  · obtain ⟨s, hs⟩ := hfail hb
    exact ⟨0, s, hs⟩
  · intro hb hc
    obtain ⟨s0, hs0⟩ := hok hb
    obtain ⟨n, s, hl⟩ := loop_exits env frames 0 s0 hc
    exact ⟨n, main.shutdown s, by simp [main, hs0, hl]⟩
  · intro hb hc
    obtain ⟨s0, hs0⟩ := hok hb
    have hl := loop_stays env frames 0 s0 (startup_windowShouldClose argc argv env s0 hs0) hc
    simp [main, hs0, hl]

set_option maxRecDepth 100000 in
/-- C11 in `Env.working` with Escape held in the first frame: every startup
step succeeds and `main` exits with `EXIT_SUCCESS`. -/
theorem main_exit_status_witness :
    Env.working.startupOk = true
      ∧ ∃ n s, main 0 [] Env.working [FrameInput.escape] = .exit EXIT_SUCCESS n s :=
  ⟨rfl,
    (main_exit_status 0 [] Env.working [FrameInput.escape]
      (fun _ img h => by cases h; decide)).2.2.1 rfl
      ⟨FrameInput.escape, List.mem_singleton.mpr rfl, rfl⟩⟩

/-! ## The diffuse term of the lit fragment shader -/

theorem ProcessMouseMovement_pitch (m : FloatMath) (c : Camera) (xoffset yoffset : ℚ) :
    -89 ≤ (c.ProcessMouseMovement m xoffset yoffset).Pitch
      ∧ (c.ProcessMouseMovement m xoffset yoffset).Pitch ≤ 89 := by
  simp only [Camera.ProcessMouseMovement, Camera.updateCameraVectors]
  split_ifs <;> constructor <;> linarith

theorem ProcessMouseMovement_foldl_pitch (m : FloatMath) (moves : List (ℚ × ℚ)) :
    ∀ c : Camera, -89 ≤ c.Pitch ∧ c.Pitch ≤ 89 →
      -89 ≤ (moves.foldl (fun c p => c.ProcessMouseMovement m p.1 p.2) c).Pitch
        ∧ (moves.foldl (fun c p => c.ProcessMouseMovement m p.1 p.2) c).Pitch ≤ 89 := by
  induction moves with
  | nil => intro c h; exact h
  | cons p ps ih =>
    intro c _
    exact ih _ (ProcessMouseMovement_pitch m c p.1 p.2)

theorem deliverCursor_pitch (m : FloatMath) (ps : List (ℚ × ℚ)) :
    ∀ s : App, -89 ≤ s.gCamera.Pitch ∧ s.gCamera.Pitch ≤ 89 →
      -89 ≤ (deliverCursor m s ps).gCamera.Pitch ∧ (deliverCursor m s ps).gCamera.Pitch ≤ 89 := by
  induction ps with
  | nil => intro s h; exact h
  | cons p ps ih =>
    intro s _
    exact ih _ (ProcessMouseMovement_pitch m _ _ _)

/-- C22: after every sequence of `ProcessMouseMovement` calls from the initial
camera, and after every sequence of cursor positions delivered to
`UMousePositionCallback` from the initial state, the pitch lies in [-89, 89];
one call brings the pitch into [-89, 89] from any camera, whatever the
offsets. -/
theorem ProcessMouseMovement_pitch_within_bounds (m : FloatMath) :
    (∀ moves : List (ℚ × ℚ),
        -89 ≤ (moves.foldl (fun c p => c.ProcessMouseMovement m p.1 p.2)
            (Camera.create ⟨0, 0, 5⟩)).Pitch
          ∧ (moves.foldl (fun c p => c.ProcessMouseMovement m p.1 p.2)
            (Camera.create ⟨0, 0, 5⟩)).Pitch ≤ 89)
      ∧ (∀ ps : List (ℚ × ℚ),
        -89 ≤ (deliverCursor m App.initial ps).gCamera.Pitch
          ∧ (deliverCursor m App.initial ps).gCamera.Pitch ≤ 89)
      ∧ (∀ (c : Camera) (xoffset yoffset : ℚ),
        -89 ≤ (c.ProcessMouseMovement m xoffset yoffset).Pitch
          ∧ (c.ProcessMouseMovement m xoffset yoffset).Pitch ≤ 89)
      ∧ (∀ (s : App) (xpos ypos : ℚ),
        -89 ≤ (UMousePositionCallback m xpos ypos s).gCamera.Pitch
          ∧ (UMousePositionCallback m xpos ypos s).gCamera.Pitch ≤ 89) := by
  have h0 : (-89 : ℚ) ≤ (Camera.create ⟨0, 0, 5⟩).Pitch ∧ (Camera.create ⟨0, 0, 5⟩).Pitch ≤ 89 := by
    simp only [Camera.create]; norm_num
  refine ⟨fun moves => ProcessMouseMovement_foldl_pitch m moves _ h0,
    fun ps => deliverCursor_pitch m ps _ h0, ProcessMouseMovement_pitch m, ?_⟩
  intro s xpos ypos
  exact ProcessMouseMovement_pitch m _ _ _

theorem ProcessMouseScroll_zoom (c : Camera) (yoffset : ℚ) :
    1 ≤ (c.ProcessMouseScroll yoffset).Zoom ∧ (c.ProcessMouseScroll yoffset).Zoom ≤ 45 := by
  simp only [Camera.ProcessMouseScroll]
  split_ifs <;> constructor <;> linarith

theorem ProcessMouseScroll_foldl (scrolls : List ℚ) :
    ∀ c : Camera, 1 ≤ c.Zoom ∧ c.Zoom ≤ 45 →
      (1 ≤ (scrolls.foldl Camera.ProcessMouseScroll c).Zoom
        ∧ (scrolls.foldl Camera.ProcessMouseScroll c).Zoom ≤ 45)
      ∧ scrolls.foldl Camera.ProcessMouseScroll c
          = { c with Zoom := (scrolls.foldl Camera.ProcessMouseScroll c).Zoom } := by
  induction scrolls with
  | nil => intro c h; exact ⟨h, rfl⟩
  | cons y ys ih =>
    intro c _
    obtain ⟨h1, h2⟩ := ih (c.ProcessMouseScroll y) (ProcessMouseScroll_zoom c y)
    refine ⟨h1, ?_⟩
    simp only [List.foldl_cons] at h2 ⊢
    rw [h2]
    rfl

/-- C23: after every sequence of `ProcessMouseScroll` calls from the initial
camera, and after every sequence of scroll events delivered to
`UMouseScrollCallback` from the initial state, `Zoom` lies in [1, 45] and every
other camera field is the initial one; one call brings `Zoom` into [1, 45] from
any camera and changes no field but `Zoom`, and the callback changes nothing
but the camera. -/
theorem ProcessMouseScroll_zoom_within_bounds :
    (∀ scrolls : List ℚ,
        (1 ≤ (scrolls.foldl Camera.ProcessMouseScroll (Camera.create ⟨0, 0, 5⟩)).Zoom
          ∧ (scrolls.foldl Camera.ProcessMouseScroll (Camera.create ⟨0, 0, 5⟩)).Zoom ≤ 45)
        ∧ scrolls.foldl Camera.ProcessMouseScroll (Camera.create ⟨0, 0, 5⟩)
            = { Camera.create ⟨0, 0, 5⟩ with
                Zoom := (scrolls.foldl Camera.ProcessMouseScroll (Camera.create ⟨0, 0, 5⟩)).Zoom })
      ∧ (∀ scrolls : List (ℚ × ℚ),
        (1 ≤ (scrolls.foldl (fun s p => UMouseScrollCallback p.1 p.2 s) App.initial).gCamera.Zoom
          ∧ (scrolls.foldl (fun s p => UMouseScrollCallback p.1 p.2 s) App.initial).gCamera.Zoom
              ≤ 45)
        ∧ scrolls.foldl (fun s p => UMouseScrollCallback p.1 p.2 s) App.initial
            = { App.initial with
                gCamera := { Camera.create ⟨0, 0, 5⟩ with
                  Zoom := (scrolls.foldl (fun s p => UMouseScrollCallback p.1 p.2 s)
                    App.initial).gCamera.Zoom } })
      ∧ (∀ (c : Camera) (yoffset : ℚ),
        (1 ≤ (c.ProcessMouseScroll yoffset).Zoom ∧ (c.ProcessMouseScroll yoffset).Zoom ≤ 45)
          ∧ c.ProcessMouseScroll yoffset = { c with Zoom := (c.ProcessMouseScroll yoffset).Zoom })
      ∧ (∀ (s : App) (xoffset yoffset : ℚ),
        UMouseScrollCallback xoffset yoffset s
          = { s with gCamera := { s.gCamera with
                Zoom := (s.gCamera.ProcessMouseScroll yoffset).Zoom } }) := by
  have h0 : (1 : ℚ) ≤ (Camera.create ⟨0, 0, 5⟩).Zoom ∧ (Camera.create ⟨0, 0, 5⟩).Zoom ≤ 45 := by
    simp only [Camera.create]; norm_num
  refine ⟨fun scrolls => ProcessMouseScroll_foldl scrolls _ h0, ?_,
    fun c y => ⟨ProcessMouseScroll_zoom c y, rfl⟩, fun _ _ _ => rfl⟩
  intro scrolls
  have key : scrolls.foldl (fun s p => UMouseScrollCallback p.1 p.2 s) App.initial
      = { App.initial with
          gCamera := (scrolls.map Prod.snd).foldl Camera.ProcessMouseScroll
            (Camera.create ⟨0, 0, 5⟩) } := by
    have gen : ∀ s : App, scrolls.foldl (fun s p => UMouseScrollCallback p.1 p.2 s) s
        = { s with
            gCamera := (scrolls.map Prod.snd).foldl Camera.ProcessMouseScroll s.gCamera } := by
      induction scrolls with
      | nil => intro s; rfl
      | cons p ps ih =>
        intro s
        simp only [List.foldl_cons, List.map_cons]
        rw [ih]
        rfl
    exact gen App.initial
  obtain ⟨h1, h2⟩ := ProcessMouseScroll_foldl (scrolls.map Prod.snd) _ h0
  rw [key]
  exact ⟨h1, congrArg (fun c : Camera => ({ App.initial with gCamera := c } : App)) h2⟩

/-! ## The meshes and `gUVScale` stay as startup leaves them -/

set_option maxRecDepth 100000 in
theorem UCreateAllMeshes_assets :
    (UCreateAllMeshes App.initial).assets
      = (⟨5, 5⟩,
          [⟨1, (1, 2), 6, 4⟩, ⟨2, (3, 4), 36, 24⟩, ⟨3, (5, 0), 0, 0⟩, ⟨4, (6, 7), 36, 24⟩,
           ⟨5, (8, 9), 36, 24⟩, ⟨6, (10, 11), 36, 24⟩, ⟨7, (12, 0), 0, 0⟩,
           ⟨8, (13, 14), 36, 24⟩]) := by
  rfl

theorem startup_assets (argc : Int) (argv : List String) (env : Env) (s : App)
    (h : main.startup argc argv env = .ok s) :
    s.assets = (UCreateAllMeshes App.initial).assets := by
  simp only [main.startup, bind_eq_ok] at h
  obtain ⟨s1, h1, s3, h3, s4, h4, s5, h5, s6, h6, s7, h7, s8, h8, s9, h9, s10, h10, s11, h11,
    h⟩ := h
  have hi : (UInitialize env argc argv App.initial).1 = true := by
    cases hb : (UInitialize env argc argv App.initial).1 <;> simp [hb] at h1 ⊢
  simp only [hi, Bool.not_true, Bool.false_eq_true, if_false, Except.ok.injEq,
    UInitialize_ok env argc argv App.initial hi] at h1
  obtain ⟨g3, id3, rfl, -⟩ := createProgram_ok _ _ _ _ _ _ _ h3
  obtain ⟨g4, id4, rfl, -⟩ := createProgram_ok _ _ _ _ _ _ _ h4
  obtain ⟨g5, rfl, -⟩ := loadTexture_ok _ _ _ _ _ _ _ h5
  obtain ⟨g6, rfl, -⟩ := loadTexture_ok _ _ _ _ _ _ _ h6
  obtain ⟨g7, rfl, -⟩ := loadTexture_ok _ _ _ _ _ _ _ h7
  obtain ⟨g8, rfl, -⟩ := loadTexture_ok _ _ _ _ _ _ _ h8
  obtain ⟨g9, rfl, -⟩ := loadTexture_ok _ _ _ _ _ _ _ h9
  obtain ⟨g10, rfl, -⟩ := loadTexture_ok _ _ _ _ _ _ _ h10
  obtain ⟨g11, rfl, -⟩ := loadTexture_ok _ _ _ _ _ _ _ h11
  simp only [pure, Except.pure, Except.ok.injEq] at h
  subst h
  show (UCreateAllMeshes s1).assets = _
  rw [← h1]
  rfl

theorem UProcessInput_assets (glfwGetKey : Int → Int) (s : App) :
    (UProcessInput glfwGetKey s).assets = s.assets := by
  rw [UProcessInput_eq]
  rfl

theorem key_callback_assets (key scancode action mods : Int) (s : App) :
    (key_callback key scancode action mods s).assets = s.assets := by
  unfold key_callback
  split <;> rfl

theorem UMousePositionCallback_assets (m : FloatMath) (xpos ypos : ℚ) (s : App) :
    (UMousePositionCallback m xpos ypos s).assets = s.assets := by
  unfold UMousePositionCallback
  cases s.gFirstMouse <;> rfl

theorem dispatchEvent_assets (env : Env) (s : App) (e : Event) :
    (dispatchEvent env s e).assets = s.assets := by
  cases e with
  | key k sc a m => exact key_callback_assets k sc a m s
  | cursorPos x y => exact UMousePositionCallback_assets env.math x y s
  | scroll x y => rfl
  | framebufferSize w h => rfl
  | close => rfl

theorem glfwPollEvents_assets (env : Env) (events : List Event) (s : App) :
    (glfwPollEvents env events s).assets = s.assets := by
  induction events generalizing s with
  | nil => rfl
  | cons e rest ih =>
    have h := ih (dispatchEvent env s e)
    rw [dispatchEvent_assets] at h
    simpa [glfwPollEvents] using h

theorem frame_assets (env : Env) (f : FrameInput) (s : App) :
    (main.frame env f s).assets = s.assets := by
  simp only [main.frame, glfwPollEvents_assets]
  exact (UProcessInput_assets f.keys _)

theorem runFrames_assets (env : Env) (s : App) (frames : List FrameInput) :
    (runFrames env s frames).assets = s.assets := by
  induction frames generalizing s with
  | nil => rfl
  | cons f rest ih =>
    have h := ih (main.frame env f s)
    rw [frame_assets] at h
    simpa [runFrames] using h

theorem reachable_assets (argc : Int) (argv : List String) (env : Env) (s0 : App)
    (frames : List FrameInput) (h : main.startup argc argv env = .ok s0) :
    (runFrames env s0 frames).gUVScale = ⟨5, 5⟩
      ∧ (runFrames env s0 frames).gMeshFloor = ⟨1, (1, 2), 6, 4⟩
      ∧ (runFrames env s0 frames).gMeshPlaystation = ⟨2, (3, 4), 36, 24⟩
      ∧ (runFrames env s0 frames).gMeshPlaystationCylinder = ⟨3, (5, 0), 0, 0⟩
      ∧ (runFrames env s0 frames).gMeshGB = ⟨4, (6, 7), 36, 24⟩
      ∧ (runFrames env s0 frames).gMeshDK = ⟨5, (8, 9), 36, 24⟩
      ∧ (runFrames env s0 frames).gMeshRedAlert = ⟨6, (10, 11), 36, 24⟩
      ∧ (runFrames env s0 frames).gMeshSpiderman = ⟨7, (12, 0), 0, 0⟩
      ∧ (runFrames env s0 frames).gMeshLightSource = ⟨8, (13, 14), 36, 24⟩ := by
  have h1 := runFrames_assets env s0 frames
  rw [startup_assets argc argv env s0 h, UCreateAllMeshes_assets] at h1
  simp only [App.assets, App.meshes, Prod.mk.injEq, List.cons.injEq, and_true] at h1
  obtain ⟨a, b, c, d, e, f, g, i, j⟩ := h1
  exact ⟨a, b, c, d, e, f, g, i, j⟩

/-! ## The uv-scale at the lit draws -/

/-- C24: in every frame of a run whose startup succeeded, each draw call of
each of the seven lit sections sees the entry's own value of `uvScale`:
(4.24305, 4.24305) floor, 0.986171 PlayStation body, 1.00998 PlayStation
cylinder, 1.02017 Game Boy, 0.97998 Donkey Kong, 0.987171 Red Alert, 0.989171
Spiderman, on both axes. The global `gUVScale` is (5, 5); it is the first of
the eight `uvScale` uploads of the frame, the floor's own value is uploaded
after it and before the first draw, and no draw sees (5, 5). -/
theorem URender_uvScale_is_entry_scale (argc : Int) (argv : List String) (env : Env)
    (s0 : App) (frames : List FrameInput) (isPerspectiveView : Bool)
    (h : main.startup argc argv env = .ok s0) :
    (∀ (e : Entry) (k : Fin e.drawCount),
        ∃ d, (URender.draws isPerspectiveView (runFrames env s0 frames))[e.firstDraw + k.val]?
            = some d
          ∧ d.uniform .uvScale = some (.vec2 e.uvScale)
          ∧ d.uniform .uvScale ≠ some (.vec2 ⟨5, 5⟩))
      ∧ [Entry.floor, .playstationBody, .playstationCylinder, .gameBoy, .donkeyKong, .redAlert,
          .spiderman].map Entry.uvScale
        = [⟨4.24305, 4.24305⟩, ⟨0.986171, 0.986171⟩, ⟨1.00998, 1.00998⟩, ⟨1.02017, 1.02017⟩,
            ⟨0.97998, 0.97998⟩, ⟨0.987171, 0.987171⟩, ⟨0.989171, 0.989171⟩]
      ∧ (runFrames env s0 frames).gUVScale = ⟨5, 5⟩
      ∧ (URender.calls isPerspectiveView (runFrames env s0 frames)).filterMap GLCmd.uvScale?
        = [⟨5, 5⟩, ⟨4.24305, 4.24305⟩, ⟨0.986171, 0.986171⟩, ⟨1.00998, 1.00998⟩,
            ⟨1.02017, 1.02017⟩, ⟨0.97998, 0.97998⟩, ⟨0.987171, 0.987171⟩, ⟨0.989171, 0.989171⟩]
      ∧ ((URender.calls isPerspectiveView (runFrames env s0 frames)).filter
            fun c => c.isDraw || c.uvScale?.isSome).take 3
        = [.uniform2fv (glGetUniformLocation (runFrames env s0 frames).gProgramId .uvScale) ⟨5, 5⟩,
            .uniform2fv (glGetUniformLocation (runFrames env s0 frames).gProgramId .uvScale)
              ⟨4.24305, 4.24305⟩,
            .drawElements .GL_TRIANGLES 6] := by
  obtain ⟨hu, hf, -⟩ := reachable_assets argc argv env s0 frames h
  refine ⟨?_, rfl, hu, ?_, ?_⟩
  · intro e k
    obtain ⟨d, hd, hs⟩ := lit_draw_at isPerspectiveView (runFrames env s0 frames) e k
    have h1 : d.uniform .uvScale = some (.vec2 e.uvScale) := congrArg DrawShading.uvScale hs
    refine ⟨d, hd, h1, ?_⟩
    rw [h1]
    cases e <;> simp [Entry.uvScale] <;> norm_num
  · have : (URender.calls isPerspectiveView (runFrames env s0 frames)).filterMap GLCmd.uvScale?
        = [(runFrames env s0 frames).gUVScale, ⟨4.24305, 4.24305⟩, ⟨0.986171, 0.986171⟩,
            ⟨1.00998, 1.00998⟩, ⟨1.02017, 1.02017⟩, ⟨0.97998, 0.97998⟩, ⟨0.987171, 0.987171⟩,
            ⟨0.989171, 0.989171⟩] := rfl
    rw [this, hu]
  · have : ((URender.calls isPerspectiveView (runFrames env s0 frames)).filter
            fun c => c.isDraw || c.uvScale?.isSome).take 3
        = [.uniform2fv (glGetUniformLocation (runFrames env s0 frames).gProgramId .uvScale)
              (runFrames env s0 frames).gUVScale,
            .uniform2fv (glGetUniformLocation (runFrames env s0 frames).gProgramId .uvScale)
              ⟨4.24305, 4.24305⟩,
            .drawElements .GL_TRIANGLES (runFrames env s0 frames).gMeshFloor.nIndices] := rfl
    rw [this, hu, hf]

/-- C24 on the run in `Env.working`, in the frame after one frame with Escape
held: the eight uploads of `uvScale`, the global (5, 5) first. -/
theorem URender_uvScale_is_entry_scale_witness :
    main.startup 0 [] Env.working = .ok App.started
      ∧ (URender.calls true (runFrames Env.working App.started [FrameInput.escape])).filterMap
          GLCmd.uvScale?
        = [⟨5, 5⟩, ⟨4.24305, 4.24305⟩, ⟨0.986171, 0.986171⟩, ⟨1.00998, 1.00998⟩,
            ⟨1.02017, 1.02017⟩, ⟨0.97998, 0.97998⟩, ⟨0.987171, 0.987171⟩, ⟨0.989171, 0.989171⟩] :=
  ⟨rfl,
    (URender_uvScale_is_entry_scale 0 [] Env.working App.started [FrameInput.escape] true
      rfl).2.2.2.1⟩

/-! ## The vertex ranges of the cylinder draws -/

theorem draw_call_vao (b : Bool) (s : App) (i : Nat) (c : GLCmd) (v : Nat)
    (h : ((URender.draws b s).map Draw.transforms)[i]?.map (fun t => (t.call, t.vao))
      = some (c, v)) :
    ∃ d, (URender.draws b s)[i]? = some d ∧ d.vao = v ∧ d.call = c := by
  rw [List.getElem?_map] at h
  cases hd : (URender.draws b s)[i]? with
  | none => simp [hd] at h
  | some d =>
    simp only [hd, Option.map_some', Option.some.injEq, Prod.mk.injEq] at h
    exact ⟨d, rfl, h.2, h.1⟩

set_option maxRecDepth 100000 in
/-- C26: the cube has 24 vertices of eight floats. The four vertices of the
left face, 8 to 11, have x = -0.5 and carry the normal (1, 0, 0), not the
(-1, 0, 0) their comment names: their position along the axis of the normal is
-0.5 times the sign of the normal. Each of the other twenty vertices carries
the normal its comment names, and its position along the axis of the normal is
0.5 times the sign of the normal. -/
theorem UCreateCube_left_face_normal :
    UCreateCube.verts.length = 24 * floatsPerRow
      ∧ (∀ i ∈ [8, 9, 10, 11],
          (UCreateCube.position i).x = -0.5
            ∧ UCreateCube.normal i = ⟨1, 0, 0⟩
            ∧ UCreateCube.commentNormal i = ⟨-1, 0, 0⟩
            ∧ UCreateCube.normal i ≠ UCreateCube.commentNormal i
            ∧ (UCreateCube.position i).dot (UCreateCube.normal i) = -0.5)
      ∧ (∀ i ∈ [0, 1, 2, 3, 4, 5, 6, 7, 12, 13, 14, 15, 16, 17, 18, 19, 20, 21, 22, 23],
          UCreateCube.normal i = UCreateCube.commentNormal i
            ∧ (UCreateCube.position i).dot (UCreateCube.normal i) = 0.5) := by
  refine ⟨rfl, ?_, ?_⟩
  · intro i hi
    simp only [List.mem_cons, List.mem_singleton, List.not_mem_nil, or_false] at hi
    rcases hi with rfl | rfl | rfl | rfl
    · rw [show UCreateCube.position 8 = ⟨-0.5, 0.5, -0.5⟩ from rfl,
        show UCreateCube.normal 8 = ⟨1, 0, 0⟩ from rfl,
        show UCreateCube.commentNormal 8 = ⟨-1, 0, 0⟩ from rfl]
      norm_num [Vec3.dot]
    · rw [show UCreateCube.position 9 = ⟨-0.5, -0.5, -0.5⟩ from rfl,
        show UCreateCube.normal 9 = ⟨1, 0, 0⟩ from rfl,
        show UCreateCube.commentNormal 9 = ⟨-1, 0, 0⟩ from rfl]
      norm_num [Vec3.dot]
    · rw [show UCreateCube.position 10 = ⟨-0.5, -0.5, 0.5⟩ from rfl,
        show UCreateCube.normal 10 = ⟨1, 0, 0⟩ from rfl,
        show UCreateCube.commentNormal 10 = ⟨-1, 0, 0⟩ from rfl]
      norm_num [Vec3.dot]
    · rw [show UCreateCube.position 11 = ⟨-0.5, 0.5, 0.5⟩ from rfl,
        show UCreateCube.normal 11 = ⟨1, 0, 0⟩ from rfl,
        show UCreateCube.commentNormal 11 = ⟨-1, 0, 0⟩ from rfl]
      norm_num [Vec3.dot]
  · intro i hi
    simp only [List.mem_cons, List.mem_singleton, List.not_mem_nil, or_false] at hi
    rcases hi with rfl | rfl | rfl | rfl | rfl | rfl | rfl | rfl | rfl | rfl | rfl | rfl | rfl | rfl
      | rfl | rfl | rfl | rfl | rfl | rfl
    · rw [show UCreateCube.position 0 = ⟨0.5, 0.5, -0.5⟩ from rfl,
        show UCreateCube.normal 0 = ⟨0, 0, -1⟩ from rfl,
        show UCreateCube.commentNormal 0 = ⟨0, 0, -1⟩ from rfl]
      norm_num [Vec3.dot]
    · rw [show UCreateCube.position 1 = ⟨0.5, -0.5, -0.5⟩ from rfl,
        show UCreateCube.normal 1 = ⟨0, 0, -1⟩ from rfl,
        show UCreateCube.commentNormal 1 = ⟨0, 0, -1⟩ from rfl]
      norm_num [Vec3.dot]
    · rw [show UCreateCube.position 2 = ⟨-0.5, -0.5, -0.5⟩ from rfl,
        show UCreateCube.normal 2 = ⟨0, 0, -1⟩ from rfl,
        show UCreateCube.commentNormal 2 = ⟨0, 0, -1⟩ from rfl]
      norm_num [Vec3.dot]
    · rw [show UCreateCube.position 3 = ⟨-0.5, 0.5, -0.5⟩ from rfl,
        show UCreateCube.normal 3 = ⟨0, 0, -1⟩ from rfl,
        show UCreateCube.commentNormal 3 = ⟨0, 0, -1⟩ from rfl]
      norm_num [Vec3.dot]
    · rw [show UCreateCube.position 4 = ⟨-0.5, -0.5, 0.5⟩ from rfl,
        show UCreateCube.normal 4 = ⟨0, -1, 0⟩ from rfl,
        show UCreateCube.commentNormal 4 = ⟨0, -1, 0⟩ from rfl]
      norm_num [Vec3.dot]
    · rw [show UCreateCube.position 5 = ⟨-0.5, -0.5, -0.5⟩ from rfl,
        show UCreateCube.normal 5 = ⟨0, -1, 0⟩ from rfl,
        show UCreateCube.commentNormal 5 = ⟨0, -1, 0⟩ from rfl]
      norm_num [Vec3.dot]
    · rw [show UCreateCube.position 6 = ⟨0.5, -0.5, -0.5⟩ from rfl,
        show UCreateCube.normal 6 = ⟨0, -1, 0⟩ from rfl,
        show UCreateCube.commentNormal 6 = ⟨0, -1, 0⟩ from rfl]
      norm_num [Vec3.dot]
    · rw [show UCreateCube.position 7 = ⟨0.5, -0.5, 0.5⟩ from rfl,
        show UCreateCube.normal 7 = ⟨0, -1, 0⟩ from rfl,
        show UCreateCube.commentNormal 7 = ⟨0, -1, 0⟩ from rfl]
      norm_num [Vec3.dot]
    · rw [show UCreateCube.position 12 = ⟨0.5, 0.5, 0.5⟩ from rfl,
        show UCreateCube.normal 12 = ⟨1, 0, 0⟩ from rfl,
        show UCreateCube.commentNormal 12 = ⟨1, 0, 0⟩ from rfl]
      norm_num [Vec3.dot]
    · rw [show UCreateCube.position 13 = ⟨0.5, -0.5, 0.5⟩ from rfl,
        show UCreateCube.normal 13 = ⟨1, 0, 0⟩ from rfl,
        show UCreateCube.commentNormal 13 = ⟨1, 0, 0⟩ from rfl]
      norm_num [Vec3.dot]
    · rw [show UCreateCube.position 14 = ⟨0.5, -0.5, -0.5⟩ from rfl,
        show UCreateCube.normal 14 = ⟨1, 0, 0⟩ from rfl,
        show UCreateCube.commentNormal 14 = ⟨1, 0, 0⟩ from rfl]
      norm_num [Vec3.dot]
    · rw [show UCreateCube.position 15 = ⟨0.5, 0.5, -0.5⟩ from rfl,
        show UCreateCube.normal 15 = ⟨1, 0, 0⟩ from rfl,
        show UCreateCube.commentNormal 15 = ⟨1, 0, 0⟩ from rfl]
      norm_num [Vec3.dot]
    · rw [show UCreateCube.position 16 = ⟨-0.5, 0.5, -0.5⟩ from rfl,
        show UCreateCube.normal 16 = ⟨0, 1, 0⟩ from rfl,
        show UCreateCube.commentNormal 16 = ⟨0, 1, 0⟩ from rfl]
      norm_num [Vec3.dot]
    · rw [show UCreateCube.position 17 = ⟨-0.5, 0.5, 0.5⟩ from rfl,
        show UCreateCube.normal 17 = ⟨0, 1, 0⟩ from rfl,
        show UCreateCube.commentNormal 17 = ⟨0, 1, 0⟩ from rfl]
      norm_num [Vec3.dot]
    · rw [show UCreateCube.position 18 = ⟨0.5, 0.5, 0.5⟩ from rfl,
        show UCreateCube.normal 18 = ⟨0, 1, 0⟩ from rfl,
        show UCreateCube.commentNormal 18 = ⟨0, 1, 0⟩ from rfl]
      norm_num [Vec3.dot]
    · rw [show UCreateCube.position 19 = ⟨0.5, 0.5, -0.5⟩ from rfl,
        show UCreateCube.normal 19 = ⟨0, 1, 0⟩ from rfl,
        show UCreateCube.commentNormal 19 = ⟨0, 1, 0⟩ from rfl]
      norm_num [Vec3.dot]
    · rw [show UCreateCube.position 20 = ⟨-0.5, 0.5, 0.5⟩ from rfl,
        show UCreateCube.normal 20 = ⟨0, 0, 1⟩ from rfl,
        show UCreateCube.commentNormal 20 = ⟨0, 0, 1⟩ from rfl]
      norm_num [Vec3.dot]
    · rw [show UCreateCube.position 21 = ⟨-0.5, -0.5, 0.5⟩ from rfl,
        show UCreateCube.normal 21 = ⟨0, 0, 1⟩ from rfl,
        show UCreateCube.commentNormal 21 = ⟨0, 0, 1⟩ from rfl]
      norm_num [Vec3.dot]
    · rw [show UCreateCube.position 22 = ⟨0.5, -0.5, 0.5⟩ from rfl,
        show UCreateCube.normal 22 = ⟨0, 0, 1⟩ from rfl,
        show UCreateCube.commentNormal 22 = ⟨0, 0, 1⟩ from rfl]
      norm_num [Vec3.dot]
    · rw [show UCreateCube.position 23 = ⟨0.5, 0.5, 0.5⟩ from rfl,
        show UCreateCube.normal 23 = ⟨0, 0, 1⟩ from rfl,
        show UCreateCube.commentNormal 23 = ⟨0, 0, 1⟩ from rfl]
      norm_num [Vec3.dot]

/-! ## `flipImageVertically` twice -/

theorem swap_perm (l : List UInt8) (i j : Nat) (hi : i < l.length) (hj : j < l.length) :
    ((l.set i l[j]).set j l[i]).Perm l := by
  by_cases hij : i = j
  · subst hij
    have e : l.set i l[i] = l := by
      apply List.ext_getElem?
      intro n
      simp only [List.getElem?_set]
      by_cases hn : i = n
      · subst hn
        simp [hi, List.getElem?_eq_getElem hi]
      · simp [hn]
    simp only [e]
    exact List.Perm.refl _
  · rw [List.perm_iff_count]
    intro a
    have hj2 : j < (l.set i l[j]).length := by simpa using hj
    rw [List.count_set _ _ _ _ hj2, List.count_set _ _ _ _ hi]
    have e : (l.set i l[j])[j] = l[j] := by
      rw [List.getElem_set_ne hij]
    rw [e]
    have h1 := List.boole_getElem_le_count a l i hi
    have h2 := List.boole_getElem_le_count a l j hj
    split_ifs at h1 h2 ⊢ <;> omega

theorem row_perm (t : Nat) :
    ∀ (image : List UInt8) (index1 index2 : Int) (out : List UInt8),
      flipImageVertically.row image index1 index2 t = some out → out.Perm image := by
  induction t with
  | zero =>
    intro image index1 index2 out h
    simp only [flipImageVertically.row, Option.some.injEq] at h
    subst h
    exact List.Perm.refl _
  | succ t ih =>
    intro image index1 index2 out h
    simp only [flipImageVertically.row] at h
    split at h
    · split at h
      · rename_i tmp b h1 h2
        obtain ⟨hi, rfl⟩ := List.getElem?_eq_some_iff.mp h1
        obtain ⟨hj, rfl⟩ := List.getElem?_eq_some_iff.mp h2
        exact (ih _ _ _ _ h).trans (swap_perm image _ _ hi hj)
      · exact absurd h (by simp)
    · exact absurd h (by simp)

theorem rows_perm (width height channels : Int) (n : Nat) :
    ∀ (image : List UInt8) (j : Int) (out : List UInt8),
      flipImageVertically.rows image width height channels j n = some out → out.Perm image := by
  induction n with
  | zero =>
    intro image j out h
    simp only [flipImageVertically.rows, Option.some.injEq] at h
    subst h
    exact List.Perm.refl _
  | succ n ih =>
    intro image j out h
    simp only [flipImageVertically.rows] at h
    split at h
    · rename_i img1 h1
      exact (ih _ _ _ h).trans (row_perm _ _ _ _ _ h1)
    · exact absurd h (by simp)

theorem flipImageVertically_twice (image : List UInt8) (w h c : Nat)
    (hlen : image.length = h * (w * c)) :
    ∃ out, flipImageVertically image (w : Int) (h : Int) (c : Int) = some out
      ∧ flipImageVertically out (w : Int) (h : Int) (c : Int) = some image
      ∧ out.length = image.length := by
  obtain ⟨out, hout, hl, hrows⟩ := flipImageVertically_spec image w h c hlen
  obtain ⟨out2, hout2, hl2, hrows2⟩ := flipImageVertically_spec out w h c (hl.trans hlen)
  refine ⟨out, hout, ?_, hl⟩
  rw [hout2]
  congr 1
  apply List.ext_getElem?
  intro p
  by_cases hp : p < h * (w * c)
  · have hn : 0 < w * c := by
      rcases Nat.eq_zero_or_pos (w * c) with h0 | h0
      · rw [h0] at hp; omega
      · exact h0
    have hk : p % (w * c) < w * c := Nat.mod_lt _ hn
    have hr : p / (w * c) < h := by
      rw [Nat.div_lt_iff_lt_mul hn]
      exact hp
    have hp' : p / (w * c) * (w * c) + p % (w * c) = p := Nat.div_add_mod' p (w * c)
    have key : ∀ r k, r < h → k < w * c → r * (w * c) + k = p → out2[p]? = image[p]? := by
      intro r k hr hk hp'
      have e5 : h - 1 - (h - 1 - r) = r := by omega
      have h2 := hrows2 r k hr hk
      rw [hrows (h - 1 - r) k (by omega) hk, e5, hp'] at h2
      exact h2
    exact key (p / (w * c)) (p % (w * c)) hr hk hp'
  · rw [List.getElem?_eq_none (by omega), List.getElem?_eq_none (by omega)]

/-! ## `flipImageVertically` on 32-bit `int` -/

theorem intResult_natCast (n : Nat) (h : (n : Int) ≤ INT_MAX) :
    intResult (n : Int) = .ok (n : Int) := by
  have h0 : INT_MIN ≤ (n : Int) := le_trans (by norm_num [INT_MIN]) (Int.ofNat_nonneg n)
  unfold intResult
  rw [if_pos ⟨h0, h⟩]

theorem checked_row_spec (t : Nat) :
    ∀ (image : List UInt8) (log : List Int) (i1 i2 : Nat), i1 + t ≤ i2 →
      i2 + t ≤ image.length → (image.length : Int) ≤ INT_MAX →
      ∃ out log', flipImageVertically.checked.row image log (i1 : Int) (i2 : Int) t
            = .ok (out, log ++ log')
        ∧ flipImageVertically.row image (i1 : Int) (i2 : Int) t = some out
        ∧ out.length = image.length
        ∧ (∀ p ∈ log', 0 ≤ p ∧ p < (image.length : Int))
        ∧ (t = 0 → log' = [] ∧ out = image) := by
  induction t with
  | zero =>
    intro image log i1 i2 _ _ _
    exact ⟨image, [], by simp [flipImageVertically.checked.row], rfl, rfl, by simp,
      fun _ => ⟨rfl, rfl⟩⟩
  | succ t ih =>
    intro image log i1 i2 h12 h2 hmax
    have hl1 : i1 < image.length := by omega
    have hl2 : i2 < image.length := by omega
    obtain ⟨out, log', hout, hrow, hlen, hlog, -⟩ :=
      ih ((image.set i1 image[i2]).set i2 image[i1]) (log ++ [(i1 : Int), i2, i1, i2])
        (i1 + 1) (i2 + 1) (by omega) (by simp only [List.length_set]; omega)
        (by simpa only [List.length_set] using hmax)
    have e1 : ((i1 : Int) + 1) = ((i1 + 1 : Nat) : Int) := by push_cast; rfl
    have e2 : ((i2 : Int) + 1) = ((i2 + 1 : Nat) : Int) := by push_cast; rfl
    have r1 : intResult ((i1 + 1 : Nat) : Int) = .ok ((i1 + 1 : Nat) : Int) :=
      intResult_natCast _ (by have : ((i1 + 1 : Nat) : Int) ≤ (image.length : Int) := by
                                exact_mod_cast (show i1 + 1 ≤ image.length by omega)
                              omega)
    have r2 : intResult ((i2 + 1 : Nat) : Int) = .ok ((i2 + 1 : Nat) : Int) :=
      intResult_natCast _ (by have : ((i2 + 1 : Nat) : Int) ≤ (image.length : Int) := by
                                exact_mod_cast (show i2 + 1 ≤ image.length by omega)
                              omega)
    have n1 : (0 : Int) ≤ (i1 : Int) := Int.ofNat_nonneg i1
    have n2 : (0 : Int) ≤ (i2 : Int) := Int.ofNat_nonneg i2
    refine ⟨out, [(i1 : Int), i2, i1, i2] ++ log', ?_, ?_, ?_, ?_, ?_⟩
    · simp only [flipImageVertically.checked.row, n1, n2, and_self, if_true, Int.toNat_ofNat,
        List.getElem?_eq_getElem hl1, List.getElem?_eq_getElem hl2, e1, e2, r1, r2]
      simp only [bind, Except.bind]
      rw [← List.append_assoc]
      exact hout
    · simp only [flipImageVertically.row, n1, n2, and_self, if_true, Int.toNat_ofNat,
        List.getElem?_eq_getElem hl1, List.getElem?_eq_getElem hl2, e1, e2]
      exact hrow
    · simpa using hlen
    · intro p hp
      simp only [List.mem_append, List.mem_cons, List.mem_singleton, List.not_mem_nil,
        or_false] at hp
      have b1 : ((i1 : Int)) < (image.length : Int) := by exact_mod_cast hl1
      have b2 : ((i2 : Int)) < (image.length : Int) := by exact_mod_cast hl2
      rcases hp with (rfl | rfl | rfl | rfl) | hp
      · exact ⟨n1, b1⟩
      · exact ⟨n2, b2⟩
      · exact ⟨n1, b1⟩
      · exact ⟨n2, b2⟩
      · simpa only [List.length_set] using hlog p hp
    · intro h0
      omega

theorem Except.ok_bind {ε α β : Type} (a : α) (f : α → Except ε β) :
    (Except.ok a >>= f) = f a := rfl

theorem intResult_le (a b : Nat) (hab : a ≤ b) (hb : (b : Int) ≤ INT_MAX) :
    intResult (a : Int) = .ok (a : Int) :=
  intResult_natCast a (le_trans (by exact_mod_cast hab) hb)

theorem checked_rows_spec (w h c : Nat) (hsize : ((h * (w * c) : Nat) : Int) ≤ INT_MAX)
    (hrowmax : (((h - 1) * w : Nat) : Int) ≤ INT_MAX) (hmax : (h : Int) ≤ INT_MAX) (m : Nat) :
    ∀ (image : List UInt8) (log : List Int) (j : Nat), 2 * (j + m) ≤ h →
      image.length = h * (w * c) →
      ∃ out log', flipImageVertically.checked.rows image log (w : Int) (h : Int) (c : Int)
            (j : Int) m = .ok (out, log ++ log')
        ∧ flipImageVertically.rows image (w : Int) (h : Int) (c : Int) (j : Int) m = some out
        ∧ out.length = image.length
        ∧ (∀ p ∈ log', 0 ≤ p ∧ p < (image.length : Int))
        ∧ ((m = 0 ∨ w * c = 0) → log' = [] ∧ out = image) := by
  induction m with
  | zero =>
    intro image log j _ _
    exact ⟨image, [], by simp [flipImageVertically.checked.rows], rfl, rfl, by simp,
      fun _ => ⟨rfl, rfl⟩⟩
  | succ m ih =>
    intro image log j hj hlen
    have r1 : intResult ((j : Int) * (w : Int)) = .ok ((j * w : Nat) : Int) := by
      rw [← Nat.cast_mul]
      exact intResult_le _ _ (Nat.mul_le_mul_right w (show j ≤ h - 1 by omega)) hrowmax
    have r2 : intResult (((j * w : Nat) : Int) * (c : Int)) = .ok ((j * (w * c) : Nat) : Int) := by
      rw [← Nat.cast_mul, Nat.mul_assoc]
      exact intResult_le _ _ (Nat.mul_le_mul_right (w * c) (show j ≤ h by omega)) hsize
    have r3 : intResult ((h : Int) - 1) = .ok ((h - 1 : Nat) : Int) := by
      have e : (h : Int) - 1 = ((h - 1 : Nat) : Int) := by omega
      rw [e]
      exact intResult_le _ _ (Nat.sub_le h 1) hmax
    have r4 : intResult (((h - 1 : Nat) : Int) - (j : Int)) = .ok ((h - 1 - j : Nat) : Int) := by
      have e : ((h - 1 : Nat) : Int) - (j : Int) = ((h - 1 - j : Nat) : Int) := by omega
      rw [e]
      exact intResult_le _ _ (show h - 1 - j ≤ h by omega) hmax
    have r5 : intResult (((h - 1 - j : Nat) : Int) * (w : Int))
        = .ok (((h - 1 - j) * w : Nat) : Int) := by
      rw [← Nat.cast_mul]
      exact intResult_le _ _ (Nat.mul_le_mul_right w (show h - 1 - j ≤ h - 1 by omega)) hrowmax
    have r6 : intResult ((((h - 1 - j) * w : Nat) : Int) * (c : Int))
        = .ok (((h - 1 - j) * (w * c) : Nat) : Int) := by
      rw [← Nat.cast_mul, Nat.mul_assoc]
      exact intResult_le _ _ (Nat.mul_le_mul_right (w * c) (show h - 1 - j ≤ h by omega)) hsize
    have r7 : intResult ((w : Int) * (c : Int)) = .ok ((w * c : Nat) : Int) := by
      rw [← Nat.cast_mul]
      refine intResult_le _ _ ?_ hsize
      exact Nat.le_mul_of_pos_left (w * c) (show 0 < h by omega)
    have r8 : intResult ((j : Int) + 1) = .ok ((j + 1 : Nat) : Int) := by
      have e : (j : Int) + 1 = ((j + 1 : Nat) : Int) := by push_cast; rfl
      rw [e]
      exact intResult_le _ _ (show j + 1 ≤ h by omega) hmax
    have e1 : (j : Int) * (w : Int) * (c : Int) = ((j * (w * c) : Nat) : Int) := by
      push_cast; ring
    have e2 : ((h : Int) - 1 - (j : Int)) * (w : Int) * (c : Int)
        = (((h - 1 - j) * (w * c) : Nat) : Int) := by
      have : ((h - 1 - j : Nat) : Int) = (h : Int) - 1 - (j : Int) := by omega
      push_cast [this]; ring
    have e3 : ((w : Int) * (c : Int)).toNat = w * c := by
      rw [← Nat.cast_mul, Int.toNat_ofNat]
    have e4 : ((j : Int) + 1) = ((j + 1 : Nat) : Int) := by push_cast; rfl
    have hrow1 : j * (w * c) + w * c ≤ (h - 1 - j) * (w * c) :=
      row_index_ge (show j < h - 1 - j by omega)
    have hrow2 : (h - 1 - j) * (w * c) + w * c ≤ image.length := by
      rw [hlen]
      have := Nat.mul_le_mul_right (w * c) (show (h - 1 - j) + 1 ≤ h by omega)
      rw [Nat.add_mul, Nat.one_mul] at this
      exact this
    obtain ⟨img1, log1, hc1, hu1, hlen1, hlog1, hz1⟩ :=
      checked_row_spec (w * c) image log (j * (w * c)) ((h - 1 - j) * (w * c)) hrow1 hrow2
        (by rw [hlen]; exact hsize)
    obtain ⟨out, log2, hc2, hu2, hlen2, hlog2, hz2⟩ :=
      ih img1 (log ++ log1) (j + 1) (by omega) (by rw [hlen1, hlen])
    refine ⟨out, log1 ++ log2, ?_, ?_, by rw [hlen2, hlen1], ?_, ?_⟩
    · simp only [flipImageVertically.checked.rows, r1, r2, r3, r4, r5, r6, r7, r8,
        Except.ok_bind, Int.toNat_ofNat, hc1]
      rw [← List.append_assoc]
      exact hc2
    · simp only [flipImageVertically.rows, e1, e2, e3, hu1, e4]
      exact hu2
    · intro p hp
      rcases List.mem_append.mp hp with hp | hp
      · exact hlog1 p hp
      · have := hlog2 p hp
        rwa [hlen1] at this
    · intro h0
      rcases h0 with h0 | h0
      · omega
      · obtain ⟨a1, a2⟩ := hz1 h0
        obtain ⟨b1, b2⟩ := hz2 (Or.inr h0)
        exact ⟨by rw [a1, b1]; rfl, by rw [b2, a2]⟩

/-- The run of `flipImageVertically` on 32-bit `int` inside its range: it ends
without a fault, leaves the buffer of the run in exact arithmetic, accesses
only indices of the buffer, and makes no access when `height` is at most 1 or
`width * channels` is 0. -/
theorem flipImageVertically_checked_of_bounds (image : List UInt8)
    (width height channels : Int) (hw : 0 ≤ width) (hh : 0 ≤ height) (hc : 0 ≤ channels)
    (hmax : height ≤ 2 ^ 31 - 1) (hsize : width * height * channels ≤ 2 ^ 31 - 1)
    (hrow : (height - 1) * width ≤ 2 ^ 31 - 1)
    (hlen : (image.length : Int) = width * height * channels) :
    ∃ out accesses,
      flipImageVertically.checked image width height channels = .ok (out, accesses)
        ∧ flipImageVertically image width height channels = some out
        ∧ out.length = image.length
        ∧ (∀ p ∈ accesses, 0 ≤ p ∧ p < width * height * channels)
        ∧ ((height ≤ 1 ∨ width * channels = 0) → accesses = [] ∧ out = image) := by
  have hI : INT_MAX = 2 ^ 31 - 1 := by norm_num [INT_MAX]
  rw [← hI] at hmax hsize hrow
  lift width to ℕ using hw
  lift height to ℕ using hh
  lift channels to ℕ using hc
  have hlen' : image.length = height * (width * channels) := by
    have : (image.length : Int) = ((height * (width * channels) : Nat) : Int) := by
      rw [hlen]; push_cast; ring
    exact_mod_cast this
  have hsize' : ((height * (width * channels) : Nat) : Int) ≤ INT_MAX := by
    have : ((height * (width * channels) : Nat) : Int)
        = (width : Int) * (height : Int) * (channels : Int) := by push_cast; ring
    rw [this]; exact hsize
  have hrow' : (((height - 1) * width : Nat) : Int) ≤ INT_MAX := by
    rcases Nat.eq_zero_or_pos height with h0 | h0
    · subst h0
      simp only [Nat.zero_sub, Nat.zero_mul, Nat.cast_zero]
      norm_num [INT_MAX]
    · have : (((height - 1) * width : Nat) : Int) = ((height : Int) - 1) * (width : Int) := by
        have e : ((height - 1 : Nat) : Int) = (height : Int) - 1 := by omega
        push_cast [e]; ring
      rw [this]; exact hrow
  have e : ((height : Int).tdiv 2).toNat = height / 2 := by
    have : (height : Int).tdiv 2 = ((height / 2 : Nat) : Int) := (Int.ofNat_tdiv height 2).symm
    rw [this, Int.toNat_ofNat]
  obtain ⟨out, log', hc1, hu1, hl1, hlog, hz⟩ :=
    checked_rows_spec width height channels hsize' hrow' hmax (height / 2) image [] 0
      (by omega) hlen'
  refine ⟨out, log', ?_, ?_, hl1, ?_, ?_⟩
  · simp only [flipImageVertically.checked, e]
    simpa using hc1
  · simp only [flipImageVertically, e]
    exact_mod_cast hu1
  · intro p hp
    have := hlog p hp
    rw [hlen] at this
    exact this
  · intro h0
    apply hz
    rcases h0 with h0 | h0
    · left
      have : height ≤ 1 := by exact_mod_cast h0
      omega
    · right
      exact_mod_cast h0

/-- C28 as stated fails: with width 2147483647, height 3, channels 0 and the
empty buffer, `width * height * channels` is 0 and the buffer has that length,
yet in the first iteration `(height - 1 - j) * width` is 4294967294, which does
not fit 32 bits. -/
theorem flipImageVertically_overflow_counterexample :
    (0 : Int) ≤ 2147483647 ∧ (0 : Int) ≤ 3 ∧ (0 : Int) ≤ 0
      ∧ (2147483647 : Int) * 3 * 0 ≤ 2 ^ 31 - 1
      ∧ (([] : List UInt8).length : Int) = 2147483647 * 3 * 0
      ∧ intResult (((3 : Int) - 1 - 0) * 2147483647) = .error .overflow
      ∧ flipImageVertically.checked [] 2147483647 3 0 = .error .overflow := by
  refine ⟨by norm_num, by norm_num, by norm_num, by norm_num, by norm_num, ?_, ?_⟩
  · rfl
  · rfl

/-- C28 (amended): for `width`, `height`, `channels` of at least 0, `height` an
`int`, with `width * height * channels` and `(height - 1) * width` at most
2^31 - 1, and a buffer of exactly `width * height * channels` bytes, the run of
`flipImageVertically` on 32-bit `int` ends without a fault: no `int` result
leaves the 32-bit range, every index read or written lies in
[0, `width * height * channels`), and both loops end; its buffer is the one of
the run in exact arithmetic. For `height` at most 1 or `width * channels` 0 it
makes no access and leaves the buffer as it is. -/
theorem flipImageVertically_checked_in_bounds (image : List UInt8)
    (width height channels : Int) (hw : 0 ≤ width) (hh : 0 ≤ height) (hc : 0 ≤ channels)
    (hmax : height ≤ 2 ^ 31 - 1) (hsize : width * height * channels ≤ 2 ^ 31 - 1)
    (hrow : (height - 1) * width ≤ 2 ^ 31 - 1)
    (hlen : (image.length : Int) = width * height * channels) :
    ∃ out accesses,
      flipImageVertically.checked image width height channels = .ok (out, accesses)
        ∧ flipImageVertically image width height channels = some out
        ∧ out.length = image.length
        ∧ (∀ p ∈ accesses, 0 ≤ p ∧ p < width * height * channels)
        ∧ ((height ≤ 1 ∨ width * channels = 0) → accesses = [] ∧ out = image) :=
  flipImageVertically_checked_of_bounds image width height channels hw hh hc hmax hsize hrow
    hlen

/-- C28 (amended) on a 1 by 2 image of two channels. -/
theorem flipImageVertically_checked_in_bounds_witness :
    ∃ out accesses,
      flipImageVertically.checked [1, 2, 3, 4] 1 2 2 = .ok (out, accesses)
        ∧ flipImageVertically [1, 2, 3, 4] 1 2 2 = some out
        ∧ out.length = 4
        ∧ (∀ p ∈ accesses, 0 ≤ p ∧ p < (1 : Int) * 2 * 2)
        ∧ (((2 : Int) ≤ 1 ∨ (1 : Int) * 2 = 0) → accesses = [] ∧ out = [1, 2, 3, 4]) :=
  flipImageVertically_checked_in_bounds [1, 2, 3, 4] 1 2 2 (by decide) (by decide) (by decide)
    (by norm_num) (by norm_num) (by norm_num) (by decide)

/-! ## `flipImageVertically`: the 32-bit run and the exact run -/

theorem intResult_eq_ok {x y : Int} (h : intResult x = .ok y) : y = x := by
  unfold intResult at h
  split at h
  · exact (Except.ok.inj h).symm
  · exact absurd h (by simp)

theorem intResult_bind_ok {β : Type} {x : Int} {f : Int → Except Fault β} {r : β}
    (h : (intResult x >>= f) = .ok r) : f x = .ok r := by
  obtain ⟨a, h1, h2⟩ := (bind_eq_ok _ _ _).mp h
  rw [intResult_eq_ok h1] at h2
  exact h2

theorem checked_row_exact (t : Nat) :
    ∀ (image : List UInt8) (log : List Int) (index1 index2 : Int) (r : List UInt8 × List Int),
      flipImageVertically.checked.row image log index1 index2 t = .ok r →
      flipImageVertically.row image index1 index2 t = some r.1 := by
  induction t with
  | zero =>
    intro image log index1 index2 r h
    simp only [flipImageVertically.checked.row, Except.ok.injEq] at h
    subst h
    rfl
  | succ t ih =>
    intro image log index1 index2 r h
    simp only [flipImageVertically.checked.row] at h
    simp only [flipImageVertically.row]
    split at h
    · rename_i hpos
      rw [if_pos hpos]
      split at h
      · rename_i tmp b h1 h2
        have h3 := intResult_bind_ok h
        have h4 := intResult_bind_ok h3
        exact ih _ _ _ _ _ h4
      · exact absurd h (by simp)
    · exact absurd h (by simp)

theorem checked_rows_exact (width height channels : Int) (n : Nat) :
    ∀ (image : List UInt8) (log : List Int) (j : Int) (r : List UInt8 × List Int),
      flipImageVertically.checked.rows image log width height channels j n = .ok r →
      flipImageVertically.rows image width height channels j n = some r.1 := by
  induction n with
  | zero =>
    intro image log j r h
    simp only [flipImageVertically.checked.rows, Except.ok.injEq] at h
    subst h
    rfl
  | succ n ih =>
    intro image log j r h
    simp only [flipImageVertically.checked.rows] at h
    have h1 := intResult_bind_ok h
    have h2 := intResult_bind_ok h1
    have h3 := intResult_bind_ok h2
    have h4 := intResult_bind_ok h3
    have h5 := intResult_bind_ok h4
    have h6 := intResult_bind_ok h5
    have h7 := intResult_bind_ok h6
    obtain ⟨r1, hr1, h8⟩ := (bind_eq_ok _ _ _).mp h7
    have h9 := intResult_bind_ok h8
    simp only [flipImageVertically.rows, checked_row_exact _ _ _ _ _ _ hr1]
    exact ih _ _ _ _ h9

/-- Whenever the run of `flipImageVertically` on 32-bit `int` ends without a
fault, the run in exact arithmetic leaves the same buffer. -/
theorem flipImageVertically_checked_exact (image : List UInt8) (width height channels : Int)
    (r : List UInt8 × List Int)
    (h : flipImageVertically.checked image width height channels = .ok r) :
    flipImageVertically image width height channels = some r.1 :=
  checked_rows_exact width height channels _ image [] 0 r h

/-! ## `flipImageVertically`: rows reversed, and twice -/

/-- C7 as stated fails: for a 32768 by 32768 image of 3 channels, with a
buffer of 32768 * 32768 * 3 bytes, the first iteration computes
`(height - 1 - j) * width * channels` = 32767 * 32768 * 3 = 3221127168, which
does not fit a 32-bit `int`: the run has no defined result. -/
theorem flipImageVertically_reverses_rows_counterexample :
    (0 : Int) ≤ 32768 ∧ (0 : Int) ≤ 3
      ∧ ((List.replicate 3221225472 (0 : UInt8)).length : Int) = 32768 * 32768 * 3
      ∧ ((32768 : Int) - 1 - 0) * 32768 * 3 = 3221127168
      ∧ intResult 3221127168 = .error .overflow
      ∧ flipImageVertically.checked (List.replicate 3221225472 0) 32768 32768 3
          = .error .overflow := by
  refine ⟨by norm_num, by norm_num, ?_, by norm_num, rfl, rfl⟩
  rw [List.length_replicate]
  norm_num

/-- C7 (amended): for a buffer of `height` rows of `width * channels` bytes
(all three non-negative, `height` an `int`, the buffer
`width * height * channels` bytes long) with `width * height * channels` and
`(height - 1) * width` at most 2^31 - 1, `flipImageVertically` on 32-bit `int`
returns without a fault, keeps the length, and leaves at row `r`, offset `k`
the byte that was at row `height - 1 - r`, offset `k`, for every row
`r < height` and offset `k < width * channels`; for odd `height` the middle
row is as it was. -/
theorem flipImageVertically_reverses_rows (image : List UInt8) (width height channels : Int)
    (hw : 0 ≤ width) (hh : 0 ≤ height) (hc : 0 ≤ channels)
    (hmax : height ≤ 2 ^ 31 - 1) (hsize : width * height * channels ≤ 2 ^ 31 - 1)
    (hrow : (height - 1) * width ≤ 2 ^ 31 - 1)
    (hlen : (image.length : Int) = width * height * channels) :
    ∃ out accesses,
      flipImageVertically.checked image width height channels = .ok (out, accesses)
        ∧ out.length = image.length
        ∧ (∀ r k : Nat, (r : Int) < height → (k : Int) < width * channels →
            ∃ b, image[(height.toNat - 1 - r) * (width * channels).toNat + k]? = some b
              ∧ out[r * (width * channels).toNat + k]? = some b)
        ∧ (height % 2 = 1 → ∀ k : Nat, (k : Int) < width * channels →
            out[height.toNat / 2 * (width * channels).toNat + k]?
              = image[height.toNat / 2 * (width * channels).toNat + k]?) := by
  obtain ⟨out, accesses, h1, h2, -, -, -⟩ :=
    flipImageVertically_checked_of_bounds image width height channels hw hh hc hmax hsize hrow
      hlen
  obtain ⟨out2, h3, h4, h5⟩ :=
    flipImageVertically_of_wellFormed image width height channels hw hh hc hlen
  rw [h2] at h3
  cases h3
  refine ⟨out, accesses, h1, h4, h5, ?_⟩
  intro hodd k hk
  obtain ⟨b, hb1, hb2⟩ := h5 (height.toNat / 2) k (by omega) hk
  have e : height.toNat - 1 - height.toNat / 2 = height.toNat / 2 := by omega
  rw [e] at hb1
  rw [hb1, hb2]

/-- C7 (amended) at a 1 by 3 image of 2 channels: the three rows `[1,2]`,
`[3,4]`, `[5,6]` come back as `[5,6]`, `[3,4]`, `[1,2]`, the middle row in
place. -/
theorem flipImageVertically_reverses_rows_witness :
    flipImageVertically.checked [1, 2, 3, 4, 5, 6] 1 3 2
        = .ok ([5, 6, 3, 4, 1, 2], [0, 4, 0, 4, 1, 5, 1, 5])
      ∧ ∃ out accesses,
        flipImageVertically.checked [1, 2, 3, 4, 5, 6] 1 3 2 = .ok (out, accesses)
          ∧ out.length = [(1 : UInt8), 2, 3, 4, 5, 6].length
          ∧ (∀ r k : Nat, (r : Int) < 3 → (k : Int) < 1 * 2 →
              ∃ b, [(1 : UInt8), 2, 3, 4, 5, 6][((3 : Int).toNat - 1 - r)
                    * ((1 : Int) * 2).toNat + k]? = some b
                ∧ out[r * ((1 : Int) * 2).toNat + k]? = some b)
          ∧ ((3 : Int) % 2 = 1 → ∀ k : Nat, (k : Int) < 1 * 2 →
              out[(3 : Int).toNat / 2 * ((1 : Int) * 2).toNat + k]?
                = [(1 : UInt8), 2, 3, 4, 5, 6][(3 : Int).toNat / 2
                    * ((1 : Int) * 2).toNat + k]?) :=
  ⟨rfl,
    flipImageVertically_reverses_rows [1, 2, 3, 4, 5, 6] 1 3 2 (by decide) (by decide)
      (by decide) (by norm_num) (by norm_num) (by norm_num) (by decide)⟩

/-- C27 as stated fails: for a 65536 by 65536 image of 1 channel, with a
buffer of 65536 * 65536 bytes, the first iteration computes
`(height - 1 - j) * width` = 65535 * 65536 = 4294901760, which does not fit a
32-bit `int`: the first application already has no defined result. -/
theorem flipImageVertically_involution_counterexample :
    (0 : Int) ≤ 65536 ∧ (0 : Int) ≤ 1
      ∧ ((List.replicate 4294967296 (0 : UInt8)).length : Int) = 65536 * 65536 * 1
      ∧ ((65536 : Int) - 1 - 0) * 65536 = 4294901760
      ∧ intResult 4294901760 = .error .overflow
      ∧ flipImageVertically.checked (List.replicate 4294967296 0) 65536 65536 1
          = .error .overflow := by
  refine ⟨by norm_num, by norm_num, ?_, by norm_num, rfl, rfl⟩
  rw [List.length_replicate]
  norm_num

/-- C27 (amended): for `width`, `height`, `channels` of at least 0, `height`
an `int`, with `width * height * channels` and `(height - 1) * width` at most
2^31 - 1, and a buffer of `width * height * channels` bytes,
`flipImageVertically` on 32-bit `int` returns without a fault, applying it
again to its result returns the original buffer without a fault, and its
result is a permutation of the buffer: the same length and the same bytes with
the same multiplicities. -/
theorem flipImageVertically_involution (image : List UInt8) (width height channels : Int)
    (hw : 0 ≤ width) (hh : 0 ≤ height) (hc : 0 ≤ channels)
    (hmax : height ≤ 2 ^ 31 - 1) (hsize : width * height * channels ≤ 2 ^ 31 - 1)
    (hrow : (height - 1) * width ≤ 2 ^ 31 - 1)
    (hlen : (image.length : Int) = width * height * channels) :
    ∃ out accesses,
      flipImageVertically.checked image width height channels = .ok (out, accesses)
        ∧ (∃ accesses2,
            flipImageVertically.checked out width height channels = .ok (image, accesses2))
        ∧ out.length = image.length
        ∧ out.Perm image
        ∧ ∀ b, out.count b = image.count b := by
  obtain ⟨out, accesses, h1, h2, hl, -, -⟩ :=
    flipImageVertically_checked_of_bounds image width height channels hw hh hc hmax hsize hrow
      hlen
  obtain ⟨back, accesses2, h3, h4, -, -, -⟩ :=
    flipImageVertically_checked_of_bounds out width height channels hw hh hc hmax hsize hrow
      (by rw [hl]; exact hlen)
  have hperm : out.Perm image := rows_perm _ _ _ _ _ _ _ h2
  have hback : flipImageVertically out width height channels = some image := by
    lift width to ℕ using hw
    lift height to ℕ using hh
    lift channels to ℕ using hc
    have hlen2 : image.length = height * (width * channels) := by
      have : (image.length : Int) = ((height * (width * channels) : Nat) : Int) := by
        rw [hlen]; push_cast; ring
      exact_mod_cast this
    obtain ⟨out2, e1, e2, -⟩ := flipImageVertically_twice image width height channels hlen2
    rw [h2] at e1
    cases e1
    exact e2
  rw [h4] at hback
  cases hback
  exact ⟨out, accesses, h1, ⟨accesses2, h3⟩, hl, hperm, fun b => hperm.count_eq b⟩

/-- C27 (amended) on a 1 by 2 image of two channels: the rows [1, 2] and
[3, 4] change places, and change back. -/
theorem flipImageVertically_involution_witness :
    flipImageVertically.checked [1, 2, 3, 4] 1 2 2 = .ok ([3, 4, 1, 2], [0, 2, 0, 2, 1, 3, 1, 3])
      ∧ ∃ out accesses,
        flipImageVertically.checked [1, 2, 3, 4] 1 2 2 = .ok (out, accesses)
          ∧ (∃ accesses2,
              flipImageVertically.checked out 1 2 2 = .ok ([1, 2, 3, 4], accesses2))
          ∧ out.length = [(1 : UInt8), 2, 3, 4].length
          ∧ out.Perm [1, 2, 3, 4]
          ∧ ∀ b, out.count b = [(1 : UInt8), 2, 3, 4].count b :=
  ⟨rfl,
    flipImageVertically_involution [1, 2, 3, 4] 1 2 2 (by decide) (by decide) (by decide)
      (by norm_num) (by norm_num) (by norm_num) (by decide)⟩

/-! ## The offsets of `UMousePositionCallback` -/

theorem UMousePositionCallback_gCamera (m : FloatMath) (xpos ypos : ℚ) (s : App) :
    (UMousePositionCallback m xpos ypos s).gCamera
      = s.gCamera.ProcessMouseMovement m (UMousePositionCallback.offsets xpos ypos s).1
          (UMousePositionCallback.offsets xpos ypos s).2 := by
  unfold UMousePositionCallback UMousePositionCallback.offsets
  cases s.gFirstMouse <;> rfl

theorem UMousePositionCallback_last (m : FloatMath) (xpos ypos : ℚ) (s : App) :
    (UMousePositionCallback m xpos ypos s).gFirstMouse = false
      ∧ (UMousePositionCallback m xpos ypos s).gLastX = xpos
      ∧ (UMousePositionCallback m xpos ypos s).gLastY = ypos := by
  unfold UMousePositionCallback
  cases h : s.gFirstMouse <;> simp [h]

theorem cursorOffsets_of_not_first (m : FloatMath) (ps : List (ℚ × ℚ)) :
    ∀ (s : App) (q : ℚ × ℚ), s.gFirstMouse = false → s.gLastX = q.1 → s.gLastY = q.2 →
      cursorOffsets m s ps
        = List.zipWith (fun a b => (b.1 - a.1, a.2 - b.2)) (q :: ps) ps := by
  induction ps with
  | nil => intro s q _ _ _; rfl
  | cons p ps ih =>
    intro s q hf hx hy
    obtain ⟨h1, h2, h3⟩ := UMousePositionCallback_last m p.1 p.2 s
    rw [cursorOffsets, ih _ p h1 h2 h3]
    simp [UMousePositionCallback.offsets, hf, hx, hy]

theorem zipWith_sum_fst (ps : List (ℚ × ℚ)) :
    ∀ q : ℚ × ℚ,
      ((List.zipWith (fun a b => ((b.1 - a.1, a.2 - b.2) : ℚ × ℚ)) (q :: ps) ps).map Prod.fst).sum
          = ((q :: ps).getLast (List.cons_ne_nil _ _)).1 - q.1
        ∧ ((List.zipWith (fun a b => ((b.1 - a.1, a.2 - b.2) : ℚ × ℚ)) (q :: ps) ps).map
            Prod.snd).sum
          = q.2 - ((q :: ps).getLast (List.cons_ne_nil _ _)).2 := by
  induction ps with
  | nil => intro q; simp
  | cons p ps ih =>
    intro q
    obtain ⟨h1, h2⟩ := ih p
    simp only [List.zipWith_cons_cons, List.map_cons, List.sum_cons, h1, h2,
      List.getLast_cons (List.cons_ne_nil p ps)]
    constructor <;> ring

theorem deliverCursor_last (m : FloatMath) (ps : List (ℚ × ℚ)) :
    ∀ (s : App) (p0 : ℚ × ℚ),
      (deliverCursor m s (p0 :: ps)).gFirstMouse = false
        ∧ (deliverCursor m s (p0 :: ps)).gLastX = ((p0 :: ps).getLast (List.cons_ne_nil _ _)).1
        ∧ (deliverCursor m s (p0 :: ps)).gLastY
            = ((p0 :: ps).getLast (List.cons_ne_nil _ _)).2 := by
  induction ps with
  | nil =>
    intro s p0
    exact UMousePositionCallback_last m p0.1 p0.2 s
  | cons p ps ih =>
    intro s p0
    have h := ih (UMousePositionCallback m p0.1 p0.2 s) p
    simpa [deliverCursor, List.getLast_cons (List.cons_ne_nil p ps)] using h

/-- C29: when the cursor positions (x0, y0), ..., (xn, yn) are delivered to
`UMousePositionCallback` from a state with `gFirstMouse` true, the offsets given
to `ProcessMouseMovement` are (0, 0) on the first call and
(x_i - x_(i-1), y_(i-1) - y_i) on call i; the x offsets sum to xn - x0 and the y
offsets to y0 - yn, whatever `gLastX` and `gLastY` were; afterwards
`gFirstMouse` is false and (`gLastX`, `gLastY`) is (xn, yn). The arithmetic is
exact. -/
theorem UMousePositionCallback_offsets_telescope (m : FloatMath) (s : App) (p0 : ℚ × ℚ)
    (ps : List (ℚ × ℚ)) (h : s.gFirstMouse = true) :
    cursorOffsets m s (p0 :: ps)
        = (0, 0) :: List.zipWith (fun a b => (b.1 - a.1, a.2 - b.2)) (p0 :: ps) ps
      ∧ ((cursorOffsets m s (p0 :: ps)).map Prod.fst).sum
          = ((p0 :: ps).getLast (List.cons_ne_nil _ _)).1 - p0.1
      ∧ ((cursorOffsets m s (p0 :: ps)).map Prod.snd).sum
          = p0.2 - ((p0 :: ps).getLast (List.cons_ne_nil _ _)).2
      ∧ (deliverCursor m s (p0 :: ps)).gFirstMouse = false
      ∧ (deliverCursor m s (p0 :: ps)).gLastX = ((p0 :: ps).getLast (List.cons_ne_nil _ _)).1
      ∧ (deliverCursor m s (p0 :: ps)).gLastY = ((p0 :: ps).getLast (List.cons_ne_nil _ _)).2
      ∧ (∀ (xpos ypos : ℚ) (s : App),
          (UMousePositionCallback m xpos ypos s).gCamera
            = s.gCamera.ProcessMouseMovement m (UMousePositionCallback.offsets xpos ypos s).1
                (UMousePositionCallback.offsets xpos ypos s).2) := by
  obtain ⟨h1, h2, h3⟩ := UMousePositionCallback_last m p0.1 p0.2 s
  have e : cursorOffsets m s (p0 :: ps)
      = (0, 0) :: List.zipWith (fun a b => (b.1 - a.1, a.2 - b.2)) (p0 :: ps) ps := by
    rw [cursorOffsets, cursorOffsets_of_not_first m ps _ p0 h1 h2 h3]
    simp [UMousePositionCallback.offsets, h]
  obtain ⟨s1, s2⟩ := zipWith_sum_fst ps p0
  obtain ⟨d1, d2, d3⟩ := deliverCursor_last m ps s p0
  refine ⟨e, ?_, ?_, d1, d2, d3, UMousePositionCallback_gCamera m⟩
  · rw [e, List.map_cons, List.sum_cons, s1]; simp
  · rw [e, List.map_cons, List.sum_cons, s2]; simp

/-- C29 on the positions (1, 2), (4, 6) delivered from the initial state: the
offsets are (0, 0) and (3, -4). -/
theorem UMousePositionCallback_offsets_telescope_witness :
    App.initial.gFirstMouse = true
      ∧ cursorOffsets FloatMath.axial App.initial [(1, 2), (4, 6)]
        = (0, 0) :: List.zipWith (fun a b => (b.1 - a.1, a.2 - b.2)) [(1, 2), (4, 6)] [(4, 6)] :=
  ⟨rfl, (UMousePositionCallback_offsets_telescope FloatMath.axial App.initial (1, 2) [(4, 6)]
    rfl).1⟩

/-! ## The indexed draws -/

set_option maxRecDepth 100000 in
/-- C30: in every frame of a run whose startup succeeded, the seven indexed
draws (floor, PlayStation body, Game Boy, Donkey Kong, Red Alert, light source
twice) are each issued with the vertex array of a mesh bound and the `nIndices`
of that same mesh as index count, and no other draw is indexed. The floor's
count is the length 6 of the plane's index array and every plane index is below
its 4 vertices; the count of each cube mesh is the length 36 of the cube's
index array and every cube index is below its 24 vertices. `UCreatePlaneMesh`
and `UCreateCube` store these counts and upload these arrays with the vertex
array of the mesh bound. -/
theorem URender_indexed_draws_in_bounds (argc : Int) (argv : List String) (env : Env)
    (s0 : App) (frames : List FrameInput) (isPerspectiveView : Bool)
    (h : main.startup argc argv env = .ok s0) :
    (∀ im ∈ [(0, (runFrames env s0 frames).gMeshFloor),
          (1, (runFrames env s0 frames).gMeshPlaystation),
          (5, (runFrames env s0 frames).gMeshGB), (6, (runFrames env s0 frames).gMeshDK),
          (7, (runFrames env s0 frames).gMeshRedAlert),
          (11, (runFrames env s0 frames).gMeshLightSource),
          (12, (runFrames env s0 frames).gMeshLightSource)],
        ∃ d, (URender.draws isPerspectiveView (runFrames env s0 frames))[im.1]? = some d
          ∧ d.vao = im.2.vao ∧ d.call = .drawElements .GL_TRIANGLES im.2.nIndices)
      ∧ (((URender.draws isPerspectiveView (runFrames env s0 frames)).map Draw.call).map
            GLCmd.isDrawElements
          = [true, true, false, false, false, true, true, true, false, false, false, true, true])
      ∧ ((runFrames env s0 frames).gMeshFloor.nIndices = UCreatePlaneMesh.indices.length
          ∧ (runFrames env s0 frames).gMeshFloor.nVertices
              = UCreatePlaneMesh.verts.length / floatsPerRow
          ∧ (runFrames env s0 frames).gMeshFloor.nVertices = 4
          ∧ ∀ i ∈ UCreatePlaneMesh.indices, i < (runFrames env s0 frames).gMeshFloor.nVertices)
      ∧ (∀ mesh ∈ [(runFrames env s0 frames).gMeshPlaystation, (runFrames env s0 frames).gMeshGB,
          (runFrames env s0 frames).gMeshDK, (runFrames env s0 frames).gMeshRedAlert,
          (runFrames env s0 frames).gMeshLightSource],
          mesh.nIndices = UCreateCube.indices.length
            ∧ mesh.nVertices = UCreateCube.verts.length / floatsPerRow
            ∧ mesh.nVertices = 24
            ∧ ∀ i ∈ UCreateCube.indices, i < mesh.nVertices)
      ∧ (∀ (mesh : GLMesh) (s : App),
          (UCreatePlaneMesh mesh s).1.nIndices = UCreatePlaneMesh.indices.length
            ∧ (UCreatePlaneMesh mesh s).1.nVertices = UCreatePlaneMesh.verts.length / floatsPerRow
            ∧ (UCreatePlaneMesh mesh s).2.gl.calls
              = s.gl.calls ++
                [ .genVertexArrays (UCreatePlaneMesh mesh s).1.vao,
                  .bindVertexArray (UCreatePlaneMesh mesh s).1.vao,
                  .genBuffers [(UCreatePlaneMesh mesh s).1.vbos.1,
                    (UCreatePlaneMesh mesh s).1.vbos.2],
                  .bindBuffer .GL_ARRAY_BUFFER (UCreatePlaneMesh mesh s).1.vbos.1,
                  .bufferData .GL_ARRAY_BUFFER (.floats UCreatePlaneMesh.verts),
                  .bindBuffer .GL_ELEMENT_ARRAY_BUFFER (UCreatePlaneMesh mesh s).1.vbos.2,
                  .bufferData .GL_ELEMENT_ARRAY_BUFFER (.uints UCreatePlaneMesh.indices),
                  .vertexAttribPointer 0 3 (sizeofGL * floatsPerRow) 0,
                  .enableVertexAttribArray 0,
                  .vertexAttribPointer 1 3 (sizeofGL * floatsPerRow) (sizeofGL * 3),
                  .enableVertexAttribArray 1,
                  .vertexAttribPointer 2 2 (sizeofGL * floatsPerRow) (sizeofGL * 6),
                  .enableVertexAttribArray 2 ])
      ∧ (∀ (mesh : GLMesh) (s : App),
          (UCreateCube mesh s).1.nIndices = UCreateCube.indices.length
            ∧ (UCreateCube mesh s).1.nVertices = UCreateCube.verts.length / floatsPerRow
            ∧ (UCreateCube mesh s).2.gl.calls
              = s.gl.calls ++
                [ .genVertexArrays (UCreateCube mesh s).1.vao,
                  .bindVertexArray (UCreateCube mesh s).1.vao,
                  .genBuffers [(UCreateCube mesh s).1.vbos.1, (UCreateCube mesh s).1.vbos.2],
                  .bindBuffer .GL_ARRAY_BUFFER (UCreateCube mesh s).1.vbos.1,
                  .bufferData .GL_ARRAY_BUFFER (.floats UCreateCube.verts),
                  .bindBuffer .GL_ELEMENT_ARRAY_BUFFER (UCreateCube mesh s).1.vbos.2,
                  .bufferData .GL_ELEMENT_ARRAY_BUFFER (.uints UCreateCube.indices),
                  .vertexAttribPointer 0 3 (sizeofGL * floatsPerRow) 0,
                  .enableVertexAttribArray 0,
                  .vertexAttribPointer 1 3 (sizeofGL * floatsPerRow) (sizeofGL * 3),
                  .enableVertexAttribArray 1,
                  .vertexAttribPointer 2 2 (sizeofGL * floatsPerRow) (sizeofGL * 6),
                  .enableVertexAttribArray 2 ]) := by
  obtain ⟨-, hf, hps, -, hgb, hdk, hra, -, hls⟩ := reachable_assets argc argv env s0 frames h
  refine ⟨?_, ?_, ?_, ?_, ?_, ?_⟩
  · intro im him
    simp only [List.mem_cons, List.mem_singleton, List.not_mem_nil, or_false] at him
    rcases him with rfl | rfl | rfl | rfl | rfl | rfl | rfl <;>
      exact draw_call_vao isPerspectiveView _ _ _ _ (by rw [URender_transforms]; rfl)
  · have e : ((URender.draws isPerspectiveView (runFrames env s0 frames)).map Draw.call).map
          GLCmd.isDrawElements
        = ((URender.draws isPerspectiveView (runFrames env s0 frames)).map Draw.transforms).map
            fun t => t.call.isDrawElements := by
      simp only [List.map_map]
      rfl
    rw [e, URender_transforms]
    rfl
  · rw [hf]
    refine ⟨rfl, rfl, rfl, ?_⟩
    decide
  · intro mesh hm
    simp only [List.mem_cons, List.mem_singleton, List.not_mem_nil, or_false] at hm
    rw [hps, hgb, hdk, hra, hls] at hm
    have hmesh : mesh.nIndices = 36 ∧ mesh.nVertices = 24 := by
      rcases hm with rfl | rfl | rfl | rfl | rfl <;> exact ⟨rfl, rfl⟩
    refine ⟨hmesh.1.trans rfl, hmesh.2.trans rfl, hmesh.2, ?_⟩
    rw [hmesh.2]
    decide
  · intro mesh s
    refine ⟨rfl, rfl, ?_⟩
    simp [UCreatePlaneMesh, execAll, exec, GLCmd.effect, floatsPerRow, List.append_assoc]
  · intro mesh s
    refine ⟨rfl, rfl, ?_⟩
    simp [UCreateCube, execAll, exec, GLCmd.effect, floatsPerRow, List.append_assoc]

/-- C30 on the run in `Env.working`, in the frame after one frame with Escape
held: the floor's index count is the length of the plane's index array. -/
theorem URender_indexed_draws_in_bounds_witness :
    main.startup 0 [] Env.working = .ok App.started
      ∧ (runFrames Env.working App.started [FrameInput.escape]).gMeshFloor.nIndices
        = UCreatePlaneMesh.indices.length :=
  ⟨rfl,
    (URender_indexed_draws_in_bounds 0 [] Env.working App.started [FrameInput.escape] true
      rfl).2.2.1.1⟩

end OpenGLSample
